import Mathlib

/-!
# Climate utilities of the land-analysis pipeline

A shallow embedding of `src/utils/ClimateUtils.js`: the location resolver
(`getClimateFromZipcode`, `getHardinessZone`), the recommendation resolver
(`getRecommendedPlants`, `getFengShuiRecommendations`) and the two static
databases they read.

Modelling conventions.

* A JavaScript string is a Lean `String`.  The functions below look at a
  location code only through `charAt 0`, `charAt 1` and whole-string
  equality; a character outside the basic plane is never a decimal digit,
  neither as a code point nor as either of its surrogate halves, so reading
  code points instead of UTF-16 units does not change any result.
* A JavaScript number is `JSNum := Option ℚ`, with `none` standing for `NaN`.
  The only non-integer quantities are thirds, far from every rounding
  threshold, so exact rational arithmetic gives the results of the doubles.
* A plain object literal is an association list of its own properties.
  Reading a property with a computed key also reaches the members the object
  inherits from `Object.prototype`; `jsGet` models that.
-/

namespace ClimateUtils

/-! ## JavaScript values -/

/-- A JavaScript number as far as this file needs it: `none` is `NaN`. -/
abbrev JSNum := Option ℚ

/-- The result of reading `table[key]` on a plain object. -/
inductive JSLookup (α : Type) where
  /-- an own property of the object literal -/
  | own (v : α)
  /-- a member inherited from `Object.prototype` (a function, or the prototype
  itself for `__proto__`): a truthy value that is not a record -/
  | inherited (name : String)
  /-- no such property: `undefined` -/
  | undefined
  deriving DecidableEq, Repr

/-- The string-keyed members of `Object.prototype`, which every object literal
inherits. -/
def objectPrototypeNames : List String :=
  ["constructor", "__defineGetter__", "__defineSetter__", "hasOwnProperty",
   "__lookupGetter__", "__lookupSetter__", "isPrototypeOf", "propertyIsEnumerable",
   "toString", "valueOf", "__proto__", "toLocaleString"]

/-- The value of `table[key]` for an object literal `table`: own properties first, then the
prototype chain, else `undefined`. -/
def jsGet {α : Type} (table : List (String × α)) (key : String) : JSLookup α :=
  match table.lookup key with
  | some v => .own v
  | none => if key ∈ objectPrototypeNames then .inherited key else .undefined

/-- The expression `a || b` where `b` is an own record: `undefined` is the only falsy lookup
result. -/
def JSLookup.orElse {α : Type} (a : JSLookup α) (b : JSLookup α) : JSLookup α :=
  match a with
  | .undefined => b
  | x => x

/-- The value of `s.charAt(i)`: the character at index `i`, or `none` for the empty string that
`charAt` returns past the end. -/
def charAt (s : String) (i : Nat) : Option Char := s.data.get? i

/-- The value of `parseInt(c)` for `c` the result of `charAt`: the digit value for an ASCII decimal
digit, `NaN` for every other character and for the empty string. -/
def parseInt (c : Option Char) : JSNum :=
  match c with
  | some ch => if ch.isDigit then some ((ch.toNat - 48 : Nat) : ℚ) else none
  | none => none

namespace JSNum

/-- The comparison `a <= b`: false as soon as one side is `NaN`. -/
def le (a b : JSNum) : Bool :=
  match a, b with
  | some x, some y => decide (x ≤ y)
  | _, _ => false

/-- The comparison `a < b`: false as soon as one side is `NaN`. -/
def lt (a b : JSNum) : Bool :=
  match a, b with
  | some x, some y => decide (x < y)
  | _, _ => false

/-- The sum `a + b`. -/
def add (a b : JSNum) : JSNum :=
  match a, b with
  | some x, some y => some (x + y)
  | _, _ => none

/-- The difference `a - b`. -/
def sub (a b : JSNum) : JSNum :=
  match a, b with
  | some x, some y => some (x - y)
  | _, _ => none

/-- The quotient `a / b` for a non-zero constant divisor `b`. -/
def div (a b : JSNum) : JSNum :=
  match a, b with
  | some x, some y => some (x / y)
  | _, _ => none

/-- The value of `Math.min(a, b)`: `NaN` as soon as one argument is `NaN`. -/
def min (a b : JSNum) : JSNum :=
  match a, b with
  | some x, some y => some (if x ≤ y then x else y)
  | _, _ => none

/-- The value of `Math.floor(a)`. -/
def floor (a : JSNum) : JSNum :=
  match a with
  | some x => some ((⌊x⌋ : ℤ) : ℚ)
  | none => none

/-- The value of `Math.round(a)`: the nearest integer, halves going up; `none` is `NaN`. -/
def round (a : JSNum) : Option ℤ :=
  match a with
  | some x => some ⌊x + 1 / 2⌋
  | none => none

/-- The text a template literal gives for an integer-valued number or `NaN`. -/
def render (a : Option ℤ) : String :=
  match a with
  | some n => toString n
  | none => "NaN"

end JSNum

/-! ## Records and tables -/

/-- A plant record: an object whose properties are category names, each holding an array of
plant names. -/
abbrev PlantRecord := List (String × List String)

/-- The shape of `PLANT_DATABASE`. -/
structure PlantDatabase where
  climateZones : List (String × PlantRecord)
  zipcodes : List (String × PlantRecord)
  hardinessZones : List (String × PlantRecord)

/-- A property value of an element record: a text or an array of names. -/
inductive JSVal where
  | str (s : String)
  | arr (xs : List String)
  deriving DecidableEq, Repr

/-- An element record: `description`, `placement`, `plants`, `features`. -/
abbrev ElementRecord := List (String × JSVal)

/-- An element table: one element record per element name. -/
abbrev ElementTable := List (String × ElementRecord)

/-- The plant database of the source: three tables of plant records, keyed by climate zone,
by zipcode and by hardiness zone. -/
def PLANT_DATABASE : PlantDatabase where
  climateZones := [
    ("Tropical", [
      ("trees", ["Coconut Palm", "Banana", "Mango", "Jackfruit", "Breadfruit"]),
      ("shrubs", ["Hibiscus", "Bougainvillea", "Bird of Paradise", "Heliconia", "Plumeria"]),
      ("perennials", ["Anthurium", "Bromeliad", "Orchid", "Ginger", "Canna Lily"]),
      ("annuals", ["Coleus", "Impatiens", "Caladium", "Begonia", "Marigold"]),
      ("groundcovers", ["Mondo Grass", "Beach Sunflower", "Perennial Peanut", "Blue Daze", "Asian Jasmine"]),
      ("edibles", ["Papaya", "Pineapple", "Passion Fruit", "Avocado", "Turmeric"])]),
    ("Subtropical", [
      ("trees", ["Citrus", "Olive", "Fig", "Peach", "Loquat"]),
      ("shrubs", ["Gardenia", "Camellia", "Azalea", "Oleander", "Lantana"]),
      ("perennials", ["Agapanthus", "Coreopsis", "Daylily", "Salvia", "Verbena"]),
      ("annuals", ["Zinnia", "Cosmos", "Sunflower", "Nasturtium", "Sweet Alyssum"]),
      ("groundcovers", ["Creeping Thyme", "Lantana", "Asiatic Jasmine", "Liriope", "Creeping Jenny"]),
      ("edibles", ["Citrus", "Strawberry", "Blueberry", "Tomato", "Pepper"])]),
    ("Temperate", [
      ("trees", ["Maple", "Oak", "Cherry", "Apple", "Dogwood"]),
      ("shrubs", ["Hydrangea", "Rhododendron", "Viburnum", "Lilac", "Forsythia"]),
      ("perennials", ["Hosta", "Astilbe", "Echinacea", "Black-eyed Susan", "Sedum"]),
      ("annuals", ["Petunia", "Pansy", "Snapdragon", "Marigold", "Sweet Pea"]),
      ("groundcovers", ["Creeping Phlox", "Vinca", "Pachysandra", "Sweet Woodruff", "Ajuga"]),
      ("edibles", ["Apple", "Pear", "Raspberry", "Blackberry", "Kale"])]),
    ("Continental", [
      ("trees", ["Birch", "Spruce", "Pine", "Larch", "Aspen"]),
      ("shrubs", ["Juniper", "Potentilla", "Ninebark", "Serviceberry", "Red-twig Dogwood"]),
      ("perennials", ["Yarrow", "Russian Sage", "Catmint", "Daylily", "Coneflower"]),
      ("annuals", ["Geranium", "Alyssum", "Calendula", "Nasturtium", "Viola"]),
      ("groundcovers", ["Sedum", "Creeping Juniper", "Arctic Willow", "Bearberry", "Kinnikinnick"]),
      ("edibles", ["Rhubarb", "Currant", "Gooseberry", "Haskap", "Hardy Kiwi"])]),
    ("Arid", [
      ("trees", ["Mesquite", "Palo Verde", "Desert Willow", "Joshua Tree", "Acacia"]),
      ("shrubs", ["Sage", "Ocotillo", "Creosote Bush", "Brittlebush", "Jojoba"]),
      ("perennials", ["Agave", "Yucca", "Aloe", "Penstemon", "Desert Marigold"]),
      ("annuals", ["Desert Lupine", "California Poppy", "Desert Sunflower", "Globe Mallow", "Desert Bluebells"]),
      ("groundcovers", ["Ice Plant", "Trailing Lantana", "Blackfoot Daisy", "Desert Zinnia", "Trailing Indigo Bush"]),
      ("edibles", ["Prickly Pear", "Pomegranate", "Date Palm", "Fig", "Jujube"])]),
    ("Default", [
      ("trees", ["Oak", "Maple", "Pine", "Fruit Trees", "Flowering Dogwood"]),
      ("shrubs", ["Hydrangea", "Lilac", "Boxwood", "Azalea", "Rhododendron"]),
      ("perennials", ["Lavender", "Echinacea", "Black-eyed Susan", "Daylily", "Hosta"]),
      ("annuals", ["Marigold", "Zinnia", "Petunia", "Sunflower", "Cosmos"]),
      ("groundcovers", ["Creeping Thyme", "Sedum", "Vinca", "Pachysandra", "Ajuga"]),
      ("edibles", ["Tomato", "Pepper", "Lettuce", "Herbs", "Berries"])])]
  zipcodes := [
    ("95460", [
      ("trees", ["Coast Redwood", "Douglas Fir", "California Bay Laurel", "Madrone", "Bishop Pine"]),
      ("shrubs", ["Ceanothus", "Manzanita", "Salal", "California Lilac", "Western Azalea"]),
      ("perennials", ["California Fuchsia", "Seaside Daisy", "Yarrow", "Douglas Iris", "Coast Buckwheat"]),
      ("annuals", ["California Poppy", "Baby Blue Eyes", "Clarkia", "Lupine", "Farewell-to-Spring"]),
      ("groundcovers", ["Kinnikinnick", "Beach Strawberry", "Yerba Buena", "Wild Ginger", "Redwood Sorrel"]),
      ("edibles", ["Huckleberry", "Thimbleberry", "Elderberry", "Miners Lettuce", "Bay Nuts"])]),
    ("90210", [
      ("trees", ["Coast Live Oak", "Western Sycamore", "California Pepper", "Olive", "Jacaranda"]),
      ("shrubs", ["Toyon", "Lemonade Berry", "Coffeeberry", "White Sage", "Cleveland Sage"]),
      ("perennials", ["Matilija Poppy", "Island Snapdragon", "Chalk Dudleya", "Channel Island Tree Poppy", "Catalina Silverlace"]),
      ("annuals", ["Tidy Tips", "Globe Gilia", "California Poppy", "Desert Bluebells", "Goldfields"]),
      ("groundcovers", ["Creeping Sage", "Coyote Mint", "Deer Grass", "Canyon Prince Wild Rye", "Carex"]),
      ("edibles", ["Prickly Pear", "Lemonade Berry", "Manzanita Berries", "Chia", "California Bay"])]),
    ("98101", [
      ("trees", ["Western Red Cedar", "Sitka Spruce", "Vine Maple", "Pacific Dogwood", "Shore Pine"]),
      ("shrubs", ["Salal", "Oregon Grape", "Red Flowering Currant", "Evergreen Huckleberry", "Snowberry"]),
      ("perennials", ["Sword Fern", "Deer Fern", "Inside-Out Flower", "Columbine", "Western Bleeding Heart"]),
      ("annuals", ["Farewell-to-Spring", "Sea Blush", "Miners Lettuce", "Spring Gold", "Blue-eyed Mary"]),
      ("groundcovers", ["Kinnikinnick", "Wild Ginger", "False Lily of the Valley", "Bunchberry", "Twinflower"]),
      ("edibles", ["Salmonberry", "Thimbleberry", "Trailing Blackberry", "Huckleberry", "Oregon Grape"])]),
    ("10001", [
      ("trees", ["Red Maple", "American Sweetgum", "Pin Oak", "American Hornbeam", "Serviceberry"]),
      ("shrubs", ["Winterberry Holly", "Arrowwood Viburnum", "New Jersey Tea", "Summersweet", "Bayberry"]),
      ("perennials", ["New England Aster", "Butterfly Weed", "Joe Pye Weed", "Cardinal Flower", "Blue Flag Iris"]),
      ("annuals", ["Sunflower", "Partridge Pea", "Plains Coreopsis", "Spotted Beebalm", "Annual Phlox"]),
      ("groundcovers", ["Wild Ginger", "Foamflower", "Wild Strawberry", "Pennsylvania Sedge", "Creeping Phlox"]),
      ("edibles", ["Highbush Blueberry", "Pawpaw", "American Persimmon", "Serviceberry", "Wild Strawberry"])]),
    ("78701", [
      ("trees", ["Texas Live Oak", "Texas Mountain Laurel", "Mexican Plum", "Desert Willow", "Texas Redbud"]),
      ("shrubs", ["Agarita", "Cenizo", "Flame Acanthus", "Texas Sage", "Yaupon Holly"]),
      ("perennials", ["Blackfoot Daisy", "Mealy Blue Sage", "Greggs Mistflower", "Rock Penstemon", "Autumn Sage"]),
      ("annuals", ["Bluebonnet", "Indian Blanket", "Pink Evening Primrose", "Drummond Phlox", "Texas Paintbrush"]),
      ("groundcovers", ["Frogfruit", "Horseherb", "Silver Ponyfoot", "Snake Herb", "Woolly Stemodia"]),
      ("edibles", ["Agarita Berry", "Texas Persimmon", "Mustang Grape", "Dewberry", "Prickly Pear"])])]
  hardinessZones := [
    ("3a", [
      ("trees", ["Paper Birch", "Siberian Larch", "Amur Maple", "Quaking Aspen", "Jack Pine"]),
      ("shrubs", ["Nanking Cherry", "Common Lilac", "Dwarf Arctic Willow", "Siberian Peashrub", "Red-osier Dogwood"]),
      ("perennials", ["Siberian Iris", "Iceland Poppy", "Hens and Chicks", "Sea Thrift", "Pasque Flower"]),
      ("edibles", ["Honeyberry", "Highbush Cranberry", "Rhubarb", "Chives", "Alpine Strawberry"])]),
    ("4b", [
      ("trees", ["Norway Spruce", "River Birch", "Kentucky Coffeetree", "American Linden", "Hackberry"]),
      ("shrubs", ["Arrowwood Viburnum", "Annabelle Hydrangea", "Ninebark", "Forsythia", "Dwarf Bush Honeysuckle"]),
      ("perennials", ["Bleeding Heart", "Columbine", "Peony", "Daylily", "Coral Bells"]),
      ("edibles", ["Apple", "Plum", "Currant", "Gooseberry", "Asparagus"])]),
    ("6a", [
      ("trees", ["Red Maple", "Eastern Redbud", "Serviceberry", "Sweetgum", "River Birch"]),
      ("shrubs", ["Oakleaf Hydrangea", "Winterberry Holly", "Beautyberry", "Summersweet", "Virginia Sweetspire"]),
      ("perennials", ["Baptisia", "Coneflower", "Bee Balm", "Liatris", "Autumn Joy Sedum"]),
      ("edibles", ["Peach", "Cherry", "Blackberry", "Raspberry", "Grapes"])]),
    ("8b", [
      ("trees", ["Crape Myrtle", "Southern Magnolia", "Live Oak", "Bald Cypress", "Windmill Palm"]),
      ("shrubs", ["Camellia", "Loropetalum", "Abelia", "Gardenia", "Bottlebrush"]),
      ("perennials", ["Canna", "Agapanthus", "Lantana", "Mexican Petunia", "Firebush"]),
      ("edibles", ["Fig", "Persimmon", "Citrus", "Blueberry", "Muscadine Grape"])]),
    ("10a", [
      ("trees", ["Royal Poinciana", "Gumbo Limbo", "Coconut Palm", "Mango", "Avocado"]),
      ("shrubs", ["Hibiscus", "Ixora", "Bougainvillea", "Croton", "Plumeria"]),
      ("perennials", ["Bird of Paradise", "Heliconia", "Bromeliad", "Pentas", "Caladium"]),
      ("edibles", ["Banana", "Papaya", "Pineapple", "Passion Fruit", "Starfruit"])])]

/-- The feng shui database of the source: per climate zone, a record for each element. -/
def FENG_SHUI_DATABASE : List (String × ElementTable) := [
  ("Tropical", [
    ("water", [
       ("description", .str "Water elements are naturally abundant in tropical climates"),
       ("placement", .str "North and East areas of the garden"),
       ("plants", .arr ["Taro", "Canna Lily", "Elephant Ear", "Water Lily", "Lotus"]),
       ("features", .arr ["Small pond", "Water fountain", "Birdbath", "Stream"])]),
    ("wood", [
       ("description", .str "Wood elements thrive in the moisture-rich tropical environment"),
       ("placement", .str "East and Southeast areas of the garden"),
       ("plants", .arr ["Bamboo", "Banana", "Palms", "Ficus", "Rubber Tree"]),
       ("features", .arr ["Wooden benches", "Trellises", "Pergolas"])]),
    ("fire", [
       ("description", .str "Fire elements balance the abundant water energy"),
       ("placement", .str "South area of the garden"),
       ("plants", .arr ["Heliconia", "Red Ginger", "Hibiscus", "Anthurium", "Cordyline"]),
       ("features", .arr ["Outdoor lighting", "Fire pit (if climate permits)", "Red garden art"])]),
    ("earth", [
       ("description", .str "Earth elements provide stability and grounding"),
       ("placement", .str "Center, Southwest and Northeast areas of the garden"),
       ("plants", .arr ["Bromeliads", "Crotons", "Ti Plant", "Succulents", "Orchids"]),
       ("features", .arr ["Stone pathways", "Rock gardens", "Terracotta pots"])]),
    ("metal", [
       ("description", .str "Metal elements help control excessive growth"),
       ("placement", .str "West and Northwest areas of the garden"),
       ("plants", .arr ["Silver Buttonwood", "Dusty Miller", "Silver Thyme", "White Flowering Plants"]),
       ("features", .arr ["Wind chimes", "Metal sculptures", "Copper or brass accents"])])]),
  ("Subtropical", [
    ("water", [
       ("description", .str "Water elements provide cooling energy"),
       ("placement", .str "North and East areas of the garden"),
       ("plants", .arr ["Iris", "Canna", "Papyrus", "Taro", "Ferns"]),
       ("features", .arr ["Reflecting pool", "Fountain", "Birdbath"])]),
    ("wood", [
       ("description", .str "Wood elements represent growth and vitality"),
       ("placement", .str "East and Southeast areas of the garden"),
       ("plants", .arr ["Citrus Trees", "Bamboo", "Ficus", "Magnolia", "Crape Myrtle"]),
       ("features", .arr ["Wooden garden structures", "Living walls", "Trellises"])]),
    ("fire", [
       ("description", .str "Fire elements add warmth and passion"),
       ("placement", .str "South area of the garden"),
       ("plants", .arr ["Bougainvillea", "Lantana", "Bird of Paradise", "Red Salvia", "Bottlebrush"]),
       ("features", .arr ["Outdoor lighting", "Fire pit", "BBQ area"])]),
    ("earth", [
       ("description", .str "Earth elements provide stability"),
       ("placement", .str "Center, Southwest and Northeast areas of the garden"),
       ("plants", .arr ["Agave", "Aloe", "Yucca", "Sedum", "Echeveria"]),
       ("features", .arr ["Stone pathways", "Gravel gardens", "Terracotta containers"])]),
    ("metal", [
       ("description", .str "Metal elements add precision and clarity"),
       ("placement", .str "West and Northwest areas of the garden"),
       ("plants", .arr ["Silver Sage", "Lavender", "White Roses", "Dusty Miller", "Lambs Ear"]),
       ("features", .arr ["Metal sculptures", "Wind chimes", "Garden arches"])])]),
  ("Temperate", [
    ("water", [
       ("description", .str "Water elements bring serenity and flow"),
       ("placement", .str "North and East areas of the garden"),
       ("plants", .arr ["Astilbe", "Hosta", "Japanese Iris", "Ligularia", "Ferns"]),
       ("features", .arr ["Small pond", "Stream", "Fountain", "Rain garden"])]),
    ("wood", [
       ("description", .str "Wood elements represent growth and flexibility"),
       ("placement", .str "East and Southeast areas of the garden"),
       ("plants", .arr ["Maple Trees", "Dogwood", "Redbud", "Hydrangea", "Viburnum"]),
       ("features", .arr ["Wooden arbors", "Trellises", "Raised beds"])]),
    ("fire", [
       ("description", .str "Fire elements add warmth and energy"),
       ("placement", .str "South area of the garden"),
       ("plants", .arr ["Red Roses", "Echinacea", "Monarda", "Red Dahlias", "Crocosmia"]),
       ("features", .arr ["Fire pit", "Outdoor lighting", "Red garden art"])]),
    ("earth", [
       ("description", .str "Earth elements provide stability and nourishment"),
       ("placement", .str "Center, Southwest and Northeast areas of the garden"),
       ("plants", .arr ["Sedum", "Ornamental Grasses", "Heuchera", "Peonies", "Daylilies"]),
       ("features", .arr ["Stone pathways", "Rock gardens", "Terracotta containers"])]),
    ("metal", [
       ("description", .str "Metal elements add precision and clarity"),
       ("placement", .str "West and Northwest areas of the garden"),
       ("plants", .arr ["White Roses", "Shasta Daisy", "Baby\x27s Breath", "Dusty Miller", "Silver Artemisia"]),
       ("features", .arr ["Metal sculptures", "Wind chimes", "Garden arches"])])]),
  ("Continental", [
    ("water", [
       ("description", .str "Water elements bring balance to dry continental climates"),
       ("placement", .str "North and East areas of the garden"),
       ("plants", .arr ["Blue Oat Grass", "Russian Sage", "Catmint", "Blue Fescue", "Iris"]),
       ("features", .arr ["Small pond", "Birdbath", "Dry creek bed"])]),
    ("wood", [
       ("description", .str "Wood elements add vitality and growth"),
       ("placement", .str "East and Southeast areas of the garden"),
       ("plants", .arr ["Birch", "Aspen", "Linden", "Serviceberry", "Dogwood"]),
       ("features", .arr ["Wooden raised beds", "Trellises", "Arbors"])]),
    ("fire", [
       ("description", .str "Fire elements add warmth to cold continental climates"),
       ("placement", .str "South area of the garden"),
       ("plants", .arr ["Red Twig Dogwood", "Autumn Joy Sedum", "Daylily", "Blanket Flower", "Yarrow"]),
       ("features", .arr ["Fire pit", "Outdoor heating", "Red garden art"])]),
    ("earth", [
       ("description", .str "Earth elements provide stability"),
       ("placement", .str "Center, Southwest and Northeast areas of the garden"),
       ("plants", .arr ["Ornamental Grasses", "Sedum", "Hens and Chicks", "Catmint", "Lamb\x27s Ear"]),
       ("features", .arr ["Stone pathways", "Rock gardens", "Gravel mulch"])]),
    ("metal", [
       ("description", .str "Metal elements add structure in harsh climates"),
       ("placement", .str "West and Northwest areas of the garden"),
       ("plants", .arr ["Silver Mound Artemisia", "Snow-in-Summer", "White Coneflower", "Lambs Ear", "Russian Sage"]),
       ("features", .arr ["Metal sculptures", "Wind chimes", "Metal raised beds"])])]),
  ("Arid", [
    ("water", [
       ("description", .str "Water elements are precious in arid climates"),
       ("placement", .str "North and East areas of the garden"),
       ("plants", .arr ["Blue Agave", "Blue Sage", "Desert Willow", "Blue Palo Verde", "Blue Euphorbia"]),
       ("features", .arr ["Small pond with cover", "Rainwater harvesting", "Dry creek bed"])]),
    ("wood", [
       ("description", .str "Wood elements represent resilience in harsh conditions"),
       ("placement", .str "East and Southeast areas of the garden"),
       ("plants", .arr ["Mesquite", "Palo Verde", "Desert Willow", "Ocotillo", "Creosote Bush"]),
       ("features", .arr ["Shade structures", "Ramadas", "Wooden benches"])]),
    ("fire", [
       ("description", .str "Fire elements are already abundant in hot arid climates"),
       ("placement", .str "South area of the garden"),
       ("plants", .arr ["Red Yucca", "Firecracker Penstemon", "Bougainvillea", "Red Bird of Paradise", "Ocotillo"]),
       ("features", .arr ["Red rock", "Copper accents", "Outdoor lighting"])]),
    ("earth", [
       ("description", .str "Earth elements are dominant in desert landscapes"),
       ("placement", .str "Center, Southwest and Northeast areas of the garden"),
       ("plants", .arr ["Agave", "Barrel Cactus", "Golden Barrel", "Aloe", "Euphorbia"]),
       ("features", .arr ["Desert rock gardens", "Gravel mulch", "Earth-toned pottery"])]),
    ("metal", [
       ("description", .str "Metal elements add structure and control"),
       ("placement", .str "West and Northwest areas of the garden"),
       ("plants", .arr ["White Sage", "Desert Milkweed", "White Evening Primrose", "Brittlebush", "White Gaura"]),
       ("features", .arr ["Metal sculptures", "Wind chimes", "Metal shade structures"])])]),
  ("Default", [
    ("water", [
       ("description", .str "Water elements bring serenity and flow"),
       ("placement", .str "North and East areas of the garden"),
       ("plants", .arr ["Ferns", "Hostas", "Astilbe", "Japanese Iris", "Water Lilies"]),
       ("features", .arr ["Small pond", "Fountain", "Birdbath", "Rain garden"])]),
    ("wood", [
       ("description", .str "Wood elements represent growth and flexibility"),
       ("placement", .str "East and Southeast areas of the garden"),
       ("plants", .arr ["Trees", "Shrubs", "Tall Perennials", "Vines", "Bamboo"]),
       ("features", .arr ["Wooden arbors", "Trellises", "Raised beds"])]),
    ("fire", [
       ("description", .str "Fire elements add warmth and energy"),
       ("placement", .str "South area of the garden"),
       ("plants", .arr ["Red Flowers", "Spiky Plants", "Plants with Red Berries", "Red Foliage"]),
       ("features", .arr ["Fire pit", "Outdoor lighting", "Red garden art"])]),
    ("earth", [
       ("description", .str "Earth elements provide stability and nourishment"),
       ("placement", .str "Center, Southwest and Northeast areas of the garden"),
       ("plants", .arr ["Low-growing Plants", "Yellow and Orange Flowers", "Square-shaped Plants", "Edibles"]),
       ("features", .arr ["Stone pathways", "Rock gardens", "Terracotta containers"])]),
    ("metal", [
       ("description", .str "Metal elements add precision and clarity"),
       ("placement", .str "West and Northwest areas of the garden"),
       ("plants", .arr ["White Flowers", "Round-leaf Plants", "Silver or Gray Foliage", "Aromatic Herbs"]),
       ("features", .arr ["Metal sculptures", "Wind chimes", "Garden arches"])])])]

/-! ## The location resolver -/

/-- The digit table of `getClimateFromZipcode`. -/
def climateMap : List (Char × String) :=
  [('0', "Continental"), ('1', "Continental"), ('2', "Subtropical"), ('3', "Subtropical"),
   ('4', "Continental"), ('5', "Continental"), ('6', "Arid"), ('7', "Arid"),
   ('8', "Temperate"), ('9', "Temperate")]

/-- Climate zone of a zipcode: `climateMap[zipcode.charAt(0)] || 'Unknown'`.  The key is a string
of at most one character, shorter than every name in `objectPrototypeNames`, so only the own
properties of `climateMap` can answer. -/
def getClimateFromZipcode (zipcode : String) : String :=
  let firstDigit := charAt zipcode 0
  match firstDigit with
  | some c => (climateMap.lookup c).getD "Unknown"
  | none => "Unknown"

/-- Hardiness zone of a zipcode, as the source computes it.  The adjustment
`Math.min(secondDigit / 3, 2)`, which the source writes out in each of the five bands, is named
`adj` here. -/
def getHardinessZone (zipcode : String) : String :=
  let firstDigit := parseInt (charAt zipcode 0)
  let secondDigit := parseInt (charAt zipcode 1)
  let adj := JSNum.min (JSNum.div secondDigit (some 3)) (some 2)
  let baseZone : JSNum :=
    if JSNum.le firstDigit (some 1) then
      JSNum.add (JSNum.add (some 3) firstDigit) adj
    else if JSNum.le firstDigit (some 3) then
      JSNum.add (JSNum.add (some 7) (JSNum.sub firstDigit (some 2))) adj
    else if JSNum.le firstDigit (some 5) then
      JSNum.add (JSNum.add (some 4) (JSNum.sub firstDigit (some 4))) adj
    else if JSNum.le firstDigit (some 7) then
      JSNum.add (JSNum.add (some 7) (JSNum.sub firstDigit (some 6))) adj
    else
      JSNum.add (JSNum.add (some 5) (JSNum.sub firstDigit (some 8))) adj
  let mainZone := JSNum.round baseZone
  let subZone := if JSNum.lt (JSNum.sub baseZone (JSNum.floor baseZone)) (some (1 / 2)) then "a" else "b"
  JSNum.render mainZone ++ subZone

/-! ## The recommendation resolver -/

/-- What `getRecommendedPlants` can produce. -/
inductive PlantResult where
  /-- a plant record -/
  | record (r : PlantRecord)
  /-- a member of `Object.prototype`, found under the zipcode and returned as it is -/
  | inherited (name : String)
  /-- the spread of an `undefined` property throws a `TypeError` -/
  | typeError
  deriving DecidableEq, Repr

/-- The array `[...new Set(xs)]`: the elements of `xs` in insertion order, an element already in
the set being skipped. -/
def setSpread (xs : List String) : List String :=
  xs.foldl (fun acc x => if x ∈ acc then acc else acc ++ [x]) []

/-- The expression `(h?.category || [])` for a lookup result `h`. -/
def optionalCategory (h : JSLookup PlantRecord) (category : String) : List String :=
  match h with
  | .own r => (r.lookup category).getD []
  | .inherited _ => []
  | .undefined => []

/-- The expression `c.category` for a truthy lookup result `c`; `none` is `undefined`. -/
def requiredCategory (c : JSLookup PlantRecord) (category : String) : Option (List String) :=
  match c with
  | .own r => r.lookup category
  | .inherited _ => none
  | .undefined => none

/-- One property of the merged record:
`[...new Set([...(h?.category || []), ...c.category])]`; `none` when the spread throws. -/
def mergeCategory (h c : JSLookup PlantRecord) (category : String) : Option (List String) :=
  (requiredCategory c category).map (fun cs => setSpread (optionalCategory h category ++ cs))

/-- The object literal that `getRecommendedPlants` returns when the zipcode has no entry: the six
merged categories, evaluated in source order; `none` when a spread throws. -/
def mergedRecord (h c : JSLookup PlantRecord) : Option PlantRecord := do
  let trees ← mergeCategory h c "trees"
  let shrubs ← mergeCategory h c "shrubs"
  let perennials ← mergeCategory h c "perennials"
  let annuals ← mergeCategory h c "annuals"
  let groundcovers ← mergeCategory h c "groundcovers"
  let edibles ← mergeCategory h c "edibles"
  pure [("trees", trees), ("shrubs", shrubs), ("perennials", perennials),
        ("annuals", annuals), ("groundcovers", groundcovers), ("edibles", edibles)]

/-- Recommended plants for a zipcode, climate zone and hardiness zone, as the source computes
them: a truthy `zipcodes[zipcode]` is returned as it is (the console message of that branch is
left out), otherwise the hardiness and climate records are merged. -/
def getRecommendedPlants (zipcode climateZone hardinessZone : String) : PlantResult :=
  let zipcodeRecommendations := jsGet PLANT_DATABASE.zipcodes zipcode
  match zipcodeRecommendations with
  | .own r => .record r
  | .inherited name => .inherited name
  | .undefined =>
    let hardinessZoneRecommendations := jsGet PLANT_DATABASE.hardinessZones hardinessZone
    let climateRecommendations :=
      (jsGet PLANT_DATABASE.climateZones climateZone).orElse
        (jsGet PLANT_DATABASE.climateZones "Default")
    match mergedRecord hardinessZoneRecommendations climateRecommendations with
    | some r => .record r
    | none => .typeError

/-- Feng shui recommendations for a climate zone:
`FENG_SHUI_DATABASE[climateZone] || FENG_SHUI_DATABASE.Default`. -/
def getFengShuiRecommendations (climateZone : String) : JSLookup ElementTable :=
  (jsGet FENG_SHUI_DATABASE climateZone).orElse (jsGet FENG_SHUI_DATABASE "Default")

/-! ## Reading the result -/

/-- The array stored under a category name in the result, when the result is a record that has
the category. -/
def PlantResult.category? (res : PlantResult) (category : String) : Option (List String) :=
  match res with
  | .record r => r.lookup category
  | .inherited _ => none
  | .typeError => none

/-- The six plant categories. -/
def plantCategories : List String :=
  ["trees", "shrubs", "perennials", "annuals", "groundcovers", "edibles"]

/-! ## Table predicates -/

/-- Whether every array of every record of a table is free of duplicates. -/
def tableNodup (t : List (String × PlantRecord)) : Prop :=
  ∀ p ∈ t, ∀ q ∈ p.2, q.2.Nodup

instance (t : List (String × PlantRecord)) : Decidable (tableNodup t) := by
  unfold tableNodup; infer_instance

/-! ## The documented zone formula, and the two halves of `getHardinessZone` -/

/-- The band constant `c(d0)` of the documented zone formula. -/
def bandConstant (d0 : Nat) : ℚ :=
  match d0 with
  | 0 => 3 | 1 => 4 | 2 => 7 | 3 => 8 | 4 => 4
  | 5 => 5 | 6 => 7 | 7 => 8 | 8 => 5 | _ => 6

/-- The documented base zone: `c(d0) + min(d1/3, 2)`. -/
def specBaseZone (d0 d1 : Nat) : ℚ := bandConstant d0 + min ((d1 : ℚ) / 3) 2

/-- The documented zone string of a base zone: the rounded zone, then `a` for a fractional part
below one half and `b` otherwise. -/
def specZoneString (x : ℚ) : String :=
  toString (round x) ++ (if Int.fract x < 1 / 2 then "a" else "b")

/-- The value of a decimal digit character. -/
def digitValue (c : Char) : Nat := c.toNat - 48

/-- The `baseZone` of `getHardinessZone` as a function of the two parsed digits. -/
def baseZoneOf (firstDigit secondDigit : JSNum) : JSNum :=
  let adj := JSNum.min (JSNum.div secondDigit (some 3)) (some 2)
  if JSNum.le firstDigit (some 1) then
    JSNum.add (JSNum.add (some 3) firstDigit) adj
  else if JSNum.le firstDigit (some 3) then
    JSNum.add (JSNum.add (some 7) (JSNum.sub firstDigit (some 2))) adj
  else if JSNum.le firstDigit (some 5) then
    JSNum.add (JSNum.add (some 4) (JSNum.sub firstDigit (some 4))) adj
  else if JSNum.le firstDigit (some 7) then
    JSNum.add (JSNum.add (some 7) (JSNum.sub firstDigit (some 6))) adj
  else
    JSNum.add (JSNum.add (some 5) (JSNum.sub firstDigit (some 8))) adj

/-- The zone string `getHardinessZone` builds from its `baseZone`. -/
def zoneStringOf (baseZone : JSNum) : String :=
  JSNum.render (JSNum.round baseZone) ++
    (if JSNum.lt (JSNum.sub baseZone (JSNum.floor baseZone)) (some (1 / 2)) then "a" else "b")

/-- Whether the character at index `i` of a code is present and a decimal digit. -/
def digitAt (s : String) (i : Nat) : Bool :=
  match charAt s i with
  | some c => c.isDigit
  | none => false

/-! ## Climate classes, element kinds and complete element tables -/

/-- The six climate classes. -/
def climateClasses : List String :=
  ["Tropical", "Subtropical", "Temperate", "Continental", "Arid", "Unknown"]

/-- The five element kinds. -/
def elementKinds : List String := ["water", "wood", "fire", "earth", "metal"]

/-- Whether an element record has a description, a placement, a non-empty plant array and a
non-empty feature array. -/
def completeElementRecord (r : ElementRecord) : Bool :=
  (match r.lookup "description" with | some (.str _) => true | _ => false) &&
  (match r.lookup "placement" with | some (.str _) => true | _ => false) &&
  (match r.lookup "plants" with | some (.arr xs) => !xs.isEmpty | _ => false) &&
  (match r.lookup "features" with | some (.arr xs) => !xs.isEmpty | _ => false)

/-- Whether an element table has a complete record for each of the five elements. -/
def completeElementTable (t : ElementTable) : Bool :=
  elementKinds.all (fun e =>
    match t.lookup e with
    | some r => completeElementRecord r
    | none => false)

/-! ## The documented merge -/

/-- The documented deduplication: the first occurrence of each name is kept, in order. -/
def dedupFirst : List String → List String
  | [] => []
  | x :: xs => x :: (dedupFirst xs).filter (fun y => y ≠ x)

/-- The documented hardiness contribution `H`: the category's list in the hardiness entry, empty
when the hardiness zone has no entry or the entry lacks the category. -/
def specHardinessList (hardinessZone category : String) : List String :=
  match PLANT_DATABASE.hardinessZones.lookup hardinessZone with
  | some e => (e.lookup category).getD []
  | none => []

/-- The documented climate contribution `C`: the category's list in the climate entry, the
Default entry standing in for a climate without entry. -/
def specClimateList (climateZone category : String) : List String :=
  match PLANT_DATABASE.climateZones.lookup climateZone with
  | some e => (e.lookup category).getD []
  | none =>
    match PLANT_DATABASE.climateZones.lookup "Default" with
    | some e => (e.lookup category).getD []
    | none => []

/-- Whether every record of a table has all six categories, each with a non-empty array. -/
def tableComplete (t : List (String × PlantRecord)) : Prop :=
  ∀ p ∈ t, ∀ k ∈ plantCategories, ∃ l, p.2.lookup k = some l ∧ l ≠ []

end ClimateUtils

/-!
# LiDAR utilities

A shallow embedding of `processLidarData` and its helpers from
`src/utils/LidarUtils.js`.

* Numbers are elements of a field `R`; the claims instantiate `R` with the
  rationals or the reals.  The width and the height of a depth map are
  natural numbers.
* `Math.sin`, `Math.cos`, `Math.PI` and `Math.random` belong to the host and
  are taken as a parameter `JSMath R`; `random k` is the value of the `k`-th
  call of `Math.random` made by the invocation.
* A `for (let x = 0; x < limit; x += gridSize)` loop is the fold of its body
  over `loopValues gridSize limit limit 0`, the values its variable takes.
-/

namespace LidarUtils

/-- The host functions of `Math` that the terrain synthesis calls. -/
structure JSMath (R : Type) where
  sin : R → R
  cos : R → R
  PI : R
  random : Nat → R

/-- An entry of `elevationPoints`: normalised `x` and `z`, elevation `y`. -/
structure ElevationPoint (R : Type) where
  x : R
  y : R
  z : R

/-- An entry of `contourLines`. -/
structure ContourLine (R : Type) where
  elevation : R
  points : List (R × R)

/-- The `position` of a detected feature. -/
structure Position (R : Type) where
  x : R
  y : R
  z : R

/-- The `size` of a detected feature. -/
structure Size (R : Type) where
  width : R
  height : R

/-- A detected feature. -/
structure Feature (R : Type) where
  type : String
  position : Position R
  size : Size R

/-- The object `processLidarData` returns. -/
structure TerrainData (R : Type) where
  terrainType : String
  elevationPoints : List (ElevationPoint R)
  contourLines : List (ContourLine R)
  features : List (Feature R)

/-- The values of `x` in `for (let x = start; x < limit; x += gridSize)`, with `fuel` bounding the
number of iterations. -/
def loopValues (gridSize limit : Nat) : Nat → Nat → List Nat
  | 0, _ => []
  | fuel + 1, x => if x < limit then x :: loopValues gridSize limit fuel (x + gridSize) else []

/-- The body of the inner loop of `generateMockElevationPoints`: one call of `Math.random`, one
point pushed.  The state is the array `points` and the number of calls of `Math.random` so far. -/
def pushElevationPoint {R : Type} [Field R] (math : JSMath R) (width height x : Nat)
    (st : List (ElevationPoint R) × Nat) (z : Nat) : List (ElevationPoint R) × Nat :=
  let elevation := math.sin ((x : R) / (width : R) * math.PI) * 2 +
                   math.cos ((z : R) / (height : R) * math.PI) * 2 +
                   math.random st.2 * (1 / 2)
  (st.1 ++ [{ x := (x : R) / (width : R), y := elevation, z := (z : R) / (height : R) }],
    st.2 + 1)

/-- The mock elevation points: a double loop over the grid of step 10. -/
def generateMockElevationPoints {R : Type} [Field R] (math : JSMath R) (width height : Nat) :
    List (ElevationPoint R) :=
  let gridSize := 10
  ((loopValues gridSize width width 0).foldl
    (fun st x =>
      (loopValues gridSize height height 0).foldl (pushElevationPoint math width height x) st)
    (([] : List (ElevationPoint R)), 0)).1

/-- The mock contour lines: three fixed bands, whatever the arguments. -/
def generateMockContourLines {R : Type} [Field R] (_width _height : Nat) :
    List (ContourLine R) :=
  [{ elevation := 0,
     points := [(1 / 10, 1 / 10), (3 / 10, 2 / 10), (5 / 10, 3 / 10), (7 / 10, 2 / 10),
       (9 / 10, 1 / 10)] },
   { elevation := 1,
     points := [(2 / 10, 3 / 10), (4 / 10, 4 / 10), (6 / 10, 5 / 10), (8 / 10, 4 / 10)] },
   { elevation := 2,
     points := [(3 / 10, 5 / 10), (5 / 10, 6 / 10), (7 / 10, 5 / 10)] }]

/-- The mock detected features: three fixed features, whatever the arguments.  The depth buffer
is `none` when it is missing. -/
def detectFeatures {R : Type} [Field R] (_depthData : Option (List UInt8))
    (_width _height : Nat) : List (Feature R) :=
  [{ type := "tree", position := { x := 2 / 10, y := 0, z := 3 / 10 },
     size := { width := 1 / 10, height := 3 / 10 } },
   { type := "structure", position := { x := 7 / 10, y := 0, z := 6 / 10 },
     size := { width := 2 / 10, height := 15 / 100 } },
   { type := "water", position := { x := 4 / 10, y := 0, z := 8 / 10 },
     size := { width := 3 / 10, height := 1 / 10 } }]

/-- The terrain data of a depth buffer, as the source computes them. -/
def processLidarData {R : Type} [Field R] (math : JSMath R) (depthData : Option (List UInt8))
    (width height : Nat) : TerrainData R :=
  { terrainType := "Slightly sloped",
    elevationPoints := generateMockElevationPoints math width height,
    contourLines := generateMockContourLines width height,
    features := detectFeatures depthData width height }

/-- A point pushed by the double loop for grid coordinates `x`, `z` and the `k`-th random
value. -/
def elevationPointAt {R : Type} [Field R] (math : JSMath R) (width height x z k : Nat) :
    ElevationPoint R :=
  { x := (x : R) / (width : R),
    y := math.sin ((x : R) / (width : R) * math.PI) * 2 +
         math.cos ((z : R) / (height : R) * math.PI) * 2 + math.random k * (1 / 2),
    z := (z : R) / (height : R) }

/-- A host for examples over the rationals: `sin`, `cos` and `random` return 0. -/
def sampleMath : JSMath ℚ :=
  { sin := fun _ => 0, cos := fun _ => 0, PI := 0, random := fun _ => 0 }

end LidarUtils

/-!
# The design viewer

A shallow embedding of `generateDesign` and `createTerrainFromLidarData` from
`src/components/DesignViewer.js`, with the land summary that
`src/components/ScanLand.js` hands over.

* The component state and the state it shares with the application are one
  record `ViewerState`; a setter call is a field update and `navigate(path)`
  sets `route`.
* A call completes with `Except.ok` and the new state; `Except.error` would
  be a thrown exception.
* The callback of `setInterval` is run until it clears the interval; `fuel`
  bounds the number of ticks.
* The scene is the list of the objects added to it, in order.  The colour
  conversion `setHSL` of the rendering library is a parameter; the rounding
  of the attribute arrays to single precision is not modelled.
-/

namespace DesignViewer

open ClimateUtils LidarUtils

/-- The `lidarData` of a land summary; the two arrays the viewer tests for are optional. -/
structure LidarData (R : Type) where
  elevationPoints : Option (List (ElevationPoint R))
  contourLines : List (ContourLine R)
  detectedFeatures : Option (List (Feature R))

/-- The land summary that `analyzeLand` builds. -/
structure LandData (R : Type) where
  image : String
  size : String
  climate : String
  hardinessZone : String
  zipcode : String
  soilType : String
  existingFeatures : List String
  terrain : String
  sunExposure : String
  waterSources : List String
  recommendedPlants : PlantRecord
  fengShuiElements : ElementTable
  lidarData : Option (LidarData R)

/-- A planting zone of a design. -/
structure PlantingZone where
  name : String
  location : String
  plants : List String
  fengShuiElement : String
  description : String
  deriving DecidableEq, Repr

/-- A pathway descriptor of a design. -/
structure Pathway where
  type : String
  material : String
  pattern : String
  purpose : String
  deriving DecidableEq, Repr

/-- A water-feature descriptor of a design. -/
structure WaterFeature where
  type : String
  location : String
  purpose : String
  deriving DecidableEq, Repr

/-- The design data; the four views are `null` in the source. -/
structure DesignData where
  presentView : Option String
  oneYearView : Option String
  threeYearView : Option String
  fiveYearView : Option String
  plantingZones : List PlantingZone
  pathways : List Pathway
  waterFeatures : List WaterFeature
  deriving DecidableEq, Repr

/-- The state `generateDesign` acts on: the design stored by the application, the two progress
fields of the component and the current route. -/
structure ViewerState where
  designData : Option DesignData
  isGenerating : Bool
  generationProgress : Nat
  route : String
  deriving DecidableEq, Repr

/-- The object literal `mockDesignData` of `generateDesign`. -/
def mockDesignData : DesignData :=
  { presentView := none,
    oneYearView := none,
    threeYearView := none,
    fiveYearView := none,
    plantingZones := [
      { name := "Food Forest",
        location := "Eastern section",
        plants := ["Apple trees", "Pear trees", "Blueberry bushes", "Strawberries", "Herbs"],
        fengShuiElement := "Wood",
        description :=
          "A multi-layered edible ecosystem that produces fruit, berries, and herbs." },
      { name := "Vegetable Garden",
        location := "Southern section",
        plants := ["Tomatoes", "Peppers", "Kale", "Carrots", "Beans"],
        fengShuiElement := "Fire",
        description := "Annual vegetables arranged in companion planting patterns." },
      { name := "Water Garden",
        location := "Northern section",
        plants := ["Water lilies", "Cattails", "Lotus", "Watercress"],
        fengShuiElement := "Water",
        description :=
          "A small pond with edible aquatic plants and habitat for beneficial wildlife." },
      { name := "Meditation Space",
        location := "Center",
        plants := ["Lavender", "Rosemary", "Ornamental grasses"],
        fengShuiElement := "Earth",
        description := "A peaceful central area for relaxation and contemplation." },
      { name := "Herb Spiral",
        location := "Western section",
        plants := ["Thyme", "Sage", "Mint", "Chives", "Basil"],
        fengShuiElement := "Metal",
        description := "A spiral-shaped herb garden that creates multiple microclimates." }],
    pathways := [
      { type := "Main path", material := "Wood chips", pattern := "Curved",
        purpose := "Primary access through the garden" },
      { type := "Secondary paths", material := "Stepping stones", pattern := "Meandering",
        purpose := "Access to individual planting zones" }],
    waterFeatures := [
      { type := "Pond", location := "Northern section",
        purpose := "Habitat, irrigation, and feng shui water element" },
      { type := "Swale", location := "Along contour lines",
        purpose := "Water harvesting and passive irrigation" }] }

/-- The callback of the interval of `generateDesign`, run until it clears the interval:
`progress` goes up by 4 and is shown; from 100 on the design is stored and generation ends. -/
def runInterval : Nat → Nat → ViewerState → ViewerState
  | 0, _, s => s
  | fuel + 1, progress, s =>
    let progress := progress + 4
    let s := { s with generationProgress := progress }
    if progress ≥ 100 then
      { s with designData := some mockDesignData, isGenerating := false }
    else
      runInterval fuel progress s

/-- The function `generateDesign` of the viewer, for the land summary the component holds
(`none` is `null`): without a land summary it navigates to the scan page and returns; otherwise
it starts the generation and the interval runs its 25 ticks. -/
def generateDesign {R : Type} (landData : Option (LandData R)) (s : ViewerState) :
    Except String ViewerState :=
  match landData with
  | none => .ok { s with route := "/scan" }
  | some _ =>
    let s := { s with isGenerating := true }
    .ok (runInterval 25 0 s)

/-- A geometry of the rendering library, with the arguments of its constructor. -/
inductive Geometry (R : Type) where
  | cylinder (radiusTop radiusBottom height : R) (radialSegments : Nat)
  | cone (radius height : R) (radialSegments : Nat)
  | box (width height depth : R)
  | plane (width height : R)

/-- A Lambert material: its colour, and its opacity when it is transparent. -/
structure Material (R : Type) where
  color : Nat
  transparent : Bool
  opacity : R

/-- An object added to the scene: the point cloud or a mesh. -/
inductive SceneObject (R : Type) where
  /-- the point cloud, with its `position` and `color` attributes (item size 3) and the size of
  its material -/
  | points (position color : List R) (size : R)
  /-- a mesh with its position and its rotation about the x axis -/
  | mesh (geometry : Geometry R) (material : Material R) (position : R × R × R)
      (rotationX : R)

/-- The body of `elevationPoints.forEach`: three coordinates and three colour components are
pushed.  The state is the pair of arrays `vertices`, `colors`. -/
def pushVertex {R : Type} [Field R] (setHSL : R → R → R → R × R × R)
    (st : List R × List R) (point : ElevationPoint R) : List R × List R :=
  let x := (point.x - 1 / 2) * 20
  let y := point.y * 5
  let z := (point.z - 1 / 2) * 20
  let color := setHSL (3 / 10 - point.y * (1 / 2)) (7 / 10) (1 / 2)
  (st.1 ++ [x, y, z], st.2 ++ [color.1, color.2.1, color.2.2])

/-- The body of `detectedFeatures.forEach`: the meshes added for one feature. -/
def addFeature {R : Type} [Field R] (pi : R) (scene : List (SceneObject R))
    (feature : Feature R) : List (SceneObject R) :=
  let position : R × R × R :=
    ((feature.position.x - 1 / 2) * 20, feature.position.y * 5,
      (feature.position.z - 1 / 2) * 20)
  if feature.type = "tree" then
    let trunk : SceneObject R := .mesh (.cylinder (2 / 10) (2 / 10) 1 8)
      { color := 0x8B4513, transparent := false, opacity := 1 }
      (position.1, position.2.1 + 1 / 2, position.2.2) 0
    let foliage : SceneObject R := .mesh (.cone 1 2 8)
      { color := 0x228B22, transparent := false, opacity := 1 }
      (position.1, position.2.1 + 2, position.2.2) 0
    scene ++ [trunk] ++ [foliage]
  else if feature.type = "structure" then
    let mesh : SceneObject R := .mesh
      (.box (feature.size.width * 10) 1 (feature.size.height * 10))
      { color := 0xA9A9A9, transparent := false, opacity := 1 }
      (position.1, position.2.1 + 1 / 2, position.2.2) 0
    scene ++ [mesh]
  else if feature.type = "water" then
    let mesh : SceneObject R := .mesh
      (.plane (feature.size.width * 10) (feature.size.height * 10))
      { color := 0x4682B4, transparent := true, opacity := 7 / 10 }
      (position.1, position.2.1 + 5 / 100, position.2.2) (-pi / 2)
    scene ++ [mesh]
  else
    scene

/-- The function `createTerrainFromLidarData` of the viewer: the scene after the call. -/
def createTerrainFromLidarData {R : Type} [Field R] (pi : R)
    (setHSL : R → R → R → R × R × R) (scene : List (SceneObject R))
    (lidarData : Option (LidarData R)) : List (SceneObject R) :=
  match lidarData with
  | none => scene
  | some lidarData =>
    match lidarData.elevationPoints with
    | none => scene
    | some elevationPoints =>
      let arrays := elevationPoints.foldl (pushVertex setHSL) (([] : List R), ([] : List R))
      let vertices := arrays.1
      let colors := arrays.2
      let scene := scene ++ [SceneObject.points vertices colors (2 / 10)]
      match lidarData.detectedFeatures with
      | none => scene
      | some detectedFeatures => detectedFeatures.foldl (addFeature pi) scene

/-- The three numbers of the position array that an elevation point gives. -/
def positionTriple {R : Type} [Field R] (point : ElevationPoint R) : List R :=
  [(point.x - 1 / 2) * 20, point.y * 5, (point.z - 1 / 2) * 20]

/-- The three numbers of the colour array that an elevation point gives. -/
def colorTriple {R : Type} [Field R] (setHSL : R → R → R → R × R × R)
    (point : ElevationPoint R) : List R :=
  [(setHSL (3 / 10 - point.y * (1 / 2)) (7 / 10) (1 / 2)).1,
   (setHSL (3 / 10 - point.y * (1 / 2)) (7 / 10) (1 / 2)).2.1,
   (setHSL (3 / 10 - point.y * (1 / 2)) (7 / 10) (1 / 2)).2.2]

/-- The text of a string in lower case. -/
def lowerCase (s : String) : String := ⟨s.data.map Char.toLower⟩

/-- The state in which the viewer is first shown: no design yet, on the design page. -/
def initialViewerState : ViewerState :=
  { designData := none, isGenerating := false, generationProgress := 0, route := "/design" }

/-- A land summary as `analyzeLand` builds it for the zipcode "10001" without a scan: the
recommended plants are the entry of the zipcode table and the elements those of the Continental
climate. -/
def sampleLandData : LandData ℚ :=
  { image := "data:image/png;base64,",
    size := "1/4 acre",
    climate := "Continental",
    hardinessZone := "4a",
    zipcode := "10001",
    soilType := "",
    existingFeatures := [""],
    terrain := "Slightly sloped",
    sunExposure := "Mostly sunny with afternoon shade",
    waterSources := ["Natural rainfall", "Nearby stream"],
    recommendedPlants := (PLANT_DATABASE.zipcodes.lookup "10001").getD [],
    fengShuiElements := (FENG_SHUI_DATABASE.lookup "Continental").getD [],
    lidarData := none }

/-- A second land summary, with scan data: the zipcode "33101", one elevation point and the
three mock features. -/
def scannedLandData : LandData ℚ :=
  { image := "data:image/svg+xml;base64,",
    size := "",
    climate := "Subtropical",
    hardinessZone := "9a",
    zipcode := "33101",
    soilType := "",
    existingFeatures := [""],
    terrain := "Slightly sloped",
    sunExposure := "Mostly sunny with afternoon shade",
    waterSources := ["Natural rainfall", "Nearby stream"],
    recommendedPlants := (PLANT_DATABASE.climateZones.lookup "Subtropical").getD [],
    fengShuiElements := (FENG_SHUI_DATABASE.lookup "Subtropical").getD [],
    lidarData := some
      { elevationPoints := some [{ x := 0, y := 1 / 2, z := 0 }],
        contourLines := generateMockContourLines 10 10,
        detectedFeatures := some (detectFeatures none 10 10) } }

end DesignViewer

namespace ClimateUtils

/-- The zone range that the comment in `getHardinessZone` documents for the region of a first
digit: 0-1 Northeast (3-6), 2-3 Southeast (7-10), 4-5 Midwest (4-7), 6-7 Southwest (7-10),
8-9 West (5-10). -/
def documentedRange (d0 : Nat) : ℤ × ℤ :=
  if d0 ≤ 1 then (3, 6)
  else if d0 ≤ 3 then (7, 10)
  else if d0 ≤ 5 then (4, 7)
  else if d0 ≤ 7 then (7, 10)
  else (5, 10)

/-- The climates that the digit table of `getClimateFromZipcode` can give, with the fallback. -/
def derivedClimates : List String :=
  ["Continental", "Subtropical", "Arid", "Temperate", "Unknown"]

end ClimateUtils

namespace DesignViewer

open ClimateUtils LidarUtils

/-- A colour conversion that keeps its arguments: with it the colour array shows the hue, the
saturation and the lightness handed to `setHSL`. -/
def recordHSL {R : Type} (h s l : R) : R × R × R := (h, s, l)

/-- The object `position` of the body of `detectedFeatures.forEach`. -/
def scaledPosition {R : Type} [Field R] (feature : Feature R) : R × R × R :=
  ((feature.position.x - 1 / 2) * 20, feature.position.y * 5,
    (feature.position.z - 1 / 2) * 20)

/-- The position of a mesh; the point cloud has none. -/
def SceneObject.position? {R : Type} (o : SceneObject R) : Option (R × R × R) :=
  match o with
  | .points _ _ _ => none
  | .mesh _ _ position _ => some position

/-- The kind of primitive of a scene object. -/
def SceneObject.kind {R : Type} (o : SceneObject R) : String :=
  match o with
  | .points _ _ _ => "points"
  | .mesh (.cylinder _ _ _ _) _ _ _ => "cylinder"
  | .mesh (.cone _ _ _) _ _ _ => "cone"
  | .mesh (.box _ _ _) _ _ _ => "box"
  | .mesh (.plane _ _) material _ _ => if material.transparent then "translucent plane" else "plane"

end DesignViewer

/-!
# The scan form

A shallow embedding of `handleZipcodeChange` and `analyzeLand` from
`src/components/ScanLand.js`.

* The state of the form, the land summary it hands to the application, the
  route and the alerts shown are one record `ScanState`; a setter call is a
  field update.
* `setRecommendedPlants` stores a plant record as it is.  When
  `getRecommendedPlants` returns a member of `Object.prototype`, the setter
  is handed a function (or the prototype object), which the state library
  treats as an updater; what the state holds afterwards is not a plant record
  and is not modelled: the step ends with `Except.error`.
* The callback of the interval of `analyzeLand` and the timeout that follows
  are run to completion; `fuel` bounds the number of ticks.  No other event
  comes in between.
-/

namespace ScanLand

open ClimateUtils LidarUtils DesignViewer

/-- The value of `s.length`: the number of UTF-16 code units of a string. -/
def jsLength (s : String) : Nat :=
  (s.data.map (fun c => if c.toNat < 0x10000 then 1 else 2)).sum

/-- The state `handleZipcodeChange` and `analyzeLand` act on. -/
structure ScanState (R : Type) where
  capturedImage : Option String
  landSize : String
  climate : String
  zipcode : String
  hardinessZone : String
  soilType : String
  existingFeatures : String
  isAnalyzing : Bool
  analysisProgress : Nat
  lidarData : Option (TerrainData R)
  recommendedPlants : Option PlantRecord
  fengShuiElements : Option ElementTable
  landData : Option (LandData R)
  route : String
  alerts : List String

/-- The state of the form when it is first shown. -/
def initialScanState {R : Type} : ScanState R :=
  { capturedImage := none, landSize := "", climate := "", zipcode := "", hardinessZone := "",
    soilType := "", existingFeatures := "", isAnalyzing := false, analysisProgress := 0,
    lidarData := none, recommendedPlants := none, fengShuiElements := none, landData := none,
    route := "/scan", alerts := [] }

/-- The handler of the zipcode field, for the new value of the field.  `Except.error` with
"TypeError" is the exception that `getRecommendedPlants` throws; the two other errors mark a
step whose outcome is outside the model, a setter having been handed a value that is not a
record of the state: there the handler itself throws nothing. -/
def handleZipcodeChange {R : Type} (newZipcode : String) (s : ScanState R) :
    Except String (ScanState R) :=
  let s := { s with zipcode := newZipcode }
  if jsLength newZipcode ≥ 5 then
    let detectedClimate := getClimateFromZipcode newZipcode
    let detectedHardinessZone := getHardinessZone newZipcode
    let s := { s with climate := detectedClimate, hardinessZone := detectedHardinessZone }
    match getRecommendedPlants newZipcode detectedClimate detectedHardinessZone with
    | .typeError => .error "TypeError"
    | .inherited _ => .error "setRecommendedPlants: not a plant record"
    | .record plants =>
      let s := { s with recommendedPlants := some plants }
      match getFengShuiRecommendations detectedClimate with
      | .own fengShui => .ok { s with fengShuiElements := some fengShui }
      | .inherited _ => .error "setFengShuiElements: not an element table"
      | .undefined => .ok { s with fengShuiElements := none }
  else
    .ok s

/-- A sequence of changes of the zipcode field, from a given state. -/
def runChanges {R : Type} (codes : List String) (s : ScanState R) :
    Except String (ScanState R) :=
  match codes with
  | [] => .ok s
  | code :: rest =>
    match handleZipcodeChange code s with
    | .ok s' => runChanges rest s'
    | .error e => .error e

/-- The plant literal that `analyzeLand` uses when no recommended plants are stored. -/
def fallbackPlants : PlantRecord :=
  [("trees", ["Apple", "Maple", "Oak", "Cherry", "Dogwood"]),
   ("shrubs", ["Hydrangea", "Lilac", "Boxwood", "Azalea", "Rhododendron"]),
   ("perennials", ["Lavender", "Echinacea", "Black-eyed Susan", "Daylily", "Hosta"]),
   ("annuals", ["Marigold", "Zinnia", "Petunia", "Sunflower", "Cosmos"]),
   ("groundcovers", ["Creeping Thyme", "Sedum", "Vinca", "Pachysandra", "Ajuga"]),
   ("edibles", ["Tomato", "Pepper", "Lettuce", "Herbs", "Berries"])]

/-- The element literal that `analyzeLand` uses when no elements are stored. -/
def fallbackElements : ElementTable :=
  [("water", [
     ("placement", .str "North and East areas of the garden"),
     ("plants", .arr ["Ferns", "Hostas", "Astilbe", "Japanese Iris", "Water Lilies"]),
     ("features", .arr ["Small pond", "Fountain", "Birdbath", "Rain garden"])]),
   ("wood", [
     ("placement", .str "East and Southeast areas of the garden"),
     ("plants", .arr ["Trees", "Shrubs", "Tall Perennials", "Vines", "Bamboo"]),
     ("features", .arr ["Wooden arbors", "Trellises", "Raised beds"])]),
   ("fire", [
     ("placement", .str "South area of the garden"),
     ("plants", .arr ["Red Flowers", "Spiky Plants", "Plants with Red Berries", "Red Foliage"]),
     ("features", .arr ["Fire pit", "Outdoor lighting", "Red garden art"])]),
   ("earth", [
     ("placement", .str "Center, Southwest and Northeast areas of the garden"),
     ("plants", .arr ["Low-growing Plants", "Yellow and Orange Flowers",
        "Square-shaped Plants", "Edibles"]),
     ("features", .arr ["Stone pathways", "Rock gardens", "Terracotta containers"])]),
   ("metal", [
     ("placement", .str "West and Northwest areas of the garden"),
     ("plants", .arr ["White Flowers", "Round-leaf Plants", "Silver or Gray Foliage",
        "Aromatic Herbs"]),
     ("features", .arr ["Metal sculptures", "Wind chimes", "Garden arches"])])]

/-- Whether a character is white space or a line terminator of the language: the characters
that `trim` strips. -/
def isJSWhiteSpace (c : Char) : Bool :=
  [0x09, 0x0A, 0x0B, 0x0C, 0x0D, 0x20, 0xA0, 0x1680, 0x2028, 0x2029, 0x202F, 0x205F, 0x3000,
    0xFEFF].contains c.toNat || (0x2000 ≤ c.toNat && c.toNat ≤ 0x200A)

/-- The method `trim` of a string: the white space at both ends is removed. -/
def jsTrim (s : String) : String :=
  ⟨((s.data.dropWhile isJSWhiteSpace).reverse.dropWhile isJSWhiteSpace).reverse⟩

/-- The object `landData` that `analyzeLand` builds from the state, for the captured image. -/
def buildLandData {R : Type} (image : String) (s : ScanState R) : LandData R :=
  { image := image,
    size := s.landSize,
    climate := s.climate,
    hardinessZone := s.hardinessZone,
    zipcode := s.zipcode,
    soilType := s.soilType,
    existingFeatures := (s.existingFeatures.splitOn ",").map jsTrim,
    terrain := match s.lidarData with
      | some lidarData => lidarData.terrainType
      | none => "Slightly sloped",
    sunExposure := "Mostly sunny with afternoon shade",
    waterSources := ["Natural rainfall", "Nearby stream"],
    recommendedPlants := s.recommendedPlants.getD fallbackPlants,
    fengShuiElements := s.fengShuiElements.getD fallbackElements,
    lidarData := match s.lidarData with
      | some lidarData =>
        some { elevationPoints := some lidarData.elevationPoints,
               contourLines := lidarData.contourLines,
               detectedFeatures := some lidarData.features }
      | none => none }

/-- The callback of the interval of `analyzeLand`, run until it clears the interval, and the
timeout it sets: `progress` goes up by 5 and is shown; from 100 on the land summary is handed
over, the analysis ends and the design page is opened. -/
def runAnalysis {R : Type} (image : String) : Nat → Nat → ScanState R → ScanState R
  | 0, _, s => s
  | fuel + 1, progress, s =>
    let progress := progress + 5
    let s := { s with analysisProgress := progress }
    if progress ≥ 100 then
      let landData := buildLandData image s
      let s := { s with landData := some landData }
      { s with isAnalyzing := false, route := "/design" }
    else
      runAnalysis image fuel progress s

/-- The function `analyzeLand` of the form: without an image it alerts and returns; otherwise
the analysis runs its 20 ticks. -/
def analyzeLand {R : Type} (s : ScanState R) : ScanState R :=
  match s.capturedImage with
  | none =>
    { s with alerts := s.alerts ++ ["Please upload or capture an image of your land first."] }
  | some image =>
    if image = "" then
      { s with alerts := s.alerts ++ ["Please upload or capture an image of your land first."] }
    else
      runAnalysis image 20 0 { s with isAnalyzing := true }

/-- The last code of a sequence of changes; the field is empty at first. -/
def lastCode (codes : List String) : String := codes.foldl (fun _ code => code) ""

/-- The last code of at least 5 characters of a sequence of changes, after `start`. -/
def lastResolvedFrom (start : Option String) (codes : List String) : Option String :=
  codes.foldl (fun last code => if jsLength code ≥ 5 then some code else last) start

/-- Whether the stored classification is the one of the code `last`, or unresolved when there is
no such code. -/
def Classified {R : Type} (last : Option String) (s : ScanState R) : Prop :=
  match last with
  | none =>
    s.climate = "" ∧ s.hardinessZone = "" ∧ s.recommendedPlants = none ∧
      s.fengShuiElements = none
  | some code =>
    s.climate = getClimateFromZipcode code ∧ s.hardinessZone = getHardinessZone code ∧
      s.recommendedPlants.map PlantResult.record =
        some (getRecommendedPlants code (getClimateFromZipcode code) (getHardinessZone code)) ∧
      s.fengShuiElements.map JSLookup.own =
        some (getFengShuiRecommendations (getClimateFromZipcode code))

end ScanLand

/-!
# Double arithmetic and the hue

The program computes the hue `0.3 - point.y * 0.5` in IEEE doubles.
`roundDouble` is the rounding of a rational to the nearest double (53
significant bits, ties to the even significand) with an unbounded exponent:
it is the rounding of the doubles away from overflow and from the subnormal
numbers.  Every arithmetic operation of the program gives the rounding of the
exact result, and a decimal literal is the rounding of its value.
-/

namespace DesignViewer

open ClimateUtils LidarUtils

/-- The integer nearest to a rational, the even one of the two at a tie. -/
def roundHalfEven (m : ℚ) : ℤ :=
  let f := ⌊m⌋
  let r := m - (f : ℚ)
  if r < 1 / 2 then f
  else if 1 / 2 < r then f + 1
  else if f % 2 = 0 then f
  else f + 1

/-- The double nearest to a rational: with `2 ^ e ≤ |q| < 2 ^ (e + 1)` the doubles around `q`
are the multiples of `2 ^ (e - 52)`. -/
def roundDouble (q : ℚ) : ℚ :=
  if q = 0 then 0
  else
    let e : ℤ := Int.log 2 |q|
    let ulp : ℚ := (2 : ℚ) ^ (e - 52)
    (roundHalfEven (q / ulp) : ℚ) * ulp

/-- The first argument of `color.setHSL(0.3 - point.y * 0.5, 0.7, 0.5)` as the program computes
it, in doubles, for an elevation `y`: the two literals, the product and the difference are each
rounded. -/
def hueInDoubles (y : ℚ) : ℚ :=
  roundDouble (roundDouble (3 / 10) - roundDouble (y * roundDouble (1 / 2)))

/-- The colour conversion of the rendering library as far as the hue goes: `setHSL` reduces the
hue modulo 1 into `[0, 1)` before it computes the colour.  The reduced hue, the saturation and
the lightness are kept in place of the red, green and blue components, so that the colour array
shows the hue the library works with. -/
def wrappedHSL {R : Type} [LinearOrderedRing R] [FloorRing R] (h s l : R) : R × R × R :=
  (Int.fract h, s, l)

end DesignViewer

/-! # Theorems -/

namespace ClimateUtils

/-! ## Association lists and insertion-ordered sets -/

theorem lookup_some_mem {α : Type} (k : String) (v : α) (l : List (String × α))
    (h : l.lookup k = some v) : (k, v) ∈ l := by
  induction l with
  | nil => simp at h
  | cons p t ih =>
    obtain ⟨a, b⟩ := p
    by_cases hk : k = a
    · subst hk
      simp [List.lookup] at h
      simp [h]
    · have hb : (k == a) = false := by simpa using hk
      simp [List.lookup, hb] at h
      exact List.mem_cons_of_mem _ (ih h)

theorem jsGet_own {α : Type} (t : List (String × α)) (k : String) (v : α)
    (h : jsGet t k = .own v) : t.lookup k = some v := by
  unfold jsGet at h
  cases hl : t.lookup k with
  | none =>
    rw [hl] at h
    by_cases hp : k ∈ objectPrototypeNames <;> simp [hp] at h
  | some w =>
    rw [hl] at h
    simp at h
    rw [h]

theorem jsGet_of_lookup {α : Type} (t : List (String × α)) (k : String) (v : α)
    (h : t.lookup k = some v) : jsGet t k = .own v := by
  simp [jsGet, h]

/-- Step of `new Set(...)`: add `x` unless it is already there. -/
theorem setSpread_eq_foldl (xs : List String) :
    setSpread xs = xs.foldl (fun acc x => if x ∈ acc then acc else acc ++ [x]) [] := rfl

theorem setFold_nodup (xs : List String) :
    ∀ acc : List String, acc.Nodup →
      (xs.foldl (fun acc x => if x ∈ acc then acc else acc ++ [x]) acc).Nodup := by
  induction xs with
  | nil => intro acc h; simpa using h
  | cons x t ih =>
    intro acc h
    simp only [List.foldl_cons]
    apply ih
    by_cases hx : x ∈ acc
    · simpa [hx] using h
    · simp only [hx, if_false]
      rw [List.nodup_append]
      refine ⟨h, List.nodup_singleton x, ?_⟩
      intro a ha hb
      simp at hb
      subst hb
      exact hx ha

theorem setSpread_nodup (xs : List String) : (setSpread xs).Nodup :=
  setFold_nodup xs [] List.nodup_nil

theorem setFold_of_nodup (xs : List String) :
    ∀ acc : List String, (acc ++ xs).Nodup →
      xs.foldl (fun acc x => if x ∈ acc then acc else acc ++ [x]) acc = acc ++ xs := by
  induction xs with
  | nil => intro acc _; simp
  | cons x t ih =>
    intro acc h
    have hx : x ∉ acc := by
      intro hm
      have := List.nodup_append.mp h
      exact this.2.2 hm (List.mem_cons_self x t)
    simp only [List.foldl_cons, hx, if_false]
    rw [ih (acc ++ [x]) (by simpa using h)]
    simp

theorem setFold_grows (xs : List String) :
    ∀ acc : List String,
      acc <+: xs.foldl (fun acc x => if x ∈ acc then acc else acc ++ [x]) acc := by
  induction xs with
  | nil => intro acc; simp
  | cons x t ih =>
    intro acc
    simp only [List.foldl_cons]
    by_cases hx : x ∈ acc
    · simpa [hx] using ih acc
    · simp only [hx, if_false]
      exact (List.prefix_append acc [x]).trans (ih (acc ++ [x]))

/-- A duplicate-free list survives `[...new Set(...)]` as a prefix, whatever is spread after
it. -/
theorem setSpread_append_keeps (hs cs : List String) (h : hs.Nodup) :
    hs <+: setSpread (hs ++ cs) := by
  unfold setSpread
  rw [List.foldl_append, setFold_of_nodup hs [] (by simpa using h)]
  simpa using setFold_grows cs hs

/-! ## Facts about the plant tables -/

theorem zipcodes_nodup : tableNodup PLANT_DATABASE.zipcodes := by decide

theorem hardinessZones_nodup : tableNodup PLANT_DATABASE.hardinessZones := by decide

theorem mergedRecord_lookup (h c : JSLookup PlantRecord) (r : PlantRecord)
    (hm : mergedRecord h c = some r) (k : String) (l : List String)
    (hl : r.lookup k = some l) :
    k ∈ plantCategories ∧ mergeCategory h c k = some l := by
  unfold mergedRecord at hm
  simp only [bind, Option.bind_eq_some, pure, Option.some.injEq] at hm
  obtain ⟨t, ht, s, hs, p, hp, a, ha, g, hg, e, he, rfl⟩ := hm
  simp only [List.lookup] at hl
  split at hl
  · simp_all [plantCategories]
  · split at hl
    · simp_all [plantCategories]
    · split at hl
      · simp_all [plantCategories]
      · split at hl
        · simp_all [plantCategories]
        · split at hl
          · simp_all [plantCategories]
          · split at hl
            · simp_all [plantCategories]
            · simp at hl

/-! ## Zipcode entries, duplicates and the order of the merge -/

/-- C2. A zipcode that is a key of the zipcode table (the keys are exactly 95460, 90210, 98101,
10001 and 78701) gets its table entry unchanged, whatever the climate and hardiness arguments
are; for "10001" with climate Continental and hardiness "4a" the trees are Red Maple, American
Sweetgum, Pin Oak, American Hornbeam, Serviceberry. -/
theorem getRecommendedPlants_zipcode_entry :
    (∀ (zipcode climateZone hardinessZone : String) (r : PlantRecord),
      PLANT_DATABASE.zipcodes.lookup zipcode = some r →
        getRecommendedPlants zipcode climateZone hardinessZone = .record r) ∧
    PLANT_DATABASE.zipcodes.map Prod.fst = ["95460", "90210", "98101", "10001", "78701"] ∧
    (getRecommendedPlants "10001" "Continental" "4a").category? "trees" =
      some ["Red Maple", "American Sweetgum", "Pin Oak", "American Hornbeam", "Serviceberry"] := by
  refine ⟨?_, by decide, by decide⟩
  intro zipcode climateZone hardinessZone r h
  simp [getRecommendedPlants, jsGet_of_lookup _ _ _ h]

theorem getRecommendedPlants_zipcode_entry_witness :
    PLANT_DATABASE.zipcodes.lookup "78701" = some
      [("trees", ["Texas Live Oak", "Texas Mountain Laurel", "Mexican Plum", "Desert Willow",
          "Texas Redbud"]),
       ("shrubs", ["Agarita", "Cenizo", "Flame Acanthus", "Texas Sage", "Yaupon Holly"]),
       ("perennials", ["Blackfoot Daisy", "Mealy Blue Sage", "Greggs Mistflower", "Rock Penstemon",
          "Autumn Sage"]),
       ("annuals", ["Bluebonnet", "Indian Blanket", "Pink Evening Primrose", "Drummond Phlox",
          "Texas Paintbrush"]),
       ("groundcovers", ["Frogfruit", "Horseherb", "Silver Ponyfoot", "Snake Herb",
          "Woolly Stemodia"]),
       ("edibles", ["Agarita Berry", "Texas Persimmon", "Mustang Grape", "Dewberry",
          "Prickly Pear"])] ∧
    getRecommendedPlants "78701" "Arid" "8b" = .record
      [("trees", ["Texas Live Oak", "Texas Mountain Laurel", "Mexican Plum", "Desert Willow",
          "Texas Redbud"]),
       ("shrubs", ["Agarita", "Cenizo", "Flame Acanthus", "Texas Sage", "Yaupon Holly"]),
       ("perennials", ["Blackfoot Daisy", "Mealy Blue Sage", "Greggs Mistflower", "Rock Penstemon",
          "Autumn Sage"]),
       ("annuals", ["Bluebonnet", "Indian Blanket", "Pink Evening Primrose", "Drummond Phlox",
          "Texas Paintbrush"]),
       ("groundcovers", ["Frogfruit", "Horseherb", "Silver Ponyfoot", "Snake Herb",
          "Woolly Stemodia"]),
       ("edibles", ["Agarita Berry", "Texas Persimmon", "Mustang Grape", "Dewberry",
          "Prickly Pear"])] :=
  ⟨by decide, getRecommendedPlants_zipcode_entry.1 "78701" "Arid" "8b" _ (by decide)⟩

/-- C3. Every category list in the result of `getRecommendedPlants` is free of duplicates, for
every zipcode, climate and hardiness: both in a zipcode entry returned as it is and in a merged
record. -/
theorem getRecommendedPlants_nodup (zipcode climateZone hardinessZone category : String)
    (l : List String)
    (hl : (getRecommendedPlants zipcode climateZone hardinessZone).category? category = some l) :
    l.Nodup := by
  unfold getRecommendedPlants at hl
  cases hz : jsGet PLANT_DATABASE.zipcodes zipcode with
  | own r =>
    rw [hz] at hl
    simp only [PlantResult.category?] at hl
    exact zipcodes_nodup _ (lookup_some_mem _ _ _ (jsGet_own _ _ _ hz)) _
      (lookup_some_mem _ _ _ hl)
  | inherited name =>
    rw [hz] at hl
    simp [PlantResult.category?] at hl
  | undefined =>
    rw [hz] at hl
    simp only at hl
    cases hm : mergedRecord (jsGet PLANT_DATABASE.hardinessZones hardinessZone)
        ((jsGet PLANT_DATABASE.climateZones climateZone).orElse
          (jsGet PLANT_DATABASE.climateZones "Default")) with
    | none =>
      rw [hm] at hl
      simp [PlantResult.category?] at hl
    | some r =>
      rw [hm] at hl
      simp only [PlantResult.category?] at hl
      have hk := (mergedRecord_lookup _ _ r hm category l hl).2
      unfold mergeCategory at hk
      simp only [Option.map_eq_some'] at hk
      obtain ⟨cs, _, rfl⟩ := hk
      exact setSpread_nodup _

theorem getRecommendedPlants_nodup_witness :
    (getRecommendedPlants "33101" "Subtropical" "8b").category? "shrubs" =
      some ["Camellia", "Loropetalum", "Abelia", "Gardenia", "Bottlebrush", "Azalea", "Oleander",
        "Lantana"] ∧
    ["Camellia", "Loropetalum", "Abelia", "Gardenia", "Bottlebrush", "Azalea", "Oleander",
        "Lantana"].Nodup :=
  ⟨by decide, getRecommendedPlants_nodup "33101" "Subtropical" "8b" "shrubs" _ (by decide)⟩

/-- C4. When the zipcode is not a key of the zipcode table and the hardiness zone has a
hardiness-table entry, that entry's list for a category (empty when the entry lacks the
category) is a prefix of the list the result holds for the category: the names that come from
the climate entry alone stand after all hardiness names. -/
theorem getRecommendedPlants_hardiness_first
    (zipcode climateZone hardinessZone category : String) (e : PlantRecord) (l : List String)
    (hz : PLANT_DATABASE.zipcodes.lookup zipcode = none)
    (he : PLANT_DATABASE.hardinessZones.lookup hardinessZone = some e)
    (hl : (getRecommendedPlants zipcode climateZone hardinessZone).category? category = some l) :
    (e.lookup category).getD [] <+: l := by
  unfold getRecommendedPlants at hl
  cases hj : jsGet PLANT_DATABASE.zipcodes zipcode with
  | own r =>
    rw [jsGet_own _ _ _ hj] at hz
    simp at hz
  | inherited name =>
    rw [hj] at hl
    simp [PlantResult.category?] at hl
  | undefined =>
    rw [hj] at hl
    simp only at hl
    cases hm : mergedRecord (jsGet PLANT_DATABASE.hardinessZones hardinessZone)
        ((jsGet PLANT_DATABASE.climateZones climateZone).orElse
          (jsGet PLANT_DATABASE.climateZones "Default")) with
    | none =>
      rw [hm] at hl
      simp [PlantResult.category?] at hl
    | some r =>
      rw [hm] at hl
      simp only [PlantResult.category?] at hl
      have hk := (mergedRecord_lookup _ _ r hm category l hl).2
      rw [jsGet_of_lookup _ _ _ he] at hk
      unfold mergeCategory at hk
      simp only [Option.map_eq_some'] at hk
      obtain ⟨cs, _, rfl⟩ := hk
      apply setSpread_append_keeps
      show ((e.lookup category).getD []).Nodup
      cases hc : e.lookup category with
      | none => simp
      | some hs =>
        simp only [Option.getD_some]
        exact hardinessZones_nodup _ (lookup_some_mem _ _ _ he) _ (lookup_some_mem _ _ _ hc)

theorem getRecommendedPlants_hardiness_first_witness :
    PLANT_DATABASE.zipcodes.lookup "33101" = none ∧
    (getRecommendedPlants "33101" "Subtropical" "8b").category? "edibles" =
      some ["Fig", "Persimmon", "Citrus", "Blueberry", "Muscadine Grape", "Strawberry", "Tomato",
        "Pepper"] ∧
    ["Fig", "Persimmon", "Citrus", "Blueberry", "Muscadine Grape"] <+:
      ["Fig", "Persimmon", "Citrus", "Blueberry", "Muscadine Grape", "Strawberry", "Tomato",
        "Pepper"] :=
  ⟨by decide, by decide,
    getRecommendedPlants_hardiness_first "33101" "Subtropical" "8b" "edibles"
      [("trees", ["Crape Myrtle", "Southern Magnolia", "Live Oak", "Bald Cypress",
          "Windmill Palm"]),
       ("shrubs", ["Camellia", "Loropetalum", "Abelia", "Gardenia", "Bottlebrush"]),
       ("perennials", ["Canna", "Agapanthus", "Lantana", "Mexican Petunia", "Firebush"]),
       ("edibles", ["Fig", "Persimmon", "Citrus", "Blueberry", "Muscadine Grape"])]
      _ (by decide) (by decide) (by decide)⟩

/-! ## The hardiness zone of a zipcode -/

theorem digitValue_lt (c : Char) (h : c.isDigit = true) : digitValue c < 10 := by
  unfold digitValue
  simp only [Char.isDigit, Bool.and_eq_true, decide_eq_true_eq] at h
  have h2 : c.val.toNat ≤ 57 := h.2
  show c.val.toNat - 48 < 10
  omega

theorem parseInt_digit (c : Char) (h : c.isDigit = true) :
    parseInt (some c) = some ((digitValue c : Nat) : ℚ) := by
  simp [parseInt, h, digitValue]

theorem parseInt_not_digit (c : Char) (h : c.isDigit = false) : parseInt (some c) = none := by
  simp [parseInt, h]

theorem getHardinessZone_eq (zipcode : String) :
    getHardinessZone zipcode =
      zoneStringOf (baseZoneOf (parseInt (charAt zipcode 0)) (parseInt (charAt zipcode 1))) :=
  rfl

theorem zoneStringOf_some (x : ℚ) : zoneStringOf (some x) = specZoneString x := by
  unfold zoneStringOf specZoneString
  simp only [JSNum.round, JSNum.render, JSNum.floor, JSNum.sub, JSNum.lt, round_eq, Int.fract,
    decide_eq_true_eq]

theorem zoneStringOf_none : zoneStringOf none = "NaNb" := by decide

theorem baseZoneOf_digits (d0 d1 : Nat) (hd0 : d0 < 10) :
    baseZoneOf (some (d0 : ℚ)) (some (d1 : ℚ)) = some (specBaseZone d0 d1) := by
  unfold baseZoneOf specBaseZone
  simp only [JSNum.le, JSNum.add, JSNum.sub, JSNum.div, JSNum.min]
  interval_cases d0 <;> norm_num [bandConstant, min_def]

theorem baseZoneOf_none_left (s : JSNum) : baseZoneOf none s = none := by
  cases s <;> rfl

theorem baseZoneOf_none_right (f : JSNum) : baseZoneOf f none = none := by
  cases f with
  | none => rfl
  | some x =>
    unfold baseZoneOf
    simp only [JSNum.div, JSNum.min, JSNum.add]
    split_ifs <;> rfl

theorem getHardinessZone_of_parse (zipcode : String) (d0 d1 : Nat) (hd0 : d0 < 10)
    (h0 : parseInt (charAt zipcode 0) = some (d0 : ℚ))
    (h1 : parseInt (charAt zipcode 1) = some (d1 : ℚ)) :
    getHardinessZone zipcode = specZoneString (specBaseZone d0 d1) := by
  rw [getHardinessZone_eq, h0, h1, baseZoneOf_digits d0 d1 hd0, zoneStringOf_some]

theorem parseInt_of_not_digitAt (s : String) (i : Nat) (h : digitAt s i = false) :
    parseInt (charAt s i) = none := by
  unfold digitAt at h
  cases hc : charAt s i with
  | none => rfl
  | some c =>
    rw [hc] at h
    exact parseInt_not_digit c h

theorem specZoneString_intCast (n : ℤ) : specZoneString (n : ℚ) = toString n ++ "a" := by
  simp [specZoneString]

theorem getHardinessZone_of_digit_chars (zipcode : String) (a b : Char)
    (h0 : charAt zipcode 0 = some a) (h1 : charAt zipcode 1 = some b)
    (ha : a.isDigit = true) (hb : b.isDigit = true) :
    getHardinessZone zipcode = specZoneString (specBaseZone (digitValue a) (digitValue b)) := by
  apply getHardinessZone_of_parse zipcode _ _ (digitValue_lt a ha)
  · rw [h0, parseInt_digit a ha]
  · rw [h1, parseInt_digit b hb]

/-- C5. When the first two characters of the zipcode are decimal digits `d0` and `d1`,
`getHardinessZone` returns the decimal rendering of `round baseZone` followed by `a` when the
fractional part of `baseZone` is below one half and by `b` otherwise, for
`baseZone = c(d0) + min(d1/3, 2)` with `c(0..9) = 3, 4, 7, 8, 4, 5, 7, 8, 5, 6`; the zipcode
"10001" gets "4a". -/
theorem getHardinessZone_digits :
    (∀ (zipcode : String) (a b : Char),
      charAt zipcode 0 = some a → charAt zipcode 1 = some b →
      a.isDigit = true → b.isDigit = true →
        getHardinessZone zipcode =
          specZoneString (specBaseZone (digitValue a) (digitValue b))) ∧
    getHardinessZone "10001" = "4a" := by
  refine ⟨fun zipcode a b h0 h1 ha hb =>
    getHardinessZone_of_digit_chars zipcode a b h0 h1 ha hb, ?_⟩
  rw [getHardinessZone_of_digit_chars "10001" '1' '0' (by decide) (by decide) (by decide)
    (by decide)]
  have hv : specBaseZone (digitValue '1') (digitValue '0') = ((4 : ℤ) : ℚ) := by
    have h1 : digitValue '1' = 1 := by decide
    have h0 : digitValue '0' = 0 := by decide
    rw [h1, h0]
    norm_num [specBaseZone, bandConstant]
  rw [hv, specZoneString_intCast]
  decide

theorem getHardinessZone_digits_witness :
    charAt "90210" 0 = some '9' ∧ charAt "90210" 1 = some '0' ∧
    getHardinessZone "90210" = specZoneString (specBaseZone (digitValue '9') (digitValue '0')) :=
  ⟨by decide, by decide,
    getHardinessZone_digits.1 "90210" '9' '0' (by decide) (by decide) (by decide) (by decide)⟩

/-- The empty code, a code with a non-digit first character and a code with a non-digit second
character all get "NaNb", while the code "00" gets "3a". -/
theorem getHardinessZone_missing_digit_not_zero :
    getHardinessZone "" = "NaNb" ∧ getHardinessZone "x0" = "NaNb" ∧
    getHardinessZone "0x" = "NaNb" ∧ getHardinessZone "00" = "3a" ∧
    getHardinessZone "" ≠ getHardinessZone "00" := by
  have h00 : getHardinessZone "00" = "3a" := by
    rw [getHardinessZone_of_parse "00" 0 0 (by decide) (by simp [charAt, parseInt])
      (by simp [charAt, parseInt])]
    have hv : specBaseZone 0 0 = ((3 : ℤ) : ℚ) := by norm_num [specBaseZone, bandConstant]
    rw [hv, specZoneString_intCast]
    decide
  refine ⟨by decide, by decide, by decide, h00, ?_⟩
  rw [h00]
  decide

/-- When the first or the second character of the zipcode is missing or is not a decimal digit,
the digit is parsed as `NaN`, nothing replaces it by a default, and `getHardinessZone` returns
"NaNb". -/
theorem getHardinessZone_malformed (zipcode : String)
    (h : digitAt zipcode 0 = false ∨ digitAt zipcode 1 = false) :
    getHardinessZone zipcode = "NaNb" := by
  rw [getHardinessZone_eq]
  rcases h with h | h
  · rw [parseInt_of_not_digitAt zipcode 0 h, baseZoneOf_none_left, zoneStringOf_none]
  · rw [parseInt_of_not_digitAt zipcode 1 h, baseZoneOf_none_right, zoneStringOf_none]

theorem getHardinessZone_malformed_witness :
    (digitAt "9" 0 = false ∨ digitAt "9" 1 = false) ∧ getHardinessZone "9" = "NaNb" :=
  ⟨by decide, getHardinessZone_malformed "9" (by decide)⟩

/-- C8. Two zipcodes whose first two characters are the same two decimal digits get the same
zone string, whatever follows. -/
theorem getHardinessZone_same_prefix (z1 z2 : String) (a b : Char)
    (ha : a.isDigit = true) (hb : b.isDigit = true)
    (h10 : charAt z1 0 = some a) (h11 : charAt z1 1 = some b)
    (h20 : charAt z2 0 = some a) (h21 : charAt z2 1 = some b) :
    getHardinessZone z1 = getHardinessZone z2 := by
  rw [getHardinessZone_of_digit_chars z1 a b h10 h11 ha hb,
    getHardinessZone_of_digit_chars z2 a b h20 h21 ha hb]

theorem getHardinessZone_same_prefix_witness :
    charAt "10001" 1 = some '0' ∧ charAt "10" 1 = some '0' ∧
    getHardinessZone "10001" = getHardinessZone "10" :=
  ⟨by decide, by decide,
    getHardinessZone_same_prefix "10001" "10" '1' '0' (by decide) (by decide) (by decide)
      (by decide) (by decide) (by decide)⟩

/-! ## The climate of a zipcode -/

theorem climateMap_lookup_none (c : Char)
    (h : c ∉ ['0', '1', '2', '3', '4', '5', '6', '7', '8', '9']) :
    climateMap.lookup c = none := by
  simp only [List.mem_cons, List.mem_singleton, List.not_mem_nil, or_false, not_or] at h
  obtain ⟨h0, h1, h2, h3, h4, h5, h6, h7, h8, h9⟩ := h
  have e0 : (c == '0') = false := beq_false_of_ne h0
  have e1 : (c == '1') = false := beq_false_of_ne h1
  have e2 : (c == '2') = false := beq_false_of_ne h2
  have e3 : (c == '3') = false := beq_false_of_ne h3
  have e4 : (c == '4') = false := beq_false_of_ne h4
  have e5 : (c == '5') = false := beq_false_of_ne h5
  have e6 : (c == '6') = false := beq_false_of_ne h6
  have e7 : (c == '7') = false := beq_false_of_ne h7
  have e8 : (c == '8') = false := beq_false_of_ne h8
  have e9 : (c == '9') = false := beq_false_of_ne h9
  simp only [climateMap, List.lookup, e0, e1, e2, e3, e4, e5, e6, e7, e8, e9]

/-- C7. `getClimateFromZipcode` is a function of the first character of the zipcode alone: it is
Continental for '0', '1', '4', '5', Subtropical for '2', '3', Arid for '6', '7', Temperate for
'8', '9', and Unknown in every other case, the empty zipcode included. -/
theorem getClimateFromZipcode_first_char :
    (∀ z1 z2 : String, charAt z1 0 = charAt z2 0 →
      getClimateFromZipcode z1 = getClimateFromZipcode z2) ∧
    (∀ zipcode : String,
      (charAt zipcode 0 ∈ [some '0', some '1', some '4', some '5'] →
        getClimateFromZipcode zipcode = "Continental") ∧
      (charAt zipcode 0 ∈ [some '2', some '3'] →
        getClimateFromZipcode zipcode = "Subtropical") ∧
      (charAt zipcode 0 ∈ [some '6', some '7'] → getClimateFromZipcode zipcode = "Arid") ∧
      (charAt zipcode 0 ∈ [some '8', some '9'] →
        getClimateFromZipcode zipcode = "Temperate") ∧
      (charAt zipcode 0 ∉ [some '0', some '1', some '2', some '3', some '4', some '5',
          some '6', some '7', some '8', some '9'] →
        getClimateFromZipcode zipcode = "Unknown")) := by
  constructor
  · intro z1 z2 h
    unfold getClimateFromZipcode
    rw [h]
  · intro zipcode
    unfold getClimateFromZipcode
    cases charAt zipcode 0 with
    | none => simp
    | some c =>
      refine ⟨?_, ?_, ?_, ?_, ?_⟩
      · intro h
        simp only [List.mem_cons, Option.some.injEq, List.mem_singleton, List.not_mem_nil,
          or_false] at h
        rcases h with rfl | rfl | rfl | rfl <;> decide
      · intro h
        simp only [List.mem_cons, Option.some.injEq, List.mem_singleton, List.not_mem_nil,
          or_false] at h
        rcases h with rfl | rfl <;> decide
      · intro h
        simp only [List.mem_cons, Option.some.injEq, List.mem_singleton, List.not_mem_nil,
          or_false] at h
        rcases h with rfl | rfl <;> decide
      · intro h
        simp only [List.mem_cons, Option.some.injEq, List.mem_singleton, List.not_mem_nil,
          or_false] at h
        rcases h with rfl | rfl <;> decide
      · intro h
        have hc : c ∉ ['0', '1', '2', '3', '4', '5', '6', '7', '8', '9'] := by
          simpa using h
        simp [climateMap_lookup_none c hc]

theorem getClimateFromZipcode_first_char_witness :
    charAt "10001" 0 = charAt "1" 0 ∧ getClimateFromZipcode "10001" = getClimateFromZipcode "1" ∧
    charAt "10001" 0 ∈ [some '0', some '1', some '4', some '5'] ∧
    getClimateFromZipcode "10001" = "Continental" ∧
    getClimateFromZipcode "" = "Unknown" :=
  ⟨by decide, getClimateFromZipcode_first_char.1 "10001" "1" (by decide), by decide,
    (getClimateFromZipcode_first_char.2 "10001").1 (by decide),
    (getClimateFromZipcode_first_char.2 "").2.2.2.2 (by decide)⟩

/-! ## Element tables -/

theorem str_of_match (o : Option JSVal)
    (h : (match o with | some (.str _) => true | _ => false) = true) :
    ∃ s, o = some (.str s) := by
  cases o with
  | none => simp at h
  | some v =>
    cases v with
    | str s => exact ⟨s, rfl⟩
    | arr xs => simp at h

theorem arr_of_match (o : Option JSVal)
    (h : (match o with | some (.arr xs) => !xs.isEmpty | _ => false) = true) :
    ∃ xs, o = some (.arr xs) ∧ xs ≠ [] := by
  cases o with
  | none => simp at h
  | some v =>
    cases v with
    | str s => simp at h
    | arr xs =>
      refine ⟨xs, rfl, ?_⟩
      intro he
      subst he
      simp at h

theorem completeElementRecord_spec (r : ElementRecord) (h : completeElementRecord r = true) :
    ∃ (d p : String) (ps fs : List String),
      r.lookup "description" = some (.str d) ∧ r.lookup "placement" = some (.str p) ∧
      r.lookup "plants" = some (.arr ps) ∧ ps ≠ [] ∧
      r.lookup "features" = some (.arr fs) ∧ fs ≠ [] := by
  unfold completeElementRecord at h
  simp only [Bool.and_eq_true] at h
  obtain ⟨⟨⟨h1, h2⟩, h3⟩, h4⟩ := h
  obtain ⟨d, hd⟩ := str_of_match _ h1
  obtain ⟨p, hp⟩ := str_of_match _ h2
  obtain ⟨ps, hps, hps0⟩ := arr_of_match _ h3
  obtain ⟨fs, hfs, hfs0⟩ := arr_of_match _ h4
  exact ⟨d, p, ps, fs, hd, hp, hps, hps0, hfs, hfs0⟩

theorem completeElementTable_spec (t : ElementTable) (h : completeElementTable t = true)
    (e : String) (he : e ∈ elementKinds) :
    ∃ r, t.lookup e = some r ∧ completeElementRecord r = true := by
  unfold completeElementTable at h
  rw [List.all_eq_true] at h
  have := h e he
  split at this
  · exact ⟨_, by assumption, this⟩
  · simp at this

/-- C9. For each of the six climate classes `getFengShuiRecommendations` returns an element
table of the database, and the table has, for each of water, wood, fire, earth and metal, a
record with a description, a placement, a non-empty plant list and a non-empty feature list. -/
theorem getFengShuiRecommendations_complete (climateZone : String)
    (hc : climateZone ∈ climateClasses) :
    ∃ t, getFengShuiRecommendations climateZone = .own t ∧
      ∀ e ∈ elementKinds, ∃ (r : ElementRecord) (d p : String) (ps fs : List String),
        t.lookup e = some r ∧
        r.lookup "description" = some (.str d) ∧ r.lookup "placement" = some (.str p) ∧
        r.lookup "plants" = some (.arr ps) ∧ ps ≠ [] ∧
        r.lookup "features" = some (.arr fs) ∧ fs ≠ [] := by
  have hb : ∀ c ∈ climateClasses,
      (match getFengShuiRecommendations c with
        | .own t => completeElementTable t
        | _ => false) = true := by decide
  have h := hb climateZone hc
  split at h
  · rename_i t ht
    refine ⟨t, ht, fun e he => ?_⟩
    obtain ⟨r, hr, hcr⟩ := completeElementTable_spec t h e he
    obtain ⟨d, p, ps, fs, h1, h2, h3, h4, h5, h6⟩ := completeElementRecord_spec r hcr
    exact ⟨r, d, p, ps, fs, hr, h1, h2, h3, h4, h5, h6⟩
  · simp at h

theorem getFengShuiRecommendations_complete_witness :
    "Unknown" ∈ climateClasses ∧
    ∃ t, getFengShuiRecommendations "Unknown" = .own t ∧
      ∀ e ∈ elementKinds, ∃ (r : ElementRecord) (d p : String) (ps fs : List String),
        t.lookup e = some r ∧
        r.lookup "description" = some (.str d) ∧ r.lookup "placement" = some (.str p) ∧
        r.lookup "plants" = some (.arr ps) ∧ ps ≠ [] ∧
        r.lookup "features" = some (.arr fs) ∧ fs ≠ [] :=
  ⟨by decide, getFengShuiRecommendations_complete "Unknown" (by decide)⟩

/-! ## The merge, away from inherited names -/

theorem setFold_eq_dedupFirst (xs : List String) :
    ∀ acc : List String,
      xs.foldl (fun acc x => if x ∈ acc then acc else acc ++ [x]) acc =
        acc ++ (dedupFirst xs).filter (fun y => y ∉ acc) := by
  induction xs with
  | nil => intro acc; simp [dedupFirst]
  | cons x t ih =>
    intro acc
    simp only [List.foldl_cons, dedupFirst]
    by_cases hx : x ∈ acc
    · simp only [hx, if_true]
      rw [ih acc, List.filter_cons]
      simp only [hx, not_true_eq_false, decide_False, Bool.false_eq_true, if_false,
        List.filter_filter]
      congr 1
      apply List.filter_congr
      intro y _
      by_cases hy : y ∈ acc
      · simp [hy]
      · have : y ≠ x := fun e => hy (e ▸ hx)
        simp [hy, this]
    · simp only [hx, if_false]
      rw [ih (acc ++ [x]), List.filter_cons]
      simp only [hx, not_false_eq_true, decide_True, if_true, List.filter_filter,
        List.append_assoc, List.singleton_append]
      congr 2
      apply List.filter_congr
      intro y _
      by_cases hy : y ∈ acc <;> by_cases hyx : y = x <;> simp [hy, hyx]

/-- The array `[...new Set(xs)]` is the documented deduplication of `xs`. -/
theorem setSpread_eq_dedupFirst (xs : List String) : setSpread xs = dedupFirst xs := by
  unfold setSpread
  rw [setFold_eq_dedupFirst xs []]
  simp

theorem tableComplete_of_check (t : List (String × PlantRecord))
    (h : (t.all fun p => plantCategories.all fun k =>
      match p.2.lookup k with
      | some l => !l.isEmpty
      | none => false) = true) : tableComplete t := by
  intro p hp k hk
  rw [List.all_eq_true] at h
  have h1 := h p hp
  rw [List.all_eq_true] at h1
  have h2 := h1 k hk
  cases hl : p.2.lookup k with
  | none => rw [hl] at h2; simp at h2
  | some l =>
    rw [hl] at h2
    refine ⟨l, rfl, ?_⟩
    intro he
    subst he
    simp at h2

theorem climateZones_complete : tableComplete PLANT_DATABASE.climateZones :=
  tableComplete_of_check _ (by decide)

theorem zipcodes_complete : tableComplete PLANT_DATABASE.zipcodes :=
  tableComplete_of_check _ (by decide)

theorem jsGet_undefined_iff {α : Type} (t : List (String × α)) (k : String) :
    jsGet t k = .undefined ↔ t.lookup k = none ∧ k ∉ objectPrototypeNames := by
  unfold jsGet
  cases t.lookup k with
  | none => by_cases hp : k ∈ objectPrototypeNames <;> simp [hp]
  | some v => simp

theorem optionalCategory_eq_spec (hardinessZone category : String) :
    optionalCategory (jsGet PLANT_DATABASE.hardinessZones hardinessZone) category =
      specHardinessList hardinessZone category := by
  unfold jsGet specHardinessList
  cases PLANT_DATABASE.hardinessZones.lookup hardinessZone with
  | none => by_cases hp : hardinessZone ∈ objectPrototypeNames <;> simp [hp, optionalCategory]
  | some e => simp [optionalCategory]

theorem requiredCategory_eq_spec (climateZone category : String)
    (hc : climateZone ∉ objectPrototypeNames) (hk : category ∈ plantCategories) :
    requiredCategory ((jsGet PLANT_DATABASE.climateZones climateZone).orElse
        (jsGet PLANT_DATABASE.climateZones "Default")) category =
      some (specClimateList climateZone category) ∧
    specClimateList climateZone category ≠ [] := by
  unfold jsGet specClimateList
  cases hl : PLANT_DATABASE.climateZones.lookup climateZone with
  | none =>
    obtain ⟨d, hd⟩ : ∃ d, PLANT_DATABASE.climateZones.lookup "Default" = some d :=
      ⟨_, rfl⟩
    obtain ⟨l, hl1, hl2⟩ := climateZones_complete _ (lookup_some_mem _ _ _ hd) category hk
    simp only [hc, if_false, JSLookup.orElse, hd, requiredCategory]
    simp only at hl1
    rw [hl1]
    exact ⟨rfl, hl2⟩
  | some e =>
    obtain ⟨l, hl1, hl2⟩ := climateZones_complete _ (lookup_some_mem _ _ _ hl) category hk
    simp only [JSLookup.orElse, requiredCategory]
    simp only at hl1
    rw [hl1]
    exact ⟨rfl, hl2⟩

/-- The merge as documented, on the inputs that do not name a member of `Object.prototype`:
when the zipcode is neither a key of the zipcode table nor such a name, and the climate zone is
not such a name, each of the six categories of the result is the deduplication of the hardiness
list followed by the climate list. -/
theorem getRecommendedPlants_merged (zipcode climateZone hardinessZone category : String)
    (hz : PLANT_DATABASE.zipcodes.lookup zipcode = none)
    (hzp : zipcode ∉ objectPrototypeNames) (hcp : climateZone ∉ objectPrototypeNames)
    (hk : category ∈ plantCategories) :
    (getRecommendedPlants zipcode climateZone hardinessZone).category? category =
      some (dedupFirst (specHardinessList hardinessZone category ++
        specClimateList climateZone category)) := by
  have hu : jsGet PLANT_DATABASE.zipcodes zipcode = .undefined :=
    (jsGet_undefined_iff _ _).mpr ⟨hz, hzp⟩
  have hm : ∀ k ∈ plantCategories,
      mergeCategory (jsGet PLANT_DATABASE.hardinessZones hardinessZone)
        ((jsGet PLANT_DATABASE.climateZones climateZone).orElse
          (jsGet PLANT_DATABASE.climateZones "Default")) k =
        some (dedupFirst (specHardinessList hardinessZone k ++ specClimateList climateZone k)) := by
    intro k hk
    unfold mergeCategory
    rw [(requiredCategory_eq_spec climateZone k hcp hk).1, optionalCategory_eq_spec,
      Option.map_some', setSpread_eq_dedupFirst]
  unfold getRecommendedPlants
  rw [hu]
  simp only [mergedRecord, bind, pure]
  rw [hm "trees" (by decide), hm "shrubs" (by decide), hm "perennials" (by decide),
    hm "annuals" (by decide), hm "groundcovers" (by decide), hm "edibles" (by decide)]
  simp only [Option.bind, PlantResult.category?]
  simp only [plantCategories, List.mem_cons, List.mem_singleton, List.not_mem_nil,
    or_false] at hk
  rcases hk with rfl | rfl | rfl | rfl | rfl | rfl <;> rfl

theorem getRecommendedPlants_merged_example :
    (getRecommendedPlants "33101" "Subtropical" "8b").category? "shrubs" =
      some (dedupFirst (specHardinessList "8b" "shrubs" ++
        specClimateList "Subtropical" "shrubs")) :=
  getRecommendedPlants_merged "33101" "Subtropical" "8b" "shrubs" (by decide) (by decide)
    (by decide) (by decide)

/-! ## Inherited names as zipcodes -/

theorem dedupFirst_ne_nil (xs : List String) (h : xs ≠ []) : dedupFirst xs ≠ [] := by
  cases xs with
  | nil => exact absurd rfl h
  | cons x t => simp [dedupFirst]

/-- Away from the names of `Object.prototype` the result has each of the six categories, with a
non-empty list. -/
theorem getRecommendedPlants_categories_nonempty
    (zipcode climateZone hardinessZone category : String)
    (hzp : zipcode ∉ objectPrototypeNames) (hcp : climateZone ∉ objectPrototypeNames)
    (hk : category ∈ plantCategories) :
    ∃ l, (getRecommendedPlants zipcode climateZone hardinessZone).category? category = some l ∧
      l ≠ [] := by
  cases hz : PLANT_DATABASE.zipcodes.lookup zipcode with
  | some r =>
    obtain ⟨l, hl1, hl2⟩ := zipcodes_complete _ (lookup_some_mem _ _ _ hz) category hk
    refine ⟨l, ?_, hl2⟩
    simp only [getRecommendedPlants, jsGet_of_lookup _ _ _ hz, PlantResult.category?]
    exact hl1
  | none =>
    refine ⟨_, getRecommendedPlants_merged zipcode climateZone hardinessZone category hz hzp hcp
      hk, ?_⟩
    apply dedupFirst_ne_nil
    intro he
    exact (requiredCategory_eq_spec climateZone category hcp hk).2
      (List.append_eq_nil.mp he).2

theorem objectPrototypeNames_long : ∀ n ∈ objectPrototypeNames, 2 ≤ n.length := by decide

/-- C1, failing input. The zipcode "toString" is not a key of the zipcode table, the pipeline
resolves it to climate Unknown and hardiness "NaNb", and `getRecommendedPlants` returns the
inherited member `Object.prototype.toString` instead of the merged record: the result has no
trees list, where the documented merge gives the Default trees. -/
theorem getRecommendedPlants_toString_not_merged :
    PLANT_DATABASE.zipcodes.lookup "toString" = none ∧
    getClimateFromZipcode "toString" = "Unknown" ∧ getHardinessZone "toString" = "NaNb" ∧
    getRecommendedPlants "toString" "Unknown" "NaNb" = .inherited "toString" ∧
    (getRecommendedPlants "toString" "Unknown" "NaNb").category? "trees" = none ∧
    dedupFirst (specHardinessList "NaNb" "trees" ++ specClimateList "Unknown" "trees") =
      ["Oak", "Maple", "Pine", "Fruit Trees", "Flowering Dogwood"] := by
  refine ⟨by decide, by decide, by decide, by decide, by decide, by decide⟩

/-- C10, failing input. For the zipcode "valueOf" the result of `getRecommendedPlants` is the
inherited member `Object.prototype.valueOf`, which has none of the six categories. -/
theorem getRecommendedPlants_valueOf_no_categories :
    getRecommendedPlants "valueOf" (getClimateFromZipcode "valueOf")
      (getHardinessZone "valueOf") = .inherited "valueOf" ∧
    plantCategories.map
        ((getRecommendedPlants "valueOf" (getClimateFromZipcode "valueOf")
          (getHardinessZone "valueOf")).category?) =
      [none, none, none, none, none, none] := by
  refine ⟨by decide, by decide⟩

/-! ## The empty location code -/

/-- C11. For the empty location code the pipeline yields the climate Unknown, the plant record
of the Default climate entry (so every category equals the Default list) and the Default element
table, which has the five elements. -/
theorem empty_code_pipeline :
    getClimateFromZipcode "" = "Unknown" ∧
    some (getRecommendedPlants "" (getClimateFromZipcode "") (getHardinessZone "")) =
      (PLANT_DATABASE.climateZones.lookup "Default").map PlantResult.record ∧
    plantCategories.map
        (getRecommendedPlants "" (getClimateFromZipcode "") (getHardinessZone "")).category? =
      plantCategories.map
        (fun k => (PLANT_DATABASE.climateZones.lookup "Default").bind (fun d => d.lookup k)) ∧
    (plantCategories.map
        (getRecommendedPlants "" (getClimateFromZipcode "") (getHardinessZone "")).category?).all
      Option.isSome = true ∧
    some (getFengShuiRecommendations (getClimateFromZipcode "")) =
      (FENG_SHUI_DATABASE.lookup "Default").map JSLookup.own ∧
    (FENG_SHUI_DATABASE.lookup "Default").map (fun t => t.map Prod.fst) = some elementKinds := by
  refine ⟨by decide, by decide, by decide, by decide, by decide, by decide⟩

end ClimateUtils

namespace LidarUtils

/-! ## The grid of elevation points -/

theorem loopValues_lt (gridSize limit : Nat) :
    ∀ (fuel x : Nat), ∀ v ∈ loopValues gridSize limit fuel x, v < limit := by
  intro fuel
  induction fuel with
  | zero => intro x v hv; simp [loopValues] at hv
  | succ n ih =>
    intro x v hv
    unfold loopValues at hv
    by_cases hx : x < limit
    · simp only [hx, if_true, List.mem_cons] at hv
      rcases hv with rfl | hv
      · exact hx
      · exact ih _ v hv
    · simp [hx] at hv

theorem loopValues_step (limit : Nat) :
    ∀ (fuel x : Nat), ∀ v ∈ loopValues 10 limit fuel x, v % 10 = x % 10 := by
  intro fuel
  induction fuel with
  | zero => intro x v hv; simp [loopValues] at hv
  | succ n ih =>
    intro x v hv
    unfold loopValues at hv
    by_cases hx : x < limit
    · simp only [hx, if_true, List.mem_cons] at hv
      rcases hv with rfl | hv
      · rfl
      · have := ih _ v hv
        omega
    · simp [hx] at hv

/-- With fuel for every step the loop runs until its condition fails: it makes
`(limit - x + 9) / 10` iterations. -/
theorem loopValues_length (limit : Nat) :
    ∀ (fuel x : Nat), limit ≤ x + fuel →
      (loopValues 10 limit fuel x).length = (limit + 9 - x) / 10 := by
  intro fuel
  induction fuel with
  | zero =>
    intro x h
    simp only [loopValues, List.length_nil]
    omega
  | succ n ih =>
    intro x h
    unfold loopValues
    by_cases hx : x < limit
    · simp only [hx, if_true, List.length_cons]
      rw [ih (x + 10) (by omega)]
      omega
    · simp only [hx, if_false, List.length_nil]
      omega

/-- More fuel than the limit changes nothing: the loop has ended by its own condition. -/
theorem loopValues_fuel (limit : Nat) :
    ∀ (fuel x extra : Nat), limit ≤ x + fuel →
      loopValues 10 limit (fuel + extra) x = loopValues 10 limit fuel x := by
  intro fuel
  induction fuel with
  | zero =>
    intro x extra h
    have hx : ¬ x < limit := by omega
    cases extra with
    | zero => rfl
    | succ e => simp [loopValues, hx]
  | succ n ih =>
    intro x extra h
    have e : n + 1 + extra = (n + extra) + 1 := by omega
    rw [e]
    unfold loopValues
    by_cases hx : x < limit
    · simp only [hx, if_true]
      rw [ih (x + 10) extra (by omega)]
    · simp [hx]

theorem ceil_div_ten (n : Nat) : ⌈(n : ℚ) / 10⌉₊ = (n + 9) / 10 := by
  apply le_antisymm
  · rw [Nat.ceil_le, div_le_iff₀ (by norm_num : (0 : ℚ) < 10)]
    have h : n ≤ (n + 9) / 10 * 10 := by omega
    exact_mod_cast h
  · have h1 : (n : ℚ) / 10 ≤ (⌈(n : ℚ) / 10⌉₊ : ℚ) := Nat.le_ceil _
    rw [div_le_iff₀ (by norm_num : (0 : ℚ) < 10)] at h1
    have h2 : n ≤ ⌈(n : ℚ) / 10⌉₊ * 10 := by exact_mod_cast h1
    omega

theorem inner_fold_length {R : Type} [Field R] (math : JSMath R) (width height x : Nat)
    (zs : List Nat) :
    ∀ st : List (ElevationPoint R) × Nat,
      (zs.foldl (pushElevationPoint math width height x) st).1.length =
        st.1.length + zs.length := by
  induction zs with
  | nil => intro st; simp
  | cons z t ih =>
    intro st
    rw [List.foldl_cons, ih]
    simp [pushElevationPoint]
    omega

theorem outer_fold_length {R : Type} [Field R] (math : JSMath R) (width height : Nat)
    (xs zs : List Nat) :
    ∀ st : List (ElevationPoint R) × Nat,
      (xs.foldl (fun st x => zs.foldl (pushElevationPoint math width height x) st) st).1.length =
        st.1.length + xs.length * zs.length := by
  induction xs with
  | nil => intro st; simp
  | cons x t ih =>
    intro st
    rw [List.foldl_cons, ih, inner_fold_length]
    simp only [List.length_cons]
    ring

theorem inner_fold_mem {R : Type} [Field R] (math : JSMath R) (width height x : Nat)
    (zs : List Nat) :
    ∀ (st : List (ElevationPoint R) × Nat),
      ∀ p ∈ (zs.foldl (pushElevationPoint math width height x) st).1,
        p ∈ st.1 ∨ ∃ z ∈ zs, ∃ k, p = elevationPointAt math width height x z k := by
  induction zs with
  | nil => intro st p hp; left; simpa using hp
  | cons z t ih =>
    intro st p hp
    rw [List.foldl_cons] at hp
    rcases ih _ p hp with h | ⟨z', hz', k, hk⟩
    · simp only [pushElevationPoint, List.mem_append, List.mem_singleton] at h
      rcases h with h | h
      · left; exact h
      · right
        exact ⟨z, List.mem_cons_self _ _, st.2, h⟩
    · right
      exact ⟨z', List.mem_cons_of_mem _ hz', k, hk⟩

theorem outer_fold_mem {R : Type} [Field R] (math : JSMath R) (width height : Nat)
    (xs zs : List Nat) :
    ∀ (st : List (ElevationPoint R) × Nat),
      ∀ p ∈ (xs.foldl (fun st x => zs.foldl (pushElevationPoint math width height x) st) st).1,
        p ∈ st.1 ∨ ∃ x ∈ xs, ∃ z ∈ zs, ∃ k, p = elevationPointAt math width height x z k := by
  induction xs with
  | nil => intro st p hp; left; simpa using hp
  | cons x t ih =>
    intro st p hp
    rw [List.foldl_cons] at hp
    rcases ih _ p hp with h | ⟨x', hx', z, hz, k, hk⟩
    · rcases inner_fold_mem math width height x zs st p h with h | ⟨z, hz, k, hk⟩
      · left; exact h
      · right
        exact ⟨x, List.mem_cons_self _ _, z, hz, k, hk⟩
    · right
      exact ⟨x', List.mem_cons_of_mem _ hx', z, hz, k, hk⟩

/-- Every elevation point comes from a grid abscissa `x < width` and a grid ordinate
`z < height`, both multiples of 10, and from one random value. -/
theorem elevationPoints_mem {R : Type} [Field R] (math : JSMath R) (width height : Nat)
    (p : ElevationPoint R) (hp : p ∈ generateMockElevationPoints math width height) :
    ∃ x z k : Nat, x < width ∧ z < height ∧ x % 10 = 0 ∧ z % 10 = 0 ∧
      p = elevationPointAt math width height x z k := by
  unfold generateMockElevationPoints at hp
  rcases outer_fold_mem math width height _ _ _ p hp with h | ⟨x, hx, z, hz, k, hk⟩
  · simp at h
  · exact ⟨x, z, k, loopValues_lt _ _ _ _ x hx, loopValues_lt _ _ _ _ z hz,
      loopValues_step _ _ _ x hx, loopValues_step _ _ _ z hz, hk⟩

theorem elevationPoints_length {R : Type} [Field R] (math : JSMath R) (width height : Nat) :
    (generateMockElevationPoints math width height).length =
      (width + 9) / 10 * ((height + 9) / 10) := by
  unfold generateMockElevationPoints
  rw [outer_fold_length, loopValues_length width width 0 (by omega),
    loopValues_length height height 0 (by omega)]
  simp

/-- C12. For all natural numbers `width` and `height`, `processLidarData` returns exactly
`ceil(width/10) * ceil(height/10)` elevation points; for 640 by 480 that is 64 * 48 = 3072. -/
theorem processLidarData_point_count :
    (∀ {R : Type} [Field R] (math : JSMath R) (depthData : Option (List UInt8))
        (width height : Nat),
      (processLidarData math depthData width height).elevationPoints.length =
        ⌈(width : ℚ) / 10⌉₊ * ⌈(height : ℚ) / 10⌉₊) ∧
    (∀ {R : Type} [Field R] (math : JSMath R) (depthData : Option (List UInt8)),
      (processLidarData math depthData 640 480).elevationPoints.length = 3072) := by
  constructor
  · intro R _ math depthData width height
    rw [ceil_div_ten, ceil_div_ten]
    exact elevationPoints_length math width height
  · intro R _ math depthData
    exact elevationPoints_length math 640 480

/-- C13, as stated, fails: for a missing depth buffer and for an empty one, with the width 640
and the height 480, the terrain type is "Slightly sloped", there are three contour lines and
three features, and 3072 elevation points. -/
theorem processLidarData_missing_buffer_not_empty :
    (processLidarData sampleMath none 640 480).terrainType = "Slightly sloped" ∧
    (processLidarData sampleMath none 640 480).terrainType ≠ "Unknown" ∧
    (processLidarData sampleMath none 640 480).contourLines.length = 3 ∧
    (processLidarData sampleMath none 640 480).features.length = 3 ∧
    (processLidarData sampleMath none 640 480).elevationPoints.length = 3072 ∧
    (processLidarData sampleMath (some []) 640 480).terrainType = "Slightly sloped" ∧
    (processLidarData sampleMath (some []) 640 480).contourLines.length = 3 ∧
    (processLidarData sampleMath (some []) 640 480).features.length = 3 ∧
    (processLidarData sampleMath (some []) 640 480).elevationPoints.length = 3072 := by
  refine ⟨rfl, by decide, rfl, rfl, elevationPoints_length _ 640 480, rfl, rfl, rfl,
    elevationPoints_length _ 640 480⟩

/-- C13, amended. The depth buffer is not read: whether it is missing, empty or filled, the
terrain type is "Slightly sloped", the contour lines are the three mock bands, the features are
the mock tree, structure and water, and the elevation points are the grid of the given width and
height, which is empty exactly when the width or the height is 0. -/
theorem processLidarData_ignores_buffer {R : Type} [Field R] (math : JSMath R)
    (depthData : Option (List UInt8)) (width height : Nat) :
    (processLidarData math depthData width height).terrainType = "Slightly sloped" ∧
    (processLidarData math depthData width height).contourLines.length = 3 ∧
    (processLidarData math depthData width height).contourLines.map (fun c => c.points.length) =
      [5, 4, 3] ∧
    (processLidarData math depthData width height).features.map (fun f => f.type) =
      ["tree", "structure", "water"] ∧
    ((processLidarData math depthData width height).elevationPoints = [] ↔
      width = 0 ∨ height = 0) ∧
    (processLidarData math depthData width height).elevationPoints =
      (processLidarData math none width height).elevationPoints ∧
    (processLidarData math depthData width height).elevationPoints =
      (processLidarData math (some []) width height).elevationPoints := by
  refine ⟨rfl, rfl, rfl, rfl, ?_, rfl, rfl⟩
  rw [← List.length_eq_zero]
  show (generateMockElevationPoints math width height).length = 0 ↔ _
  rw [elevationPoints_length, Nat.mul_eq_zero]
  constructor
  · rintro (h1 | h1)
    · left; omega
    · right; omega
  · rintro (h1 | h1)
    · left; omega
    · right; omega

/-- C14. Every elevation point returned by `processLidarData` has normalised coordinates
`0 ≤ x ≤ 1` and `0 ≤ z ≤ 1`: `x` is a grid abscissa below the width divided by the width, `z`
a grid ordinate below the height divided by the height. -/
theorem processLidarData_normalized {R : Type} [LinearOrderedField R] (math : JSMath R)
    (depthData : Option (List UInt8)) (width height : Nat) (p : ElevationPoint R)
    (hw : 0 < width) (hh : 0 < height)
    (hp : p ∈ (processLidarData math depthData width height).elevationPoints) :
    (0 ≤ p.x ∧ p.x ≤ 1 ∧ 0 ≤ p.z ∧ p.z ≤ 1) ∧
    ∃ gx gz : Nat, gx < width ∧ gz < height ∧ gx % 10 = 0 ∧ gz % 10 = 0 ∧
      p.x = (gx : R) / (width : R) ∧ p.z = (gz : R) / (height : R) := by
  obtain ⟨x, z, k, hx, hz, hx10, hz10, rfl⟩ := elevationPoints_mem math width height p hp
  have hwR : (0 : R) < (width : R) := by exact_mod_cast hw
  have hhR : (0 : R) < (height : R) := by exact_mod_cast hh
  have hxR : (x : R) ≤ (width : R) := by exact_mod_cast hx.le
  have hzR : (z : R) ≤ (height : R) := by exact_mod_cast hz.le
  refine ⟨⟨?_, ?_, ?_, ?_⟩, x, z, hx, hz, hx10, hz10, rfl, rfl⟩
  · exact div_nonneg (Nat.cast_nonneg x) hwR.le
  · exact (div_le_one hwR).mpr hxR
  · exact div_nonneg (Nat.cast_nonneg z) hhR.le
  · exact (div_le_one hhR).mpr hzR

theorem sample_point_mem :
    ({ x := 10 / 20, y := 0, z := 0 / 10 } : ElevationPoint ℚ) ∈
      (processLidarData sampleMath none 20 10).elevationPoints := by
  simp [processLidarData, generateMockElevationPoints, loopValues, pushElevationPoint,
    sampleMath]

theorem processLidarData_normalized_witness :
    ({ x := 10 / 20, y := 0, z := 0 / 10 } : ElevationPoint ℚ) ∈
      (processLidarData sampleMath none 20 10).elevationPoints ∧
    ((0 : ℚ) ≤ 10 / 20 ∧ (10 / 20 : ℚ) ≤ 1 ∧ (0 : ℚ) ≤ 0 / 10 ∧ (0 / 10 : ℚ) ≤ 1) :=
  ⟨sample_point_mem,
    (processLidarData_normalized sampleMath none 20 10 _ (by decide) (by decide)
      sample_point_mem).1⟩

/-- C15. Over the reals, for every random source with values in `[0, 1)`, each elevation point
`(x, y, z)` returned by `processLidarData` satisfies `y = 2 sin(π x) + 2 cos(π z) + n` for a
noise term `n` with `0 ≤ n < 1/2`, `x` and `z` being the point's own normalised coordinates.
This holds for every width and height; when one of them is 0 there is no point. -/
theorem processLidarData_elevation (random : Nat → ℝ)
    (hr : ∀ k, 0 ≤ random k ∧ random k < 1)
    (depthData : Option (List UInt8)) (width height : Nat) (p : ElevationPoint ℝ)
    (hp : p ∈ (processLidarData
      { sin := Real.sin, cos := Real.cos, PI := Real.pi, random := random }
      depthData width height).elevationPoints) :
    ∃ n : ℝ, 0 ≤ n ∧ n < 1 / 2 ∧
      p.y = 2 * Real.sin (Real.pi * p.x) + 2 * Real.cos (Real.pi * p.z) + n := by
  obtain ⟨x, z, k, _, _, _, _, rfl⟩ := elevationPoints_mem _ width height p hp
  refine ⟨random k * (1 / 2), ?_, ?_, ?_⟩
  · have := (hr k).1
    positivity
  · have := (hr k).2
    linarith
  · simp only [elevationPointAt]
    ring_nf

theorem real_point_mem :
    ({ x := 0 / 10, y := Real.sin (0 / 10 * Real.pi) * 2 + Real.cos (0 / 10 * Real.pi) * 2 +
        0 * (1 / 2), z := 0 / 10 } : ElevationPoint ℝ) ∈
      (processLidarData
        { sin := Real.sin, cos := Real.cos, PI := Real.pi, random := fun _ => 0 }
        none 10 10).elevationPoints := by
  simp [processLidarData, generateMockElevationPoints, loopValues, pushElevationPoint]

theorem processLidarData_elevation_witness :
    ∃ n : ℝ, 0 ≤ n ∧ n < 1 / 2 ∧
      Real.sin (0 / 10 * Real.pi) * 2 + Real.cos (0 / 10 * Real.pi) * 2 + 0 * (1 / 2) =
        2 * Real.sin (Real.pi * (0 / 10)) + 2 * Real.cos (Real.pi * (0 / 10)) + n :=
  processLidarData_elevation (fun _ => 0) (fun _ => ⟨le_refl 0, zero_lt_one⟩) none 10 10 _
    real_point_mem

end LidarUtils

namespace DesignViewer

open ClimateUtils LidarUtils

/-! ## The generated design -/

/-- The interval of `generateDesign` ends after 25 ticks, whatever the state it starts in: the
progress is 100, the mock design is stored and generation is over. -/
theorem runInterval_done (s : ViewerState) :
    runInterval 25 0 s =
      { designData := some mockDesignData, isGenerating := false, generationProgress := 100,
        route := s.route } := rfl

/-- Ticks allowed beyond the 25th are not used. -/
theorem runInterval_fuel (extra : Nat) (s : ViewerState) :
    runInterval (25 + extra) 0 s = runInterval 25 0 s := by
  have e : 25 + extra = extra + 25 := by omega
  rw [e]
  rfl

theorem generateDesign_some {R : Type} (landData : LandData R) (s : ViewerState) :
    generateDesign (some landData) s =
      .ok { designData := some mockDesignData, isGenerating := false,
            generationProgress := 100, route := s.route } := rfl

theorem generateDesign_none {R : Type} (s : ViewerState) :
    generateDesign (none : Option (LandData R)) s = .ok { s with route := "/scan" } := rfl

/-- C16, as stated, fails: for the land summary of the zipcode "10001" the design is the mock
design, whose first zone lists "Apple trees", a name that is in no category list of the
recommended plants of that summary. -/
theorem generateDesign_plants_not_recommended :
    generateDesign (some sampleLandData) initialViewerState =
      .ok { designData := some mockDesignData, isGenerating := false,
            generationProgress := 100, route := "/design" } ∧
    (∃ zone ∈ mockDesignData.plantingZones, "Apple trees" ∈ zone.plants) ∧
    (∀ q ∈ sampleLandData.recommendedPlants, "Apple trees" ∉ q.2) ∧
    sampleLandData.recommendedPlants.length = 6 := by
  refine ⟨rfl, by decide, by decide, by decide⟩

/-- C16, amended. For every land summary the plant lists of the planting zones of the design
are the five fixed lists of the mock design; they are not taken from the recommended plants of
the summary. -/
theorem generateDesign_zone_plants {R : Type} (landData : LandData R) (s : ViewerState) :
    ∃ s' d, generateDesign (some landData) s = .ok s' ∧ s'.designData = some d ∧
      d.plantingZones.map (fun zone => zone.plants) =
        [["Apple trees", "Pear trees", "Blueberry bushes", "Strawberries", "Herbs"],
         ["Tomatoes", "Peppers", "Kale", "Carrots", "Beans"],
         ["Water lilies", "Cattails", "Lotus", "Watercress"],
         ["Lavender", "Rosemary", "Ornamental grasses"],
         ["Thyme", "Sage", "Mint", "Chives", "Basil"]] :=
  ⟨_, mockDesignData, generateDesign_some landData s, rfl, by decide⟩

/-- C17. For every land summary the design produced by `generateDesign` has exactly five
planting zones, each with a name, a location and one element; in lower case the elements are
wood, fire, water, earth and metal, so each of the five element kinds is used by exactly one
zone. -/
theorem generateDesign_five_zones {R : Type} (landData : LandData R) (s : ViewerState) :
    ∃ s' d, generateDesign (some landData) s = .ok s' ∧ s'.designData = some d ∧
      d.plantingZones.length = 5 ∧
      (∀ zone ∈ d.plantingZones, zone.name ≠ "" ∧ zone.location ≠ "" ∧
        lowerCase zone.fengShuiElement ∈ elementKinds) ∧
      d.plantingZones.map (fun zone => lowerCase zone.fengShuiElement) =
        ["wood", "fire", "water", "earth", "metal"] ∧
      (∀ e ∈ elementKinds,
        (d.plantingZones.map (fun zone => lowerCase zone.fengShuiElement)).count e = 1) :=
  ⟨_, mockDesignData, generateDesign_some landData s, rfl, by decide, by decide, by decide,
    by decide⟩

theorem generateDesign_five_zones_witness :
    ∃ s' d, generateDesign (some scannedLandData) initialViewerState = .ok s' ∧
      s'.designData = some d ∧
      d.plantingZones.length = 5 ∧
      (∀ zone ∈ d.plantingZones, zone.name ≠ "" ∧ zone.location ≠ "" ∧
        lowerCase zone.fengShuiElement ∈ elementKinds) ∧
      d.plantingZones.map (fun zone => lowerCase zone.fengShuiElement) =
        ["wood", "fire", "water", "earth", "metal"] ∧
      (∀ e ∈ elementKinds,
        (d.plantingZones.map (fun zone => lowerCase zone.fengShuiElement)).count e = 1) :=
  generateDesign_five_zones scannedLandData initialViewerState

/-- C18, as stated, fails: without a land summary `generateDesign` completes normally; it sets
the route to the scan page and changes nothing else, so no failure is signalled. -/
theorem generateDesign_null_returns_normally :
    generateDesign (none : Option (LandData ℚ)) initialViewerState =
      .ok { designData := none, isGenerating := false, generationProgress := 0,
            route := "/scan" } ∧
    (generateDesign (none : Option (LandData ℚ)) initialViewerState).toBool = true := by
  refine ⟨rfl, rfl⟩

/-- C18, amended. Without a land summary `generateDesign` navigates to the scan page and
returns: the stored design, the generating flag and the progress are unchanged and nothing is
thrown.  Whenever a call changes the stored design, there was a land summary, and the design
stored is the mock design. -/
theorem generateDesign_null_navigates {R : Type} :
    (∀ s : ViewerState,
      generateDesign (none : Option (LandData R)) s = .ok { s with route := "/scan" }) ∧
    (∀ (landData : Option (LandData R)) (s s' : ViewerState),
      generateDesign landData s = .ok s' → s'.designData ≠ s.designData →
        landData.isSome = true ∧ s'.designData = some mockDesignData) := by
  refine ⟨fun s => rfl, ?_⟩
  intro landData s s' h hne
  cases landData with
  | none =>
    rw [generateDesign_none] at h
    injection h with h
    subst h
    exact absurd rfl hne
  | some l =>
    rw [generateDesign_some] at h
    injection h with h
    subst h
    exact ⟨rfl, rfl⟩

theorem generateDesign_null_navigates_witness :
    generateDesign (some sampleLandData) initialViewerState =
      .ok { designData := some mockDesignData, isGenerating := false,
            generationProgress := 100, route := "/design" } ∧
    (some sampleLandData).isSome = true ∧
    (some mockDesignData : Option DesignData) = some mockDesignData :=
  ⟨rfl, (generateDesign_null_navigates).2 (some sampleLandData) initialViewerState
    { designData := some mockDesignData, isGenerating := false, generationProgress := 100,
      route := "/design" } rfl (by decide)⟩

/-- C19. The design does not depend on the land summary: for any two land summaries, whatever
their terrain, detected features and recommendations, and any two states, `generateDesign`
stores the same design, the mock design; its pathways and water features are the fixed
descriptors. -/
theorem generateDesign_static {R : Type} (landData₁ landData₂ : LandData R)
    (s₁ s₂ : ViewerState) :
    ∃ s₁' s₂' d, generateDesign (some landData₁) s₁ = .ok s₁' ∧
      generateDesign (some landData₂) s₂ = .ok s₂' ∧
      s₁'.designData = some d ∧ s₂'.designData = some d ∧
      d.pathways.map (fun p => (p.type, p.material)) =
        [("Main path", "Wood chips"), ("Secondary paths", "Stepping stones")] ∧
      d.waterFeatures.map (fun w => (w.type, w.location)) =
        [("Pond", "Northern section"), ("Swale", "Along contour lines")] :=
  ⟨_, _, mockDesignData, generateDesign_some landData₁ s₁, generateDesign_some landData₂ s₂,
    rfl, rfl, by decide, by decide⟩

/-! ## The point cloud -/

theorem foldl_pushVertex {R : Type} [Field R] (setHSL : R → R → R → R × R × R)
    (pts : List (ElevationPoint R)) :
    ∀ st : List R × List R,
      pts.foldl (pushVertex setHSL) st =
        (st.1 ++ pts.flatMap positionTriple, st.2 ++ pts.flatMap (colorTriple setHSL)) := by
  induction pts with
  | nil => intro st; simp
  | cons p t ih =>
    intro st
    rw [List.foldl_cons, ih]
    simp [pushVertex, positionTriple, colorTriple, List.flatMap_cons]

theorem flatMap_triple_length {α β : Type} (f : α → List β) (hf : ∀ a, (f a).length = 3)
    (l : List α) : (l.flatMap f).length = 3 * l.length := by
  induction l with
  | nil => simp
  | cons a t ih =>
    rw [List.flatMap_cons, List.length_append, hf, ih, List.length_cons]
    ring

theorem flatMap_triple_get {α β : Type} (f : α → List β) (hf : ∀ a, (f a).length = 3) :
    ∀ (l : List α) (i : Nat) (hi : i < l.length),
      ((l.flatMap f).drop (3 * i)).take 3 = f l[i] := by
  intro l
  induction l with
  | nil => intro i hi; simp at hi
  | cons a t ih =>
    intro i hi
    rw [List.flatMap_cons]
    cases i with
    | zero =>
      simp only [Nat.mul_zero, List.drop_zero, List.getElem_cons_zero]
      rw [← hf a, List.take_left]
    | succ j =>
      have e : 3 * (j + 1) = (f a).length + 3 * j := by rw [hf]; ring
      rw [e, List.drop_append]
      simp only [List.getElem_cons_succ]
      exact ih j (by simpa using hi)

theorem foldl_addFeature_append {R : Type} [Field R] (pi : R) (fs : List (Feature R)) :
    ∀ scene : List (SceneObject R), ∃ added, fs.foldl (addFeature pi) scene = scene ++ added := by
  induction fs with
  | nil => intro scene; exact ⟨[], by simp⟩
  | cons f t ih =>
    intro scene
    rw [List.foldl_cons]
    obtain ⟨added, h⟩ := ih (addFeature pi scene f)
    rw [h]
    unfold addFeature
    simp only
    split_ifs
    · exact ⟨_, by rw [List.append_assoc, List.append_assoc]⟩
    · exact ⟨_, by rw [List.append_assoc]⟩
    · exact ⟨_, by rw [List.append_assoc]⟩
    · exact ⟨_, rfl⟩

theorem createTerrainFromLidarData_scene {R : Type} [Field R] (pi : R)
    (setHSL : R → R → R → R × R × R) (scene : List (SceneObject R)) (lidarData : LidarData R)
    (pts : List (ElevationPoint R)) (hp : lidarData.elevationPoints = some pts) :
    ∃ added,
      createTerrainFromLidarData pi setHSL scene (some lidarData) =
        scene ++ SceneObject.points (pts.flatMap positionTriple)
          (pts.flatMap (colorTriple setHSL)) (2 / 10) :: added := by
  have hfold := foldl_pushVertex setHSL pts (([] : List R), ([] : List R))
  simp only [List.nil_append] at hfold
  unfold createTerrainFromLidarData
  simp only [hp, hfold]
  cases lidarData.detectedFeatures with
  | none => exact ⟨[], rfl⟩
  | some fs =>
    obtain ⟨added, h⟩ := foldl_addFeature_append pi fs
      (scene ++ [SceneObject.points (pts.flatMap positionTriple)
        (pts.flatMap (colorTriple setHSL)) (2 / 10)])
    refine ⟨added, ?_⟩
    simp only [h]
    simp

/-- C20. For a terrain with `N` elevation points `createTerrainFromLidarData` adds to the scene
a point cloud whose position array has `3 N` numbers and whose colour array has `3 N` numbers;
the `i`-th triple of positions is the scaled `i`-th point and the `i`-th triple of colours is
the colour of the `i`-th point. -/
theorem createTerrainFromLidarData_point_cloud {R : Type} [Field R] (pi : R)
    (setHSL : R → R → R → R × R × R) (scene : List (SceneObject R)) (lidarData : LidarData R)
    (pts : List (ElevationPoint R)) (hp : lidarData.elevationPoints = some pts) :
    ∃ vertices colors added,
      createTerrainFromLidarData pi setHSL scene (some lidarData) =
        scene ++ SceneObject.points vertices colors (2 / 10) :: added ∧
      vertices.length = 3 * pts.length ∧ colors.length = 3 * pts.length ∧
      ∀ (i : Nat) (hi : i < pts.length),
        (vertices.drop (3 * i)).take 3 =
          [(pts[i].x - 1 / 2) * 20, pts[i].y * 5, (pts[i].z - 1 / 2) * 20] ∧
        (colors.drop (3 * i)).take 3 =
          [(setHSL (3 / 10 - pts[i].y * (1 / 2)) (7 / 10) (1 / 2)).1,
           (setHSL (3 / 10 - pts[i].y * (1 / 2)) (7 / 10) (1 / 2)).2.1,
           (setHSL (3 / 10 - pts[i].y * (1 / 2)) (7 / 10) (1 / 2)).2.2] := by
  obtain ⟨added, hadded⟩ := createTerrainFromLidarData_scene pi setHSL scene lidarData pts hp
  refine ⟨_, _, added, hadded, flatMap_triple_length positionTriple (fun _ => rfl) pts,
    flatMap_triple_length (colorTriple setHSL) (fun _ => rfl) pts, fun i hi => ⟨?_, ?_⟩⟩
  · exact flatMap_triple_get positionTriple (fun _ => rfl) pts i hi
  · exact flatMap_triple_get (colorTriple setHSL) (fun _ => rfl) pts i hi

theorem createTerrainFromLidarData_point_cloud_witness :
    ∃ vertices colors added,
      createTerrainFromLidarData (0 : ℚ) (fun h s l => (h, s, l)) []
          (some { elevationPoints := some [{ x := 0, y := 1 / 2, z := 0 }],
                  contourLines := [], detectedFeatures := none }) =
        [] ++ SceneObject.points vertices colors (2 / 10) :: added ∧
      vertices.length = 3 * 1 ∧ colors.length = 3 * 1 :=
  let ⟨v, c, a, h1, h2, h3, _⟩ :=
    createTerrainFromLidarData_point_cloud (0 : ℚ) (fun h s l => (h, s, l)) []
      { elevationPoints := some [{ x := 0, y := 1 / 2, z := 0 }],
        contourLines := [], detectedFeatures := none }
      [{ x := 0, y := 1 / 2, z := 0 }] rfl
  ⟨v, c, a, h1, h2, h3⟩

end DesignViewer

namespace ClimateUtils

/-! ## Zone ranges, subzones and derived climates -/

theorem specBaseZone_bounds (d0 d1 : Nat) :
    bandConstant d0 ≤ specBaseZone d0 d1 ∧ specBaseZone d0 d1 ≤ bandConstant d0 + 2 := by
  unfold specBaseZone
  have h0 : (0 : ℚ) ≤ min ((d1 : ℚ) / 3) 2 :=
    le_min (div_nonneg (Nat.cast_nonneg d1) (by norm_num)) (by norm_num)
  have h2 : min ((d1 : ℚ) / 3) 2 ≤ 2 := min_le_right _ _
  constructor <;> linarith

theorem round_bounds (c : ℤ) (x : ℚ) (h1 : (c : ℚ) ≤ x) (h2 : x ≤ (c : ℚ) + 2) :
    c ≤ round x ∧ round x ≤ c + 2 := by
  rw [round_eq]
  constructor
  · rw [Int.le_floor]
    linarith
  · have : ⌊x + 1 / 2⌋ < c + 3 := by
      rw [Int.floor_lt]
      push_cast
      linarith
    omega

theorem bandConstant_int (d0 : Nat) (h : d0 < 10) :
    ∃ c : ℤ, bandConstant d0 = (c : ℚ) ∧ (documentedRange d0).1 ≤ c ∧
      c + 2 ≤ (documentedRange d0).2 := by
  interval_cases d0
  · exact ⟨3, by norm_num [bandConstant], by decide, by decide⟩
  · exact ⟨4, by norm_num [bandConstant], by decide, by decide⟩
  · exact ⟨7, by norm_num [bandConstant], by decide, by decide⟩
  · exact ⟨8, by norm_num [bandConstant], by decide, by decide⟩
  · exact ⟨4, by norm_num [bandConstant], by decide, by decide⟩
  · exact ⟨5, by norm_num [bandConstant], by decide, by decide⟩
  · exact ⟨7, by norm_num [bandConstant], by decide, by decide⟩
  · exact ⟨8, by norm_num [bandConstant], by decide, by decide⟩
  · exact ⟨5, by norm_num [bandConstant], by decide, by decide⟩
  · exact ⟨6, by norm_num [bandConstant], by decide, by decide⟩

/-- C27. When the first two characters of the zipcode are decimal digits, the result of
`getHardinessZone` is a numeric zone followed by `a` or `b`, and the numeric zone lies in the
range that the comment of the source documents for the region of the first digit: 3 to 6 for
0-1, 7 to 10 for 2-3, 4 to 7 for 4-5, 7 to 10 for 6-7, 5 to 10 for 8-9. -/
theorem getHardinessZone_documented_range (zipcode : String) (a b : Char)
    (h0 : charAt zipcode 0 = some a) (h1 : charAt zipcode 1 = some b)
    (ha : a.isDigit = true) (hb : b.isDigit = true) :
    ∃ (zone : ℤ) (sub : String),
      getHardinessZone zipcode = toString zone ++ sub ∧ (sub = "a" ∨ sub = "b") ∧
      (documentedRange (digitValue a)).1 ≤ zone ∧ zone ≤ (documentedRange (digitValue a)).2 := by
  obtain ⟨c, hc, hlo, hhi⟩ := bandConstant_int (digitValue a) (digitValue_lt a ha)
  have hb2 := specBaseZone_bounds (digitValue a) (digitValue b)
  rw [hc] at hb2
  have hr := round_bounds c _ hb2.1 hb2.2
  refine ⟨round (specBaseZone (digitValue a) (digitValue b)),
    if Int.fract (specBaseZone (digitValue a) (digitValue b)) < 1 / 2 then "a" else "b",
    getHardinessZone_of_digit_chars zipcode a b h0 h1 ha hb, ?_, by omega, by omega⟩
  split_ifs
  · exact Or.inl rfl
  · exact Or.inr rfl

theorem getHardinessZone_documented_range_witness :
    charAt "98101" 0 = some '9' ∧ charAt "98101" 1 = some '8' ∧
    ∃ (zone : ℤ) (sub : String),
      getHardinessZone "98101" = toString zone ++ sub ∧ (sub = "a" ∨ sub = "b") ∧
      (documentedRange (digitValue '9')).1 ≤ zone ∧ zone ≤ (documentedRange (digitValue '9')).2 :=
  ⟨by decide, by decide,
    getHardinessZone_documented_range "98101" '9' '8' (by decide) (by decide) (by decide)
      (by decide)⟩

theorem round_of_fract_lt (x : ℚ) (h : Int.fract x < 1 / 2) :
    round x = ⌊x⌋ ∧ ((round x : ℤ) : ℚ) ≤ x ∧ x < ((round x : ℤ) : ℚ) + 1 / 2 := by
  have hf := Int.fract_nonneg x
  have hx : x = (⌊x⌋ : ℚ) + Int.fract x := (Int.floor_add_fract x).symm
  have hr : round x = ⌊x⌋ := by
    rw [round_eq, Int.floor_eq_iff]
    constructor <;> linarith
  rw [hr]
  refine ⟨rfl, ?_, ?_⟩ <;> linarith

theorem round_of_fract_ge (x : ℚ) (h : ¬ Int.fract x < 1 / 2) :
    round x = ⌊x⌋ + 1 ∧ ((round x : ℤ) : ℚ) - 1 / 2 ≤ x ∧ x < ((round x : ℤ) : ℚ) := by
  have hf := Int.fract_lt_one x
  have hx : x = (⌊x⌋ : ℚ) + Int.fract x := (Int.floor_add_fract x).symm
  have h' : (1 : ℚ) / 2 ≤ Int.fract x := not_lt.mp h
  have hr : round x = ⌊x⌋ + 1 := by
    rw [round_eq, Int.floor_eq_iff]
    push_cast
    constructor <;> linarith
  rw [hr]
  push_cast
  refine ⟨rfl, ?_, ?_⟩ <;> linarith

theorem baseZoneOf_digit_chars (zipcode : String) (a b : Char)
    (h0 : charAt zipcode 0 = some a) (h1 : charAt zipcode 1 = some b)
    (ha : a.isDigit = true) (hb : b.isDigit = true) :
    baseZoneOf (parseInt (charAt zipcode 0)) (parseInt (charAt zipcode 1)) =
      some (specBaseZone (digitValue a) (digitValue b)) := by
  rw [h0, h1, parseInt_digit a ha, parseInt_digit b hb,
    baseZoneOf_digits _ _ (digitValue_lt a ha)]

theorem round_eleven_thirds : round ((11 : ℚ) / 3) = 4 := by
  rw [round_eq, Int.floor_eq_iff]
  constructor <;> norm_num

theorem fract_eleven_thirds : Int.fract ((11 : ℚ) / 3) = 2 / 3 := by
  rw [Int.fract_eq_iff]
  refine ⟨by norm_num, by norm_num, 3, by norm_num⟩

theorem getHardinessZone_02 : getHardinessZone "02" = "4b" := by
  rw [getHardinessZone_of_digit_chars "02" '0' '2' (by decide) (by decide) (by decide)
    (by decide)]
  have h0 : digitValue '0' = 0 := by decide
  have h2 : digitValue '2' = 2 := by decide
  have hv : specBaseZone 0 2 = 11 / 3 := by
    unfold specBaseZone
    norm_num [bandConstant, min_def]
  rw [h0, h2, hv]
  unfold specZoneString
  rw [round_eleven_thirds, fract_eleven_thirds]
  norm_num
  decide

theorem getHardinessZone_03 : getHardinessZone "03" = "4a" := by
  rw [getHardinessZone_of_digit_chars "03" '0' '3' (by decide) (by decide) (by decide)
    (by decide)]
  have h0 : digitValue '0' = 0 := by decide
  have h3 : digitValue '3' = 3 := by decide
  have hv : specBaseZone 0 3 = ((4 : ℤ) : ℚ) := by
    unfold specBaseZone
    norm_num [bandConstant, min_def]
  rw [h0, h3, hv, specZoneString_intCast]
  decide

/-- C29. When the first two characters of the zipcode are decimal digits and `baseZone` is the
value computed by `getHardinessZone`, the result is either `N` followed by `a`, with
`N ≤ baseZone < N + 1/2` and `N` the floor of `baseZone`, or `N` followed by `b`, with
`N - 1/2 ≤ baseZone < N` and `N` the floor plus one; the prefix "02" gives "4b" and the prefix
"03" gives "4a". -/
theorem getHardinessZone_subzone_bounds :
    (∀ (zipcode : String) (a b : Char),
      charAt zipcode 0 = some a → charAt zipcode 1 = some b →
      a.isDigit = true → b.isDigit = true →
      ∃ (baseZone : ℚ) (zone : ℤ),
        baseZoneOf (parseInt (charAt zipcode 0)) (parseInt (charAt zipcode 1)) =
          some baseZone ∧
        ((getHardinessZone zipcode = toString zone ++ "a" ∧ zone = ⌊baseZone⌋ ∧
            (zone : ℚ) ≤ baseZone ∧ baseZone < (zone : ℚ) + 1 / 2) ∨
          (getHardinessZone zipcode = toString zone ++ "b" ∧ zone = ⌊baseZone⌋ + 1 ∧
            (zone : ℚ) - 1 / 2 ≤ baseZone ∧ baseZone < (zone : ℚ)))) ∧
    getHardinessZone "02" = "4b" ∧ getHardinessZone "03" = "4a" := by
  refine ⟨?_, getHardinessZone_02, getHardinessZone_03⟩
  intro zipcode a b h0 h1 ha hb
  refine ⟨specBaseZone (digitValue a) (digitValue b),
    round (specBaseZone (digitValue a) (digitValue b)),
    baseZoneOf_digit_chars zipcode a b h0 h1 ha hb, ?_⟩
  have hz := getHardinessZone_of_digit_chars zipcode a b h0 h1 ha hb
  unfold specZoneString at hz
  by_cases hf : Int.fract (specBaseZone (digitValue a) (digitValue b)) < 1 / 2
  · left
    rw [if_pos hf] at hz
    obtain ⟨e1, e2, e3⟩ := round_of_fract_lt _ hf
    exact ⟨hz, e1, e2, e3⟩
  · right
    rw [if_neg hf] at hz
    obtain ⟨e1, e2, e3⟩ := round_of_fract_ge _ hf
    exact ⟨hz, e1, e2, e3⟩

theorem getHardinessZone_subzone_bounds_witness :
    charAt "78701" 0 = some '7' ∧ charAt "78701" 1 = some '8' ∧
    ∃ (baseZone : ℚ) (zone : ℤ),
      baseZoneOf (parseInt (charAt "78701" 0)) (parseInt (charAt "78701" 1)) = some baseZone ∧
      ((getHardinessZone "78701" = toString zone ++ "a" ∧ zone = ⌊baseZone⌋ ∧
          (zone : ℚ) ≤ baseZone ∧ baseZone < (zone : ℚ) + 1 / 2) ∨
        (getHardinessZone "78701" = toString zone ++ "b" ∧ zone = ⌊baseZone⌋ + 1 ∧
          (zone : ℚ) - 1 / 2 ≤ baseZone ∧ baseZone < (zone : ℚ))) :=
  ⟨by decide, by decide,
    getHardinessZone_subzone_bounds.1 "78701" '7' '8' (by decide) (by decide) (by decide)
      (by decide)⟩

theorem climateMap_values :
    ∀ p ∈ climateMap, p.2 ∈ derivedClimates := by decide

theorem getClimateFromZipcode_mem (zipcode : String) :
    getClimateFromZipcode zipcode ∈ derivedClimates := by
  unfold getClimateFromZipcode
  cases charAt zipcode 0 with
  | none => decide
  | some c =>
    simp only
    cases hl : climateMap.lookup c with
    | none => decide
    | some v =>
      simp only [Option.getD_some]
      have hm : ∀ (l : List (Char × String)), l.lookup c = some v → (c, v) ∈ l := by
        intro l
        induction l with
        | nil => intro h; simp at h
        | cons p t ih =>
          intro h
          obtain ⟨k, w⟩ := p
          by_cases hk : c = k
          · subst hk
            simp [List.lookup] at h
            simp [h]
          · have hb : (c == k) = false := beq_false_of_ne hk
            simp [List.lookup, hb] at h
            exact List.mem_cons_of_mem _ (ih h)
      exact climateMap_values _ (hm _ hl)

/-- C30. For every location code `getClimateFromZipcode` returns one of Continental,
Subtropical, Arid, Temperate and Unknown, never Tropical; so the climate record that
`getRecommendedPlants` merges and the element table that `getFengShuiRecommendations` returns
for a climate derived from a location code are never the Tropical ones. -/
theorem getClimateFromZipcode_never_tropical (zipcode : String) :
    getClimateFromZipcode zipcode ∈
      ["Continental", "Subtropical", "Arid", "Temperate", "Unknown"] ∧
    getClimateFromZipcode zipcode ≠ "Tropical" ∧
    (jsGet PLANT_DATABASE.climateZones (getClimateFromZipcode zipcode)).orElse
        (jsGet PLANT_DATABASE.climateZones "Default") ≠
      jsGet PLANT_DATABASE.climateZones "Tropical" ∧
    getFengShuiRecommendations (getClimateFromZipcode zipcode) ≠
      getFengShuiRecommendations "Tropical" := by
  have hm := getClimateFromZipcode_mem zipcode
  have hall : ∀ c ∈ derivedClimates,
      c ≠ "Tropical" ∧
      (jsGet PLANT_DATABASE.climateZones c).orElse (jsGet PLANT_DATABASE.climateZones "Default") ≠
        jsGet PLANT_DATABASE.climateZones "Tropical" ∧
      getFengShuiRecommendations c ≠ getFengShuiRecommendations "Tropical" := by decide
  exact ⟨hm, hall _ hm⟩

end ClimateUtils

namespace LidarUtils

/-! ## The mock contour lines and features -/

/-- C26. The contour lines, the features and the terrain type returned by `processLidarData`
are the same for any two calls, whatever the hosts, depth buffers, widths and heights: three
contour bands at the elevations 0, 1, 2 with 5, 4 and 3 points, three features (a tree,
a structure and a water, each with its position and size) and the label "Slightly sloped". -/
theorem processLidarData_static_parts {R : Type} [Field R] (math₁ math₂ : JSMath R)
    (depthData₁ depthData₂ : Option (List UInt8)) (width₁ height₁ width₂ height₂ : Nat) :
    (processLidarData math₁ depthData₁ width₁ height₁).contourLines =
      (processLidarData math₂ depthData₂ width₂ height₂).contourLines ∧
    (processLidarData math₁ depthData₁ width₁ height₁).features =
      (processLidarData math₂ depthData₂ width₂ height₂).features ∧
    (processLidarData math₁ depthData₁ width₁ height₁).terrainType =
      (processLidarData math₂ depthData₂ width₂ height₂).terrainType ∧
    (processLidarData math₁ depthData₁ width₁ height₁).terrainType = "Slightly sloped" ∧
    (processLidarData math₁ depthData₁ width₁ height₁).contourLines.map
        (fun c => (c.elevation, c.points.length)) = [(0, 5), (1, 4), (2, 3)] ∧
    (processLidarData math₁ depthData₁ width₁ height₁).features.map
        (fun f => (f.type, f.position.x, f.position.y, f.position.z, f.size.width,
          f.size.height)) =
      [("tree", 2 / 10, 0, 3 / 10, 1 / 10, 3 / 10),
       ("structure", 7 / 10, 0, 6 / 10, 2 / 10, 15 / 100),
       ("water", 4 / 10, 0, 8 / 10, 3 / 10, 1 / 10)] :=
  ⟨rfl, rfl, rfl, rfl, rfl, rfl⟩

theorem inner_fold_keeps {R : Type} [Field R] (math : JSMath R) (width height x : Nat)
    (zs : List Nat) :
    ∀ (st : List (ElevationPoint R) × Nat), ∀ p ∈ st.1,
      p ∈ (zs.foldl (pushElevationPoint math width height x) st).1 := by
  induction zs with
  | nil => intro st p hp; simpa using hp
  | cons z t ih =>
    intro st p hp
    rw [List.foldl_cons]
    apply ih
    simp only [pushElevationPoint, List.mem_append]
    exact Or.inl hp

theorem outer_fold_keeps {R : Type} [Field R] (math : JSMath R) (width height : Nat)
    (xs zs : List Nat) :
    ∀ (st : List (ElevationPoint R) × Nat), ∀ p ∈ st.1,
      p ∈ (xs.foldl (fun st x => zs.foldl (pushElevationPoint math width height x) st) st).1 := by
  induction xs with
  | nil => intro st p hp; simpa using hp
  | cons x t ih =>
    intro st p hp
    rw [List.foldl_cons]
    exact ih _ p (inner_fold_keeps math width height x zs st p hp)

/-! ## Every grid point is produced -/

theorem loopValues_mem (limit : Nat) :
    ∀ (fuel x v : Nat), x ≤ v → v < limit → (v - x) % 10 = 0 → limit ≤ x + fuel →
      v ∈ loopValues 10 limit fuel x := by
  intro fuel
  induction fuel with
  | zero => intro x v h1 h2 _ h4; omega
  | succ n ih =>
    intro x v h1 h2 h3 h4
    unfold loopValues
    have hx : x < limit := by omega
    simp only [hx, if_true, List.mem_cons]
    by_cases hv : v = x
    · exact Or.inl hv
    · right
      apply ih (x + 10) v <;> omega

theorem inner_fold_has {R : Type} [Field R] (math : JSMath R) (width height x : Nat)
    (zs : List Nat) :
    ∀ (st : List (ElevationPoint R) × Nat), ∀ z ∈ zs,
      ∃ k, elevationPointAt math width height x z k ∈
        (zs.foldl (pushElevationPoint math width height x) st).1 := by
  induction zs with
  | nil => intro st z hz; simp at hz
  | cons z' t ih =>
    intro st z hz
    rw [List.foldl_cons]
    rcases List.mem_cons.mp hz with rfl | hz
    · refine ⟨st.2, inner_fold_keeps math width height x t _ _ ?_⟩
      simp [pushElevationPoint, elevationPointAt]
    · exact ih _ z hz

theorem outer_fold_has {R : Type} [Field R] (math : JSMath R) (width height : Nat)
    (xs zs : List Nat) :
    ∀ (st : List (ElevationPoint R) × Nat), ∀ x ∈ xs, ∀ z ∈ zs,
      ∃ k, elevationPointAt math width height x z k ∈
        (xs.foldl (fun st x => zs.foldl (pushElevationPoint math width height x) st) st).1 := by
  induction xs with
  | nil => intro st x hx; simp at hx
  | cons x' t ih =>
    intro st x hx z hz
    rw [List.foldl_cons]
    rcases List.mem_cons.mp hx with rfl | hx
    · obtain ⟨k, hk⟩ := inner_fold_has math width height x zs st z hz
      exact ⟨k, outer_fold_keeps math width height t zs _ _ hk⟩
    · exact ih _ x hx z hz

/-- The grid is complete: every abscissa below the width and every ordinate below the height
that are multiples of 10 give a point of the result, with one of the random values. -/
theorem grid_point_mem {R : Type} [Field R] (math : JSMath R) (width height gx gz : Nat)
    (hx : gx < width) (hz : gz < height) (hx10 : gx % 10 = 0) (hz10 : gz % 10 = 0) :
    ∃ k, elevationPointAt math width height gx gz k ∈
      generateMockElevationPoints math width height := by
  unfold generateMockElevationPoints
  exact outer_fold_has math width height _ _ _ gx
    (loopValues_mem width width 0 gx (Nat.zero_le _) hx (by simpa using hx10) (by omega)) gz
    (loopValues_mem height height 0 gz (Nat.zero_le _) hz (by simpa using hz10) (by omega))

end LidarUtils

namespace DesignViewer

open ClimateUtils LidarUtils

/-! ## Hue, primitives and world coordinates -/

/-- With the recording colour conversion, the colour array of the point cloud holds, for the
`i`-th elevation point, the hue `3/10 - y/2`, the saturation `7/10` and the lightness `1/2`
handed to `setHSL`. -/
theorem createTerrainFromLidarData_hues {R : Type} [Field R] (pi : R)
    (scene : List (SceneObject R)) (lidarData : LidarData R) (pts : List (ElevationPoint R))
    (hp : lidarData.elevationPoints = some pts) :
    ∃ vertices colors added,
      createTerrainFromLidarData pi recordHSL scene (some lidarData) =
        scene ++ SceneObject.points vertices colors (2 / 10) :: added ∧
      ∀ (i : Nat) (hi : i < pts.length),
        (colors.drop (3 * i)).take 3 = [3 / 10 - pts[i].y * (1 / 2), 7 / 10, 1 / 2] := by
  obtain ⟨added, hadded⟩ := createTerrainFromLidarData_scene pi recordHSL scene lidarData pts hp
  exact ⟨_, _, added, hadded, fun i hi =>
    flatMap_triple_get (colorTriple recordHSL) (fun _ => rfl) pts i hi⟩

/-! ### Rounding to doubles -/

theorem log_two_eq (q : ℚ) (e : ℤ) (h1 : (2 : ℚ) ^ e ≤ q) (h2 : q < (2 : ℚ) ^ (e + 1)) :
    Int.log 2 q = e := by
  have hq : 0 < q := lt_of_lt_of_le (by positivity) h1
  have hb : 1 < 2 := by norm_num
  apply le_antisymm
  · have := (Int.lt_zpow_iff_log_lt hb hq).mp (by exact_mod_cast h2)
    omega
  · exact (Int.zpow_le_iff_le_log hb hq).mp (by exact_mod_cast h1)

theorem roundHalfEven_near (m : ℚ) (n : ℤ) (h : |m - (n : ℚ)| < 1 / 2) :
    roundHalfEven m = n := by
  rw [abs_lt] at h
  obtain ⟨h1, h2⟩ := h
  unfold roundHalfEven
  simp only
  by_cases hm : (n : ℚ) ≤ m
  · have hf : ⌊m⌋ = n := by
      rw [Int.floor_eq_iff]
      constructor <;> linarith
    rw [hf]
    have : m - (n : ℚ) < 1 / 2 := by linarith
    rw [if_pos this]
  · have hf : ⌊m⌋ = n - 1 := by
      rw [Int.floor_eq_iff]
      push_cast
      constructor <;> linarith
    rw [hf]
    push_cast
    have h3 : ¬ (m - ((n : ℚ) - 1) < 1 / 2) := by linarith
    have h4 : 1 / 2 < m - ((n : ℚ) - 1) := by linarith
    rw [if_neg h3, if_pos h4]
    ring

theorem roundHalfEven_intCast (n : ℤ) : roundHalfEven (n : ℚ) = n :=
  roundHalfEven_near n n (by simp)

theorem roundHalfEven_le (m : ℚ) : (roundHalfEven m : ℚ) ≤ m + 1 / 2 := by
  unfold roundHalfEven
  simp only
  have h1 := Int.floor_le m
  have h2 := Int.lt_floor_add_one m
  split_ifs with a b c
  · linarith
  · push_cast; linarith
  · linarith
  · push_cast
    have : m - (⌊m⌋ : ℚ) = 1 / 2 := le_antisymm (not_lt.mp b) (not_lt.mp a)
    linarith

theorem roundHalfEven_ge (m : ℚ) : m - 1 / 2 ≤ (roundHalfEven m : ℚ) := by
  unfold roundHalfEven
  simp only
  have h1 := Int.floor_le m
  have h2 := Int.lt_floor_add_one m
  split_ifs with a b c
  · linarith
  · push_cast; linarith
  · have : m - (⌊m⌋ : ℚ) = 1 / 2 := le_antisymm (not_lt.mp b) (not_lt.mp a)
    linarith
  · push_cast
    linarith

theorem roundHalfEven_mono (m₁ m₂ : ℚ) (h : m₁ ≤ m₂) : roundHalfEven m₁ ≤ roundHalfEven m₂ := by
  by_contra hlt
  push_neg at hlt
  have h1 := roundHalfEven_le m₁
  have h2 := roundHalfEven_ge m₂
  have h3 : (roundHalfEven m₂ : ℚ) + 1 ≤ roundHalfEven m₁ := by exact_mod_cast hlt
  have : m₁ = m₂ := by linarith
  subst this
  exact lt_irrefl _ hlt

theorem roundDouble_of_log (q : ℚ) (e : ℤ) (hq : q ≠ 0) (he : Int.log 2 |q| = e) :
    roundDouble q = (roundHalfEven (q / (2 : ℚ) ^ (e - 52)) : ℚ) * (2 : ℚ) ^ (e - 52) := by
  unfold roundDouble
  rw [if_neg hq]
  simp only
  rw [he]

theorem binade (q : ℚ) (hq : 0 < q) :
    (2 : ℚ) ^ Int.log 2 q ≤ q ∧ q < (2 : ℚ) ^ (Int.log 2 q + 1) := by
  have h1 := Int.zpow_log_le_self (by norm_num : 1 < 2) hq
  have h2 := Int.lt_zpow_succ_log_self (by norm_num : 1 < 2) q
  exact ⟨by exact_mod_cast h1, by exact_mod_cast h2⟩

theorem ulp_scale (e : ℤ) :
    (2 : ℚ) ^ e = (4503599627370496 : ℚ) * (2 : ℚ) ^ (e - 52) ∧
    (2 : ℚ) ^ (e + 1) = (9007199254740992 : ℚ) * (2 : ℚ) ^ (e - 52) := by
  have h2 : (2 : ℚ) ≠ 0 := by norm_num
  constructor
  · rw [zpow_sub₀ h2]
    norm_num
    ring
  · rw [zpow_sub₀ h2, zpow_add₀ h2]
    norm_num
    ring

/-- A positive rational rounds into the closed binade it lies in. -/
theorem roundDouble_pos_bounds (q : ℚ) (hq : 0 < q) :
    (2 : ℚ) ^ Int.log 2 q ≤ roundDouble q ∧ roundDouble q ≤ (2 : ℚ) ^ (Int.log 2 q + 1) := by
  obtain ⟨h1, h2⟩ := binade q hq
  obtain ⟨s1, s2⟩ := ulp_scale (Int.log 2 q)
  have hu : (0 : ℚ) < (2 : ℚ) ^ (Int.log 2 q - 52) := by positivity
  rw [roundDouble_of_log q _ hq.ne' (by rw [abs_of_pos hq])]
  rw [s1] at h1 ⊢
  rw [s2] at h2 ⊢
  have l1 : ((4503599627370496 : ℤ) : ℚ) ≤ q / (2 : ℚ) ^ (Int.log 2 q - 52) := by
    rw [le_div_iff₀ hu]
    exact_mod_cast h1
  have l2 : q / (2 : ℚ) ^ (Int.log 2 q - 52) ≤ ((9007199254740992 : ℤ) : ℚ) := by
    rw [div_le_iff₀ hu]
    exact_mod_cast h2.le
  have m1 := roundHalfEven_mono _ _ l1
  have m2 := roundHalfEven_mono _ _ l2
  rw [roundHalfEven_intCast] at m1 m2
  have c1 : (4503599627370496 : ℚ) ≤ (roundHalfEven (q / (2 : ℚ) ^ (Int.log 2 q - 52)) : ℚ) := by
    exact_mod_cast m1
  have c2 : (roundHalfEven (q / (2 : ℚ) ^ (Int.log 2 q - 52)) : ℚ) ≤ (9007199254740992 : ℚ) := by
    exact_mod_cast m2
  exact ⟨mul_le_mul_of_nonneg_right c1 hu.le, mul_le_mul_of_nonneg_right c2 hu.le⟩

/-- A negative rational rounds into the closed binade it lies in. -/
theorem roundDouble_neg_bounds (q : ℚ) (hq : q < 0) :
    -(2 : ℚ) ^ (Int.log 2 (-q) + 1) ≤ roundDouble q ∧
      roundDouble q ≤ -(2 : ℚ) ^ Int.log 2 (-q) := by
  obtain ⟨h1, h2⟩ := binade (-q) (by linarith)
  obtain ⟨s1, s2⟩ := ulp_scale (Int.log 2 (-q))
  have hu : (0 : ℚ) < (2 : ℚ) ^ (Int.log 2 (-q) - 52) := by positivity
  rw [roundDouble_of_log q _ hq.ne (by rw [abs_of_neg hq])]
  rw [s1] at h1 ⊢
  rw [s2] at h2 ⊢
  have l1 : q / (2 : ℚ) ^ (Int.log 2 (-q) - 52) ≤ ((-4503599627370496 : ℤ) : ℚ) := by
    rw [div_le_iff₀ hu]
    push_cast
    linarith
  have l2 : ((-9007199254740992 : ℤ) : ℚ) ≤ q / (2 : ℚ) ^ (Int.log 2 (-q) - 52) := by
    rw [le_div_iff₀ hu]
    push_cast
    linarith
  have m1 := roundHalfEven_mono _ _ l1
  have m2 := roundHalfEven_mono _ _ l2
  rw [roundHalfEven_intCast] at m1 m2
  have c1 : (roundHalfEven (q / (2 : ℚ) ^ (Int.log 2 (-q) - 52)) : ℚ) ≤
      -(4503599627370496 : ℚ) := by
    exact_mod_cast m1
  have c2 : -(9007199254740992 : ℚ) ≤
      (roundHalfEven (q / (2 : ℚ) ^ (Int.log 2 (-q) - 52)) : ℚ) := by
    exact_mod_cast m2
  constructor
  · have := mul_le_mul_of_nonneg_right c2 hu.le
    linarith
  · have := mul_le_mul_of_nonneg_right c1 hu.le
    linarith

theorem roundDouble_zero : roundDouble 0 = 0 := by
  simp [roundDouble]

theorem roundDouble_nonneg (q : ℚ) (hq : 0 ≤ q) : 0 ≤ roundDouble q := by
  rcases hq.eq_or_lt with h | h
  · rw [← h, roundDouble_zero]
  · exact le_trans (by positivity) (roundDouble_pos_bounds q h).1

theorem roundDouble_nonpos (q : ℚ) (hq : q ≤ 0) : roundDouble q ≤ 0 := by
  rcases hq.eq_or_lt with h | h
  · rw [h, roundDouble_zero]
  · have := (roundDouble_neg_bounds q h).2
    have hp : (0 : ℚ) < (2 : ℚ) ^ Int.log 2 (-q) := by positivity
    linarith

/-- Rounding to a double is monotone. -/
theorem roundDouble_mono (p q : ℚ) (h : p ≤ q) : roundDouble p ≤ roundDouble q := by
  rcases lt_trichotomy p 0 with hp | hp | hp
  · rcases lt_or_le q 0 with hq | hq
    · have hlog : Int.log 2 (-q) ≤ Int.log 2 (-p) :=
        Int.log_mono_right (by linarith) (by linarith)
      rcases hlog.eq_or_lt with he | he
      · rw [roundDouble_of_log p (Int.log 2 (-p)) hp.ne (by rw [abs_of_neg hp]),
          roundDouble_of_log q (Int.log 2 (-p)) hq.ne (by rw [abs_of_neg hq, he])]
        have hu : (0 : ℚ) < (2 : ℚ) ^ (Int.log 2 (-p) - 52) := by positivity
        have hm := roundHalfEven_mono _ _ (div_le_div_of_nonneg_right h hu.le)
        exact mul_le_mul_of_nonneg_right (by exact_mod_cast hm) hu.le
      · have b1 := (roundDouble_neg_bounds p hp).2
        have b2 := (roundDouble_neg_bounds q hq).1
        have hz : (2 : ℚ) ^ (Int.log 2 (-q) + 1) ≤ (2 : ℚ) ^ Int.log 2 (-p) :=
          zpow_le_zpow_right₀ (by norm_num) (by omega)
        linarith
    · exact le_trans (roundDouble_nonpos p hp.le) (roundDouble_nonneg q hq)
  · rw [hp, roundDouble_zero]
    exact roundDouble_nonneg q (by linarith)
  · have hq : 0 < q := lt_of_lt_of_le hp h
    have hlog : Int.log 2 p ≤ Int.log 2 q := Int.log_mono_right hp h
    rcases hlog.eq_or_lt with he | he
    · rw [roundDouble_of_log p (Int.log 2 q) hp.ne' (by rw [abs_of_pos hp, he]),
        roundDouble_of_log q (Int.log 2 q) hq.ne' (by rw [abs_of_pos hq])]
      have hu : (0 : ℚ) < (2 : ℚ) ^ (Int.log 2 q - 52) := by positivity
      have hm := roundHalfEven_mono _ _ (div_le_div_of_nonneg_right h hu.le)
      exact mul_le_mul_of_nonneg_right (by exact_mod_cast hm) hu.le
    · have b1 := (roundDouble_pos_bounds p hp).2
      have b2 := (roundDouble_pos_bounds q hq).1
      have hz : (2 : ℚ) ^ (Int.log 2 p + 1) ≤ (2 : ℚ) ^ Int.log 2 q :=
        zpow_le_zpow_right₀ (by norm_num) (by omega)
      linarith

/-- A positive rational in the binade of `2 ^ e` that is within half a unit in the last place of
the multiple `n 2 ^ (e - 52)` rounds to that multiple. -/
theorem roundDouble_near (q : ℚ) (e n : ℤ) (h1 : (2 : ℚ) ^ e ≤ q) (h2 : q < (2 : ℚ) ^ (e + 1))
    (hn : |q / (2 : ℚ) ^ (e - 52) - (n : ℚ)| < 1 / 2) :
    roundDouble q = (n : ℚ) * (2 : ℚ) ^ (e - 52) := by
  have hq : 0 < q := lt_of_lt_of_le (by positivity) h1
  rw [roundDouble_of_log q e hq.ne' (by rw [abs_of_pos hq, log_two_eq q e h1 h2]),
    roundHalfEven_near _ n hn]

/-- The literal `0.3` is the double `5404319552844595 / 2 ^ 54`. -/
theorem roundDouble_three_tenths :
    roundDouble (3 / 10) = 5404319552844595 / 18014398509481984 := by
  rw [roundDouble_near (3 / 10) (-2) 5404319552844595 (by norm_num) (by norm_num)
    (by rw [abs_lt]; constructor <;> norm_num)]
  norm_num

theorem roundDouble_half : roundDouble (1 / 2) = 1 / 2 := by
  rw [roundDouble_near (1 / 2) (-1) 4503599627370496 (by norm_num) (by norm_num)
    (by rw [abs_lt]; constructor <;> norm_num)]
  norm_num

theorem roundDouble_tiny : roundDouble ((2 : ℚ) ^ (-71 : ℤ)) = (2 : ℚ) ^ (-71 : ℤ) := by
  rw [roundDouble_near _ (-71) 4503599627370496 (by norm_num) (by norm_num)
    (by rw [abs_lt]; constructor <;> norm_num)]
  norm_num

theorem roundDouble_elevation : roundDouble ((2 : ℚ) ^ (-70 : ℤ)) = (2 : ℚ) ^ (-70 : ℤ) := by
  rw [roundDouble_near _ (-70) 4503599627370496 (by norm_num) (by norm_num)
    (by rw [abs_lt]; constructor <;> norm_num)]
  norm_num

theorem hueInDoubles_zero : hueInDoubles 0 = 5404319552844595 / 18014398509481984 := by
  unfold hueInDoubles
  rw [roundDouble_half, roundDouble_three_tenths, zero_mul, roundDouble_zero, sub_zero]
  rw [roundDouble_near _ (-2) 5404319552844595 (by norm_num) (by norm_num)
    (by rw [abs_lt]; constructor <;> norm_num)]
  norm_num

theorem hueInDoubles_tiny :
    hueInDoubles ((2 : ℚ) ^ (-70 : ℤ)) = 5404319552844595 / 18014398509481984 := by
  unfold hueInDoubles
  rw [roundDouble_half, roundDouble_three_tenths]
  have e : (2 : ℚ) ^ (-70 : ℤ) * (1 / 2) = (2 : ℚ) ^ (-71 : ℤ) := by norm_num
  rw [e, roundDouble_tiny]
  rw [roundDouble_near _ (-2) 5404319552844595 (by norm_num) (by norm_num)
    (by rw [abs_lt]; constructor <;> norm_num)]
  norm_num

/-- In doubles the hue does not increase with the elevation. -/
theorem hueInDoubles_antitone (y₁ y₂ : ℚ) (h : y₁ ≤ y₂) : hueInDoubles y₂ ≤ hueInDoubles y₁ := by
  unfold hueInDoubles
  apply roundDouble_mono
  have hm : roundDouble (y₁ * roundDouble (1 / 2)) ≤ roundDouble (y₂ * roundDouble (1 / 2)) := by
    apply roundDouble_mono
    rw [roundDouble_half]
    linarith
  linarith

/-! ### The hue and the elevation -/

/-- C21, as stated, fails in the arithmetic of the program.  The elevations `0` and `2 ^ (-70)`
are doubles with `0 < 2 ^ (-70)`.  For a terrain of two points with these elevations
`createTerrainFromLidarData` hands the hues `3/10 - 0 (1/2)` and `3/10 - 2 ^ (-70) (1/2)` to the
colour; computed in doubles both are the double `0.3`, so the hue of the lower point is not above
the hue of the higher one. -/
theorem hue_not_strict_in_doubles :
    (0 : ℚ) < (2 : ℚ) ^ (-70 : ℤ) ∧
    roundDouble 0 = 0 ∧ roundDouble ((2 : ℚ) ^ (-70 : ℤ)) = (2 : ℚ) ^ (-70 : ℤ) ∧
    createTerrainFromLidarData (0 : ℚ) recordHSL []
        (some { elevationPoints :=
                  some [{ x := 0, y := 0, z := 0 }, { x := 0, y := (2 : ℚ) ^ (-70 : ℤ), z := 0 }],
                contourLines := [], detectedFeatures := none }) =
      [SceneObject.points
        [((0 : ℚ) - 1 / 2) * 20, 0 * 5, ((0 : ℚ) - 1 / 2) * 20,
         ((0 : ℚ) - 1 / 2) * 20, (2 : ℚ) ^ (-70 : ℤ) * 5, ((0 : ℚ) - 1 / 2) * 20]
        [3 / 10 - (0 : ℚ) * (1 / 2), 7 / 10, 1 / 2,
         3 / 10 - (2 : ℚ) ^ (-70 : ℤ) * (1 / 2), 7 / 10, 1 / 2]
        (2 / 10)] ∧
    hueInDoubles 0 = 5404319552844595 / 18014398509481984 ∧
    hueInDoubles ((2 : ℚ) ^ (-70 : ℤ)) = 5404319552844595 / 18014398509481984 ∧
    ¬ (hueInDoubles ((2 : ℚ) ^ (-70 : ℤ)) < hueInDoubles 0) := by
  refine ⟨by norm_num, roundDouble_zero, roundDouble_elevation, rfl, hueInDoubles_zero,
    hueInDoubles_tiny, ?_⟩
  rw [hueInDoubles_zero, hueInDoubles_tiny]
  exact lt_irrefl _

/-- C21, amended. In exact arithmetic the hue that `createTerrainFromLidarData` hands to the
colour of a point is strictly decreasing in the elevation: when the `i`-th point is lower than
the `j`-th, the colour array holds for them the hues `3/10 - y_i / 2` and `3/10 - y_j / 2`, the
first above the second, each with the saturation `7/10` and the lightness `1/2`.  Computed in
doubles, the hue is decreasing in the weak sense only: a point that is not higher gets a hue
that is not lower. -/
theorem hue_strictly_decreasing {R : Type} [LinearOrderedField R] (pi : R)
    (scene : List (SceneObject R)) (lidarData : LidarData R) (pts : List (ElevationPoint R))
    (hp : lidarData.elevationPoints = some pts) :
    (∃ vertices colors added,
      createTerrainFromLidarData pi recordHSL scene (some lidarData) =
        scene ++ SceneObject.points vertices colors (2 / 10) :: added ∧
      ∀ (i j : Nat) (hi : i < pts.length) (hj : j < pts.length), pts[i].y < pts[j].y →
        ∃ hueI hueJ : R,
          (colors.drop (3 * i)).take 3 = [hueI, 7 / 10, 1 / 2] ∧
          (colors.drop (3 * j)).take 3 = [hueJ, 7 / 10, 1 / 2] ∧
          hueI = 3 / 10 - pts[i].y * (1 / 2) ∧ hueJ = 3 / 10 - pts[j].y * (1 / 2) ∧
          hueJ < hueI) ∧
    (∀ y₁ y₂ : ℚ, y₁ ≤ y₂ → hueInDoubles y₂ ≤ hueInDoubles y₁) := by
  refine ⟨?_, hueInDoubles_antitone⟩
  obtain ⟨vertices, colors, added, h1, h2⟩ :=
    createTerrainFromLidarData_hues pi scene lidarData pts hp
  refine ⟨vertices, colors, added, h1, fun i j hi hj hlt => ?_⟩
  exact ⟨_, _, h2 i hi, h2 j hj, rfl, rfl, by linarith⟩

theorem hue_strictly_decreasing_witness :
    (∃ (vertices colors : List ℚ) (added : List (SceneObject ℚ)),
      createTerrainFromLidarData (0 : ℚ) recordHSL []
          (some { elevationPoints := some [{ x := 0, y := 0, z := 0 }, { x := 1, y := 1, z := 1 }],
                  contourLines := [], detectedFeatures := none }) =
        [] ++ SceneObject.points vertices colors (2 / 10) :: added ∧
      ∃ hueI hueJ : ℚ,
        (colors.drop (3 * 0)).take 3 = [hueI, 7 / 10, 1 / 2] ∧
        (colors.drop (3 * 1)).take 3 = [hueJ, 7 / 10, 1 / 2] ∧
        hueI = 3 / 10 - 0 * (1 / 2) ∧ hueJ = 3 / 10 - 1 * (1 / 2) ∧ hueJ < hueI) ∧
    hueInDoubles 1 ≤ hueInDoubles 0 :=
  let ⟨⟨v, c, a, h1, h2⟩, h3⟩ :=
    hue_strictly_decreasing (0 : ℚ) []
      { elevationPoints := some [{ x := 0, y := 0, z := 0 }, { x := 1, y := 1, z := 1 }],
        contourLines := [], detectedFeatures := none }
      [{ x := 0, y := 0, z := 0 }, { x := 1, y := 1, z := 1 }] rfl
  ⟨⟨v, c, a, h1, h2 0 1 (by decide) (by decide) (by norm_num)⟩, h3 0 1 (by norm_num)⟩

theorem addFeature_append {R : Type} [Field R] (pi : R) (scene : List (SceneObject R))
    (feature : Feature R) : addFeature pi scene feature = scene ++ addFeature pi [] feature := by
  unfold addFeature
  simp only
  split_ifs <;> simp

theorem foldl_addFeature {R : Type} [Field R] (pi : R) (fs : List (Feature R)) :
    ∀ scene : List (SceneObject R),
      fs.foldl (addFeature pi) scene = scene ++ fs.flatMap (addFeature pi []) := by
  induction fs with
  | nil => intro scene; simp
  | cons f t ih =>
    intro scene
    rw [List.foldl_cons, ih, addFeature_append, List.flatMap_cons, List.append_assoc]

theorem addFeature_tree {R : Type} [Field R] (pi : R) (feature : Feature R)
    (h : feature.type = "tree") :
    addFeature pi [] feature =
      [.mesh (.cylinder (2 / 10) (2 / 10) 1 8)
          { color := 0x8B4513, transparent := false, opacity := 1 }
          ((scaledPosition feature).1, (scaledPosition feature).2.1 + 1 / 2,
            (scaledPosition feature).2.2) 0,
       .mesh (.cone 1 2 8) { color := 0x228B22, transparent := false, opacity := 1 }
          ((scaledPosition feature).1, (scaledPosition feature).2.1 + 2,
            (scaledPosition feature).2.2) 0] := by
  simp [addFeature, h, scaledPosition]

theorem addFeature_structure {R : Type} [Field R] (pi : R) (feature : Feature R)
    (h : feature.type = "structure") :
    addFeature pi [] feature =
      [.mesh (.box (feature.size.width * 10) 1 (feature.size.height * 10))
          { color := 0xA9A9A9, transparent := false, opacity := 1 }
          ((scaledPosition feature).1, (scaledPosition feature).2.1 + 1 / 2,
            (scaledPosition feature).2.2) 0] := by
  simp [addFeature, h, scaledPosition]

theorem addFeature_water {R : Type} [Field R] (pi : R) (feature : Feature R)
    (h : feature.type = "water") :
    addFeature pi [] feature =
      [.mesh (.plane (feature.size.width * 10) (feature.size.height * 10))
          { color := 0x4682B4, transparent := true, opacity := 7 / 10 }
          ((scaledPosition feature).1, (scaledPosition feature).2.1 + 5 / 100,
            (scaledPosition feature).2.2) (-pi / 2)] := by
  simp [addFeature, h, scaledPosition]

theorem addFeature_other {R : Type} [Field R] (pi : R) (feature : Feature R)
    (h1 : feature.type ≠ "tree") (h2 : feature.type ≠ "structure")
    (h3 : feature.type ≠ "water") : addFeature pi [] feature = [] := by
  simp [addFeature, h1, h2, h3]

theorem addFeature_kinds {R : Type} [Field R] (pi : R) (feature : Feature R) :
    (addFeature pi [] feature).map SceneObject.kind =
      if feature.type = "tree" then ["cylinder", "cone"]
      else if feature.type = "structure" then ["box"]
      else if feature.type = "water" then ["translucent plane"]
      else [] := by
  by_cases h1 : feature.type = "tree"
  · rw [addFeature_tree pi feature h1]
    simp [h1, SceneObject.kind]
  · by_cases h2 : feature.type = "structure"
    · rw [addFeature_structure pi feature h2]
      simp [h2, SceneObject.kind]
    · by_cases h3 : feature.type = "water"
      · rw [addFeature_water pi feature h3]
        simp [h3, SceneObject.kind]
      · rw [addFeature_other pi feature h1 h2 h3]
        simp [h1, h2, h3]

theorem flatMap_addFeature_length {R : Type} [Field R] (pi : R) (fs : List (Feature R)) :
    (fs.flatMap (addFeature pi [])).length =
      2 * fs.countP (fun f => f.type = "tree") + fs.countP (fun f => f.type = "structure") +
        fs.countP (fun f => f.type = "water") := by
  induction fs with
  | nil => simp
  | cons f t ih =>
    rw [List.flatMap_cons, List.length_append, ih]
    have hk := congrArg List.length (addFeature_kinds pi f)
    rw [List.length_map] at hk
    rw [hk]
    simp only [List.countP_cons]
    by_cases h1 : f.type = "tree"
    · simp [h1]
      omega
    · by_cases h2 : f.type = "structure"
      · simp [h2]
        omega
      · by_cases h3 : f.type = "water"
        · simp [h3]
          omega
        · simp [h1, h2, h3]

/-- C22. For a terrain with elevation points and a list of detected features,
`createTerrainFromLidarData` adds, after the point cloud, the primitives of each feature in
order: a cylinder and a cone for a tree, a box for a structure, a translucent plane for a water,
nothing for any other type; the meshes added number twice the trees plus the structures plus
the waters. -/
theorem createTerrainFromLidarData_feature_meshes {R : Type} [Field R] (pi : R)
    (setHSL : R → R → R → R × R × R) (scene : List (SceneObject R)) (lidarData : LidarData R)
    (pts : List (ElevationPoint R)) (fs : List (Feature R))
    (hp : lidarData.elevationPoints = some pts) (hf : lidarData.detectedFeatures = some fs) :
    ∃ cloud meshes,
      createTerrainFromLidarData pi setHSL scene (some lidarData) = scene ++ cloud :: meshes ∧
      cloud.kind = "points" ∧
      meshes = fs.flatMap (addFeature pi []) ∧
      (∀ f : Feature R, (addFeature pi [] f).map SceneObject.kind =
        if f.type = "tree" then ["cylinder", "cone"]
        else if f.type = "structure" then ["box"]
        else if f.type = "water" then ["translucent plane"]
        else []) ∧
      meshes.length =
        2 * fs.countP (fun f => f.type = "tree") +
          fs.countP (fun f => f.type = "structure") + fs.countP (fun f => f.type = "water") := by
  refine ⟨SceneObject.points (pts.flatMap positionTriple) (pts.flatMap (colorTriple setHSL))
    (2 / 10), fs.flatMap (addFeature pi []), ?_, rfl, rfl, addFeature_kinds pi,
    flatMap_addFeature_length pi fs⟩
  have hfold := foldl_pushVertex setHSL pts (([] : List R), ([] : List R))
  simp only [List.nil_append] at hfold
  unfold createTerrainFromLidarData
  simp only [hp, hf, hfold, foldl_addFeature]
  simp

theorem createTerrainFromLidarData_feature_meshes_witness :
    ∃ cloud meshes,
      createTerrainFromLidarData (0 : ℚ) recordHSL []
          (some { elevationPoints := some [], contourLines := [],
                  detectedFeatures := some (detectFeatures none 640 480) }) =
        [] ++ cloud :: meshes ∧
      meshes.length =
        2 * (detectFeatures none 640 480 : List (Feature ℚ)).countP (fun f => f.type = "tree") +
          (detectFeatures none 640 480 : List (Feature ℚ)).countP
            (fun f => f.type = "structure") +
          (detectFeatures none 640 480 : List (Feature ℚ)).countP (fun f => f.type = "water") :=
  let ⟨c, m, h1, _, _, _, h5⟩ :=
    createTerrainFromLidarData_feature_meshes (0 : ℚ) recordHSL []
      { elevationPoints := some [], contourLines := [],
        detectedFeatures := some (detectFeatures none 640 480) }
      [] (detectFeatures none 640 480) rfl rfl
  ⟨c, m, h1, h5⟩

/-- The scene after `createTerrainFromLidarData` for a terrain with elevation points and
detected features: the point cloud, then the meshes of the features in order. -/
theorem createTerrainFromLidarData_full {R : Type} [Field R] (pi : R)
    (setHSL : R → R → R → R × R × R) (scene : List (SceneObject R)) (lidarData : LidarData R)
    (pts : List (ElevationPoint R)) (fs : List (Feature R))
    (hp : lidarData.elevationPoints = some pts) (hf : lidarData.detectedFeatures = some fs) :
    createTerrainFromLidarData pi setHSL scene (some lidarData) =
      scene ++ SceneObject.points (pts.flatMap positionTriple)
        (pts.flatMap (colorTriple setHSL)) (2 / 10) :: fs.flatMap (addFeature pi []) := by
  have hfold := foldl_pushVertex setHSL pts (([] : List R), ([] : List R))
  simp only [List.nil_append] at hfold
  unfold createTerrainFromLidarData
  simp only [hp, hf, hfold, foldl_addFeature]
  simp

/-- The positions of the meshes added for one feature: the position of the feature scaled as
the points are, each mesh raised by its own lift. -/
theorem addFeature_positions {R : Type} [Field R] (pi : R) (feature : Feature R) :
    (addFeature pi [] feature).map SceneObject.position? =
      if feature.type = "tree" then
        [some ((feature.position.x - 1 / 2) * 20, 5 * feature.position.y + 1 / 2,
           (feature.position.z - 1 / 2) * 20),
         some ((feature.position.x - 1 / 2) * 20, 5 * feature.position.y + 2,
           (feature.position.z - 1 / 2) * 20)]
      else if feature.type = "structure" then
        [some ((feature.position.x - 1 / 2) * 20, 5 * feature.position.y + 1 / 2,
           (feature.position.z - 1 / 2) * 20)]
      else if feature.type = "water" then
        [some ((feature.position.x - 1 / 2) * 20, 5 * feature.position.y + 5 / 100,
           (feature.position.z - 1 / 2) * 20)]
      else [] := by
  by_cases h1 : feature.type = "tree"
  · rw [addFeature_tree pi feature h1, if_pos h1]
    simp only [List.map_cons, List.map_nil, SceneObject.position?, scaledPosition]
    rw [mul_comm feature.position.y 5]
  · by_cases h2 : feature.type = "structure"
    · rw [addFeature_structure pi feature h2, if_neg h1, if_pos h2]
      simp only [List.map_cons, List.map_nil, SceneObject.position?, scaledPosition]
      rw [mul_comm feature.position.y 5]
    · by_cases h3 : feature.type = "water"
      · rw [addFeature_water pi feature h3, if_neg h1, if_neg h2, if_pos h3]
        simp only [List.map_cons, List.map_nil, SceneObject.position?, scaledPosition]
        rw [mul_comm feature.position.y 5]
      · rw [addFeature_other pi feature h1 h2 h3, if_neg h1, if_neg h2, if_neg h3]
        rfl

theorem flatMap_map_eq {α β γ : Type} (f : α → List β) (g : β → γ) (k : α → List γ)
    (h : ∀ a, (f a).map g = k a) (l : List α) : (l.flatMap f).map g = l.flatMap k := by
  induction l with
  | nil => rfl
  | cons a t ih => rw [List.flatMap_cons, List.flatMap_cons, List.map_append, h a, ih]

/-- C23. For a terrain with elevation points and detected features,
`createTerrainFromLidarData` adds a point cloud and then the meshes of the features.  The
`i`-th triple of the position array is the `i`-th elevation point at the world coordinates
`((x - 1/2) 20, 5 y, (z - 1/2) 20)`, and when the `x` and `z` of the point are in `[0, 1]` its
world `x` and `z` are in `[-10, 10]`.  The position of each feature is mapped by the same
formula, and the primitives of the feature stand at that position, each raised by its fixed
lift: `1/2` for the trunk and `2` for the foliage of a tree, `1/2` for the box of a structure,
`5/100` for the plane of a water. -/
theorem createTerrainFromLidarData_world_coordinates {R : Type} [LinearOrderedField R]
    (pi : R) (setHSL : R → R → R → R × R × R) (scene : List (SceneObject R))
    (lidarData : LidarData R) (pts : List (ElevationPoint R)) (fs : List (Feature R))
    (hp : lidarData.elevationPoints = some pts) (hf : lidarData.detectedFeatures = some fs) :
    ∃ vertices colors meshes,
      createTerrainFromLidarData pi setHSL scene (some lidarData) =
        scene ++ SceneObject.points vertices colors (2 / 10) :: meshes ∧
      (∀ (i : Nat) (hi : i < pts.length),
        (vertices.drop (3 * i)).take 3 =
          [(pts[i].x - 1 / 2) * 20, 5 * pts[i].y, (pts[i].z - 1 / 2) * 20] ∧
        (0 ≤ pts[i].x ∧ pts[i].x ≤ 1 →
          -10 ≤ (pts[i].x - 1 / 2) * 20 ∧ (pts[i].x - 1 / 2) * 20 ≤ 10) ∧
        (0 ≤ pts[i].z ∧ pts[i].z ≤ 1 →
          -10 ≤ (pts[i].z - 1 / 2) * 20 ∧ (pts[i].z - 1 / 2) * 20 ≤ 10)) ∧
      meshes.map SceneObject.position? =
        fs.flatMap (fun feature =>
          if feature.type = "tree" then
            [some ((feature.position.x - 1 / 2) * 20, 5 * feature.position.y + 1 / 2,
               (feature.position.z - 1 / 2) * 20),
             some ((feature.position.x - 1 / 2) * 20, 5 * feature.position.y + 2,
               (feature.position.z - 1 / 2) * 20)]
          else if feature.type = "structure" then
            [some ((feature.position.x - 1 / 2) * 20, 5 * feature.position.y + 1 / 2,
               (feature.position.z - 1 / 2) * 20)]
          else if feature.type = "water" then
            [some ((feature.position.x - 1 / 2) * 20, 5 * feature.position.y + 5 / 100,
               (feature.position.z - 1 / 2) * 20)]
          else []) := by
  refine ⟨pts.flatMap positionTriple, pts.flatMap (colorTriple setHSL),
    fs.flatMap (addFeature pi []),
    createTerrainFromLidarData_full pi setHSL scene lidarData pts fs hp hf, ?_, ?_⟩
  · intro i hi
    refine ⟨?_, ?_, ?_⟩
    · rw [flatMap_triple_get positionTriple (fun _ => rfl) pts i hi]
      simp only [positionTriple]
      rw [mul_comm pts[i].y 5]
    · intro hx
      constructor <;> linarith [hx.1, hx.2]
    · intro hz
      constructor <;> linarith [hz.1, hz.2]
  · exact flatMap_map_eq _ _ _ (addFeature_positions pi) fs

theorem createTerrainFromLidarData_world_coordinates_witness :
    ∃ (vertices colors : List ℚ) (meshes : List (SceneObject ℚ)),
      createTerrainFromLidarData (0 : ℚ) recordHSL []
          (some { elevationPoints := some [{ x := 1, y := 2, z := 0 }],
                  contourLines := [],
                  detectedFeatures := some (detectFeatures none 640 480) }) =
        [] ++ SceneObject.points vertices colors (2 / 10) :: meshes ∧
      (vertices.drop (3 * 0)).take 3 = [((1 : ℚ) - 1 / 2) * 20, 5 * 2, ((0 : ℚ) - 1 / 2) * 20] ∧
      (-10 ≤ ((1 : ℚ) - 1 / 2) * 20 ∧ ((1 : ℚ) - 1 / 2) * 20 ≤ 10) ∧
      (-10 ≤ ((0 : ℚ) - 1 / 2) * 20 ∧ ((0 : ℚ) - 1 / 2) * 20 ≤ 10) ∧
      meshes.map SceneObject.position? =
        [some (-6, 1 / 2, -4), some (-6, 2, -4), some (4, 1 / 2, 2), some (-2, 1 / 20, 6)] :=
  let ⟨v, c, m, h1, h2, h3⟩ :=
    createTerrainFromLidarData_world_coordinates (0 : ℚ) recordHSL []
      { elevationPoints := some [{ x := 1, y := 2, z := 0 }], contourLines := [],
        detectedFeatures := some (detectFeatures none 640 480) }
      [{ x := 1, y := 2, z := 0 }] (detectFeatures none 640 480) rfl rfl
  ⟨v, c, m, h1, (h2 0 (by decide)).1, (h2 0 (by decide)).2.1 (by norm_num),
    (h2 0 (by decide)).2.2 (by norm_num),
    h3.trans (by
      have e1 : ¬ "structure" = "tree" := by decide
      have e2 : ¬ "water" = "tree" := by decide
      have e3 : ¬ "water" = "structure" := by decide
      norm_num [detectFeatures, e1, e2, e3])⟩

/-! ## The hue of the mock elevations -/

/-- With the real sine and cosine, a scan of width 640 and height 480 has the grid point of
abscissa 0 and ordinate 160: its normalised coordinates are `0` and `1/3` and its elevation is
`2 sin 0 + 2 cos (π/3) = 1` plus the noise, half of one of the random values. -/
theorem scan_point_mem (random : Nat → ℝ) (depthData : Option (List UInt8)) :
    ∃ k, ({ x := 0, y := 1 + random k * (1 / 2), z := 1 / 3 } : ElevationPoint ℝ) ∈
      (processLidarData { sin := Real.sin, cos := Real.cos, PI := Real.pi, random := random }
        depthData 640 480).elevationPoints := by
  obtain ⟨k, hk⟩ := grid_point_mem
    ({ sin := Real.sin, cos := Real.cos, PI := Real.pi, random := random } : JSMath ℝ)
    640 480 0 160 (by decide) (by decide) (by decide) (by decide)
  refine ⟨k, ?_⟩
  have e : elevationPointAt
      ({ sin := Real.sin, cos := Real.cos, PI := Real.pi, random := random } : JSMath ℝ)
      640 480 0 160 k = { x := 0, y := 1 + random k * (1 / 2), z := 1 / 3 } := by
    simp only [elevationPointAt]
    have h1 : ((160 : ℕ) : ℝ) / ((480 : ℕ) : ℝ) * Real.pi = Real.pi / 3 := by
      push_cast
      ring
    rw [h1, Real.cos_pi_div_three]
    norm_num
  rw [← e]
  exact hk

/-- Whatever the random source with values in `[0, 1)`, a scan of width 640 and height 480 has a
point whose hue `3/10 - y/2` is between `-9/20` and `-1/5`, and which the rendering library
reduces modulo 1 to a hue between `11/20` and `4/5`: off the ramp `[0, 3/10]` before and after
the reduction. -/
theorem every_noise_hue_off_ramp (random : Nat → ℝ)
    (hr : ∀ k, 0 ≤ random k ∧ random k < 1) (depthData : Option (List UInt8)) :
    ∃ p ∈ (processLidarData
        { sin := Real.sin, cos := Real.cos, PI := Real.pi, random := random }
        depthData 640 480).elevationPoints,
      (-9 / 20 < (recordHSL (3 / 10 - p.y * (1 / 2)) (7 / 10 : ℝ) (1 / 2)).1 ∧
        (recordHSL (3 / 10 - p.y * (1 / 2)) (7 / 10 : ℝ) (1 / 2)).1 ≤ -1 / 5) ∧
      (11 / 20 < (wrappedHSL (3 / 10 - p.y * (1 / 2)) (7 / 10 : ℝ) (1 / 2)).1 ∧
        (wrappedHSL (3 / 10 - p.y * (1 / 2)) (7 / 10 : ℝ) (1 / 2)).1 ≤ 4 / 5) := by
  obtain ⟨k, hk⟩ := scan_point_mem random depthData
  obtain ⟨h0, h1⟩ := hr k
  refine ⟨_, hk, ?_, ?_⟩
  · simp only [recordHSL]
    constructor <;> linarith
  · have hf : Int.fract (3 / 10 - (1 + random k * (1 / 2)) * (1 / 2)) =
        4 / 5 - random k * (1 / 4) := by
      rw [Int.fract_eq_iff]
      refine ⟨by linarith, by linarith, -1, ?_⟩
      push_cast
      ring
    simp only [wrappedHSL]
    rw [hf]
    constructor <;> linarith

/-- C28, failing input. The scan the form makes is `processLidarData` with a buffer of 10 bytes,
the width 640 and the height 480; the land summary carries its points and features to
`createTerrainFromLidarData`.  With the random source constantly 0 the scan has a point with the
normalised coordinates `0` and `1/3` and the elevation `1`: it stands at the world coordinates
`(-10, 5, -10/3)`, the hue handed to its colour is `-1/5`, and the rendering library reduces it
modulo 1 to `4/5`.  Neither is in `[0, 3/10]`. -/
theorem scan_hue_off_ramp :
    ∃ (terrain : TerrainData ℝ) (lidarData : LidarData ℝ) (i : Nat)
      (vertices raw colors : List ℝ) (meshes : List (SceneObject ℝ)),
      terrain = processLidarData
        { sin := Real.sin, cos := Real.cos, PI := Real.pi, random := fun _ => 0 }
        (some (List.replicate 10 0)) 640 480 ∧
      lidarData = { elevationPoints := some terrain.elevationPoints,
                    contourLines := terrain.contourLines,
                    detectedFeatures := some terrain.features } ∧
      (ScanLand.buildLandData "image"
        { (ScanLand.initialScanState : ScanLand.ScanState ℝ) with
          lidarData := some terrain }).lidarData = some lidarData ∧
      (∃ hi : i < terrain.elevationPoints.length,
        terrain.elevationPoints[i] = { x := 0, y := 1, z := 1 / 3 }) ∧
      createTerrainFromLidarData Real.pi recordHSL [] (some lidarData) =
        [] ++ SceneObject.points vertices raw (2 / 10) :: meshes ∧
      createTerrainFromLidarData Real.pi wrappedHSL [] (some lidarData) =
        [] ++ SceneObject.points vertices colors (2 / 10) :: meshes ∧
      (vertices.drop (3 * i)).take 3 = [-10, 5, -10 / 3] ∧
      (raw.drop (3 * i)).take 3 = [-1 / 5, 7 / 10, 1 / 2] ∧
      (colors.drop (3 * i)).take 3 = [4 / 5, 7 / 10, 1 / 2] ∧
      ¬ ((0 : ℝ) ≤ -1 / 5 ∧ (-1 / 5 : ℝ) ≤ 3 / 10) ∧
      ¬ ((0 : ℝ) ≤ 4 / 5 ∧ (4 / 5 : ℝ) ≤ 3 / 10) := by
  obtain ⟨k, hk⟩ := scan_point_mem (fun _ => 0) (some (List.replicate 10 0))
  obtain ⟨i, hi, hget⟩ := List.getElem_of_mem hk
  have hpoint : (processLidarData
      ({ sin := Real.sin, cos := Real.cos, PI := Real.pi, random := fun _ => 0 } : JSMath ℝ)
      (some (List.replicate 10 0)) 640 480).elevationPoints[i] =
        { x := 0, y := 1, z := 1 / 3 } := by
    rw [hget]
    norm_num
  have hfract : Int.fract (-1 / 5 : ℝ) = 4 / 5 := by
    rw [Int.fract_eq_iff]
    refine ⟨by norm_num, by norm_num, -1, ?_⟩
    norm_num
  refine ⟨_, _, i, _, _, _, _, rfl, rfl, rfl, ⟨hi, hpoint⟩,
    createTerrainFromLidarData_full Real.pi recordHSL [] _ _ _ rfl rfl,
    createTerrainFromLidarData_full Real.pi wrappedHSL [] _ _ _ rfl rfl, ?_, ?_, ?_,
    by norm_num, by norm_num⟩
  · rw [flatMap_triple_get positionTriple (fun _ => rfl) _ i hi, hpoint]
    simp only [positionTriple]
    norm_num
  · rw [flatMap_triple_get (colorTriple recordHSL) (fun _ => rfl) _ i hi, hpoint]
    simp only [colorTriple, recordHSL]
    norm_num
  · rw [flatMap_triple_get (colorTriple wrappedHSL) (fun _ => rfl) _ i hi, hpoint]
    simp only [colorTriple, wrappedHSL]
    have e : (3 / 10 - 1 * (1 / 2) : ℝ) = -1 / 5 := by norm_num
    rw [e, hfract]

end DesignViewer

namespace ScanLand

open ClimateUtils LidarUtils DesignViewer

/-! ## The land summary without resolved recommendations -/

/-- The analysis ends after 20 ticks, whatever the state it starts in. -/
theorem runAnalysis_done {R : Type} (image : String) (s : ScanState R) :
    runAnalysis image 20 0 s =
      { s with analysisProgress := 100,
               landData := some (buildLandData image { s with analysisProgress := 100 }),
               isAnalyzing := false, route := "/design" } := rfl

/-- Ticks allowed beyond the 20th are not used. -/
theorem runAnalysis_fuel {R : Type} (image : String) (extra : Nat) (s : ScanState R) :
    runAnalysis image (20 + extra) 0 s = runAnalysis image 20 0 s := by
  have e : 20 + extra = extra + 20 := by omega
  rw [e]
  rfl

theorem analyzeLand_landData {R : Type} (s : ScanState R) (image : String)
    (hi : s.capturedImage = some image) (hne : image ≠ "") :
    (analyzeLand s).landData =
      some (buildLandData image { s with isAnalyzing := true, analysisProgress := 100 }) := by
  unfold analyzeLand
  rw [hi]
  simp only [hne, if_false]
  rw [runAnalysis_done]

/-- C24, as stated, fails: with an image captured and no recommended plants stored, the land
summary carries the trees Apple, Maple, Oak, Cherry, Dogwood, while the Default plant table has
the trees Oak, Maple, Pine, Fruit Trees, Flowering Dogwood. -/
theorem analyzeLand_fallback_trees_differ :
    (analyzeLand
        ({ (initialScanState : ScanState ℚ) with
            capturedImage := some "data:image/png;base64,iVBORw0KGgo=" })).landData.map
        (fun landData => landData.recommendedPlants.lookup "trees") =
      some (some ["Apple", "Maple", "Oak", "Cherry", "Dogwood"]) ∧
    (PLANT_DATABASE.climateZones.lookup "Default").bind (fun d => d.lookup "trees") =
      some ["Oak", "Maple", "Pine", "Fruit Trees", "Flowering Dogwood"] ∧
    (["Apple", "Maple", "Oak", "Cherry", "Dogwood"] : List String) ≠
      ["Oak", "Maple", "Pine", "Fruit Trees", "Flowering Dogwood"] := by
  refine ⟨?_, by decide, by decide⟩
  rw [analyzeLand_landData _ "data:image/png;base64,iVBORw0KGgo=" rfl (by decide)]
  rfl

/-- C24, amended. With an image captured and no recommended plants stored, the land summary
built by `analyzeLand` carries the fallback literal of the form: it equals the Default plant
table in shrubs, perennials, annuals, groundcovers and edibles, and its trees are Apple, Maple,
Oak, Cherry, Dogwood. -/
theorem analyzeLand_fallback_plants {R : Type} (s : ScanState R) (image : String)
    (hi : s.capturedImage = some image) (hne : image ≠ "")
    (hp : s.recommendedPlants = none) :
    ∃ landData, (analyzeLand s).landData = some landData ∧
      landData.recommendedPlants = fallbackPlants ∧
      landData.recommendedPlants.lookup "trees" =
        some ["Apple", "Maple", "Oak", "Cherry", "Dogwood"] ∧
      ∀ category ∈ ["shrubs", "perennials", "annuals", "groundcovers", "edibles"],
        landData.recommendedPlants.lookup category =
          (PLANT_DATABASE.climateZones.lookup "Default").bind (fun d => d.lookup category) ∧
        (landData.recommendedPlants.lookup category).isSome = true := by
  refine ⟨_, analyzeLand_landData s image hi hne, ?_⟩
  have h1 : (buildLandData image
      { s with isAnalyzing := true, analysisProgress := 100 }).recommendedPlants =
      fallbackPlants := by
    simp only [buildLandData, hp, Option.getD_none]
  rw [h1]
  exact ⟨rfl, by decide, by decide⟩

theorem analyzeLand_fallback_plants_witness :
    ∃ landData : LandData ℚ,
      (analyzeLand
        ({ (initialScanState : ScanState ℚ) with
            capturedImage := some "data:image/png;base64,iVBORw0KGgo=" })).landData =
        some landData ∧
      landData.recommendedPlants = fallbackPlants :=
  let ⟨ld, h1, h2, _⟩ :=
    analyzeLand_fallback_plants
      ({ (initialScanState : ScanState ℚ) with
          capturedImage := some "data:image/png;base64,iVBORw0KGgo=" })
      "data:image/png;base64,iVBORw0KGgo=" rfl (by decide) rfl
  ⟨ld, h1, h2⟩

/-! ## Changes of the zipcode field -/

theorem derivedClimates_plain : ∀ c ∈ derivedClimates, c ∉ objectPrototypeNames := by decide

theorem derivedClimates_elements :
    ∀ c ∈ derivedClimates,
      (match getFengShuiRecommendations c with
        | .own _ => true
        | _ => false) = true := by decide

theorem getFengShuiRecommendations_derived (zipcode : String) :
    ∃ t, getFengShuiRecommendations (getClimateFromZipcode zipcode) = .own t := by
  have h := derivedClimates_elements _ (getClimateFromZipcode_mem zipcode)
  split at h
  · exact ⟨_, by assumption⟩
  · simp at h

/-- A code that does not name a member of `Object.prototype` gets a plant record. -/
theorem getRecommendedPlants_record (zipcode : String) (hz : zipcode ∉ objectPrototypeNames) :
    ∃ r, getRecommendedPlants zipcode (getClimateFromZipcode zipcode)
      (getHardinessZone zipcode) = .record r := by
  obtain ⟨l, hl, _⟩ := getRecommendedPlants_categories_nonempty zipcode
    (getClimateFromZipcode zipcode) (getHardinessZone zipcode) "trees" hz
    (derivedClimates_plain _ (getClimateFromZipcode_mem zipcode)) (by decide)
  cases hr : getRecommendedPlants zipcode (getClimateFromZipcode zipcode)
      (getHardinessZone zipcode) with
  | record r => exact ⟨r, rfl⟩
  | inherited n => rw [hr] at hl; simp [PlantResult.category?] at hl
  | typeError => rw [hr] at hl; simp [PlantResult.category?] at hl

theorem handleZipcodeChange_short {R : Type} (code : String) (s : ScanState R)
    (h : ¬ jsLength code ≥ 5) :
    handleZipcodeChange code s = .ok { s with zipcode := code } := by
  simp only [handleZipcodeChange, h, if_false]

theorem handleZipcodeChange_long {R : Type} (code : String) (s : ScanState R)
    (h : jsLength code ≥ 5) (r : PlantRecord) (t : ElementTable)
    (hr : getRecommendedPlants code (getClimateFromZipcode code) (getHardinessZone code) =
      .record r)
    (ht : getFengShuiRecommendations (getClimateFromZipcode code) = .own t) :
    handleZipcodeChange code s =
      .ok { s with zipcode := code, climate := getClimateFromZipcode code,
                   hardinessZone := getHardinessZone code, recommendedPlants := some r,
                   fengShuiElements := some t } := by
  simp only [handleZipcodeChange, h, if_true, hr, ht]

/-- A change either fails or stores the code; a code of at least 5 characters brings its own
classification, a shorter one leaves the stored classification as it was. -/
theorem handleZipcodeChange_classified {R : Type} (code : String) (s s' : ScanState R)
    (last : Option String) (hc : Classified last s)
    (h : handleZipcodeChange code s = .ok s') :
    s'.zipcode = code ∧
      Classified (if jsLength code ≥ 5 then some code else last) s' := by
  by_cases hl : jsLength code ≥ 5
  · simp only [hl, if_true]
    cases hr : getRecommendedPlants code (getClimateFromZipcode code)
        (getHardinessZone code) with
    | typeError => simp [handleZipcodeChange, hl, hr] at h
    | inherited n => simp [handleZipcodeChange, hl, hr] at h
    | record r =>
      obtain ⟨t, ht⟩ := getFengShuiRecommendations_derived code
      rw [handleZipcodeChange_long code s hl r t hr ht] at h
      injection h with h
      subst h
      exact ⟨rfl, rfl, rfl, by simp [hr], by simp [ht]⟩
  · simp only [hl, if_false]
    rw [handleZipcodeChange_short code s hl] at h
    injection h with h
    subst h
    refine ⟨rfl, ?_⟩
    cases last with
    | none => exact hc
    | some c => exact hc

theorem runChanges_classified {R : Type} (codes : List String) :
    ∀ (s s' : ScanState R) (last : Option String), Classified last s →
      runChanges codes s = .ok s' →
      s'.zipcode = codes.foldl (fun _ code => code) s.zipcode ∧
        Classified (lastResolvedFrom last codes) s' := by
  induction codes with
  | nil =>
    intro s s' last hc h
    simp only [runChanges] at h
    injection h with h
    subst h
    exact ⟨rfl, hc⟩
  | cons code rest ih =>
    intro s s' last hc h
    simp only [runChanges] at h
    cases hs : handleZipcodeChange code s with
    | error e => rw [hs] at h; simp at h
    | ok s₁ =>
      rw [hs] at h
      obtain ⟨hz, hc₁⟩ := handleZipcodeChange_classified code s s₁ last hc hs
      obtain ⟨h1, h2⟩ := ih s₁ s' _ hc₁ h
      rw [hz] at h1
      exact ⟨h1, h2⟩

/-- Changes to codes that do not name a member of `Object.prototype` all succeed. -/
theorem runChanges_ok {R : Type} (codes : List String) :
    ∀ (s : ScanState R), (∀ c ∈ codes, c ∉ objectPrototypeNames) →
      ∃ s', runChanges codes s = .ok s' := by
  induction codes with
  | nil => intro s _; exact ⟨s, rfl⟩
  | cons code rest ih =>
    intro s hc
    have hcode := hc code (List.mem_cons_self _ _)
    have hrest : ∀ c ∈ rest, c ∉ objectPrototypeNames :=
      fun c hm => hc c (List.mem_cons_of_mem _ hm)
    have hstep : ∃ s₁, handleZipcodeChange code s = .ok s₁ := by
      by_cases hl : jsLength code ≥ 5
      · obtain ⟨r, hr⟩ := getRecommendedPlants_record code hcode
        obtain ⟨t, ht⟩ := getFengShuiRecommendations_derived code
        exact ⟨_, handleZipcodeChange_long code s hl r t hr ht⟩
      · exact ⟨_, handleZipcodeChange_short code s hl⟩
    obtain ⟨s₁, hs⟩ := hstep
    obtain ⟨s', h'⟩ := ih s₁ hrest
    refine ⟨s', ?_⟩
    simp only [runChanges, hs]
    exact h'

theorem lastResolved_of_long (codes : List String) (start : Option String)
    (h : jsLength (lastCode codes) ≥ 5) :
    lastResolvedFrom start codes = some (lastCode codes) := by
  rcases List.eq_nil_or_concat codes with rfl | ⟨init, c, rfl⟩
  · simp [lastCode, jsLength] at h
  · rw [List.concat_eq_append] at h ⊢
    have e : lastCode (init ++ [c]) = c := by simp [lastCode, List.foldl_append]
    rw [e] at h
    rw [e]
    simp [lastResolvedFrom, List.foldl_append, h]

theorem initial_unresolved {R : Type} : Classified none (initialScanState : ScanState R) :=
  ⟨rfl, rfl, rfl, rfl⟩

/-- C25, as stated, fails: after the changes to "10001" and then to "1000" the stored code has
fewer than 5 characters, yet the stored climate is Continental, the stored hardiness zone is
that of "10001", and plants and elements are stored. -/
theorem stale_classification_after_short_code :
    ∃ s : ScanState ℚ, runChanges ["10001", "1000"] initialScanState = .ok s ∧
      s.zipcode = "1000" ∧ jsLength s.zipcode < 5 ∧
      s.climate = "Continental" ∧ s.climate ≠ "" ∧
      s.hardinessZone = getHardinessZone "10001" ∧
      s.recommendedPlants ≠ none ∧ s.fengShuiElements ≠ none := by
  obtain ⟨s, hs⟩ := runChanges_ok ["10001", "1000"] (initialScanState : ScanState ℚ)
    (by decide)
  obtain ⟨hz, hc⟩ := runChanges_classified _ _ s none initial_unresolved hs
  have hl : lastResolvedFrom none ["10001", "1000"] = some "10001" := by decide
  rw [hl] at hc
  obtain ⟨h1, h2, h3, h4⟩ := hc
  have hclim : getClimateFromZipcode "10001" = "Continental" := by decide
  have hzip : s.zipcode = "1000" := hz
  refine ⟨s, hs, hzip, ?_, ?_, ?_, h2, ?_, ?_⟩
  · rw [hzip]; decide
  · rw [h1, hclim]
  · rw [h1, hclim]; decide
  · intro hn; rw [hn] at h3; simp at h3
  · intro hn; rw [hn] at h4; simp at h4

/-- C25, amended. After any sequence of location-code changes none of which names a member of
`Object.prototype`, the stored code is the last code entered, and the stored climate, hardiness
zone, plants and elements are those of the last code of at least 5 characters entered, or
unresolved when no such code has been entered; so they match the stored code whenever that
code has at least 5 characters. -/
theorem runChanges_invariant {R : Type} (codes : List String)
    (hc : ∀ c ∈ codes, c ∉ objectPrototypeNames) :
    ∃ s : ScanState R, runChanges codes initialScanState = .ok s ∧
      s.zipcode = lastCode codes ∧
      Classified (lastResolvedFrom none codes) s ∧
      (jsLength s.zipcode ≥ 5 → Classified (some s.zipcode) s) := by
  obtain ⟨s, hs⟩ := runChanges_ok codes (initialScanState : ScanState R) hc
  obtain ⟨hz, hcl⟩ := runChanges_classified codes _ s none initial_unresolved hs
  have hz' : s.zipcode = lastCode codes := hz
  refine ⟨s, hs, hz', hcl, ?_⟩
  intro hlen
  rw [hz'] at hlen
  rw [hz', ← lastResolved_of_long codes none hlen]
  exact hcl

theorem runChanges_invariant_witness :
    ∃ s : ScanState ℚ, runChanges ["9021", "90210"] initialScanState = .ok s ∧
      s.zipcode = lastCode ["9021", "90210"] ∧
      Classified (lastResolvedFrom none ["9021", "90210"]) s ∧
      (jsLength s.zipcode ≥ 5 → Classified (some s.zipcode) s) :=
  runChanges_invariant ["9021", "90210"] (by decide)

/-! ## A malformed code in the form -/

/-- C6, failing input. The code "abcde", typed into the zipcode field of the form, has five
characters, so the form resolves it.  Its first two characters are not decimal digits:
`getHardinessZone` does not read them as 0 (the code "00cde" gets "3a") and returns "NaNb",
whose first character is not a digit, so it is no zone; the empty code gets "NaNb" as well.
For the same code `getClimateFromZipcode` falls back to "Unknown".  The form stores "NaNb" as
the hardiness zone. -/
theorem hardinessZone_of_malformed_code_not_a_zone :
    jsLength "abcde" ≥ 5 ∧
    getHardinessZone "abcde" = "NaNb" ∧ getHardinessZone "00cde" = "3a" ∧
    getHardinessZone "abcde" ≠ getHardinessZone "00cde" ∧
    digitAt (getHardinessZone "abcde") 0 = false ∧
    getHardinessZone "" = "NaNb" ∧
    getClimateFromZipcode "abcde" = "Unknown" ∧
    ∃ s : ScanState ℚ, handleZipcodeChange "abcde" initialScanState = .ok s ∧
      s.zipcode = "abcde" ∧ s.climate = "Unknown" ∧ s.hardinessZone = "NaNb" := by
  have hbad : getHardinessZone "abcde" = "NaNb" :=
    getHardinessZone_malformed "abcde" (Or.inl (by decide))
  have hzero : getHardinessZone "00cde" = "3a" := by
    rw [getHardinessZone_of_parse "00cde" 0 0 (by decide) (by simp [charAt, parseInt])
      (by simp [charAt, parseInt])]
    have hv : specBaseZone 0 0 = ((3 : ℤ) : ℚ) := by norm_num [specBaseZone, bandConstant]
    rw [hv, specZoneString_intCast]
    decide
  have hclimate : getClimateFromZipcode "abcde" = "Unknown" := by decide
  obtain ⟨r, hr⟩ := getRecommendedPlants_record "abcde" (by decide)
  obtain ⟨t, ht⟩ := getFengShuiRecommendations_derived "abcde"
  refine ⟨by decide, hbad, hzero, ?_, ?_, getHardinessZone_malformed "" (Or.inl (by decide)),
    hclimate, _, handleZipcodeChange_long "abcde" initialScanState (by decide) r t hr ht,
    rfl, hclimate, hbad⟩
  · rw [hbad, hzero]
    decide
  · rw [hbad]
    decide

end ScanLand
